import Mathlib

/-!
# Chipmunk2D FFI binding layer

A model of `chipmunk2d_physics_ffi.c` / `chipmunk2d_physics_ffi.h`.  Every exported wrapper is a
small program over the physics engine: it performs engine calls and returns a value.  The engine
itself is outside these sources, so it is a parameter: an `Engine` answers each call and threads
its own state.  A wrapper is the `Prog` it runs; `Prog.run` executes it against an engine and
records the calls that were made.
-/

namespace Chipmunk

/-! ## C types and values -/

/-- The C types that occur in the exported signatures and in the engine calls.  The engine's
object types (`cpSpace`, `cpBody`, ...) are only ever used behind a pointer. -/
inductive CTy where
  | void
  | int
  | unsignedInt
  | uintptr_t
  | cpFloat
  | cpBool
  | cpBodyType
  | cpCollisionType
  | cpGroup
  | cpBitmask
  | cpVect
  | cpBB
  | cpTransform
  | cpShapeFilter
  | cpContactPointSet
  | cpSpace
  | cpBody
  | cpShape
  | cpConstraint
  | cpArbiter
  | cpSegmentQueryInfo
  | cpPointQueryInfo
  | ptr (pointee : CTy)
  deriving DecidableEq, Repr

/-- A pointer is its address; address `0` is `NULL`.  The pointee type is part of the Lean type,
as it is part of the C type. -/
structure Ptr (pointee : CTy) where
  addr : Nat
  deriving DecidableEq, Repr

/-- The null pointer, `NULL`. -/
def NULL {pointee : CTy} : Ptr pointee := ⟨0⟩

/-- The engine's floating-point number, held as its bit pattern.  The binding does no arithmetic
on it: values are only handed on. -/
structure cpFloat where
  bits : Nat
  deriving DecidableEq, Repr

/-- The engine's boolean, an unsigned byte: zero is false, anything else is true. -/
abbrev cpBool := Nat

/-- Modelled from the spec: the engine's boolean constant for true (the engine header that
defines `cpTrue` is not among the sources); the binding's "boolean-to-integer conversions" take
true to be 1. -/
def cpTrue : cpBool := 1

/-- Modelled from the spec: the engine's boolean constant for false (the engine header that
defines `cpFalse` is not among the sources); false is 0. -/
def cpFalse : cpBool := 0

/-- The 2D vector, an `(x, y)` pair passed by value. -/
structure cpVect where
  x : cpFloat
  y : cpFloat
  deriving DecidableEq, Repr

/-- An axis-aligned bounding box, passed by value.  The binding never looks inside. -/
structure cpBB where
  l : cpFloat
  b : cpFloat
  r : cpFloat
  t : cpFloat
  deriving DecidableEq, Repr

/-- An affine transform, passed by value.  The binding never looks inside. -/
structure cpTransform where
  a : cpFloat
  b : cpFloat
  c : cpFloat
  d : cpFloat
  tx : cpFloat
  ty : cpFloat
  deriving DecidableEq, Repr

/-- The collision filter: group, category bitmask and mask bitmask. -/
structure cpShapeFilter where
  group : Nat
  categories : Nat
  mask : Nat
  deriving DecidableEq, Repr

/-- One contact point of a contact point set: the two world positions and the penetration
distance. -/
structure cpContactPoint where
  pointA : cpVect
  pointB : cpVect
  distance : cpFloat
  deriving DecidableEq, Repr

/-- The contact point set of a colliding pair, passed by value. -/
structure cpContactPointSet where
  count : Int
  normal : cpVect
  points : List cpContactPoint
  deriving DecidableEq, Repr

/-- The Lean type of the values of a C type.  `int` is an integer, the unsigned types are
naturals, the engine's enumeration `cpBodyType` is the integer value of its tag; an object type
that is only used behind a pointer has no values of its own. -/
def CTy.denote : CTy → Type
  | .void => Unit
  | .int => Int
  | .unsignedInt => Nat
  | .uintptr_t => Nat
  | .cpFloat => Chipmunk.cpFloat
  | .cpBool => Chipmunk.cpBool
  | .cpBodyType => Int
  | .cpCollisionType => Nat
  | .cpGroup => Nat
  | .cpBitmask => Nat
  | .cpVect => Chipmunk.cpVect
  | .cpBB => Chipmunk.cpBB
  | .cpTransform => Chipmunk.cpTransform
  | .cpShapeFilter => Chipmunk.cpShapeFilter
  | .cpContactPointSet => Chipmunk.cpContactPointSet
  | .cpSpace => Unit
  | .cpBody => Unit
  | .cpShape => Unit
  | .cpConstraint => Unit
  | .cpArbiter => Unit
  | .cpSegmentQueryInfo => Unit
  | .cpPointQueryInfo => Unit
  | .ptr t => Ptr t

instance CTy.decEqDenote : (t : CTy) → DecidableEq t.denote
  | .void => inferInstanceAs (DecidableEq Unit)
  | .int => inferInstanceAs (DecidableEq Int)
  | .unsignedInt => inferInstanceAs (DecidableEq Nat)
  | .uintptr_t => inferInstanceAs (DecidableEq Nat)
  | .cpFloat => inferInstanceAs (DecidableEq Chipmunk.cpFloat)
  | .cpBool => inferInstanceAs (DecidableEq Nat)
  | .cpBodyType => inferInstanceAs (DecidableEq Int)
  | .cpCollisionType => inferInstanceAs (DecidableEq Nat)
  | .cpGroup => inferInstanceAs (DecidableEq Nat)
  | .cpBitmask => inferInstanceAs (DecidableEq Nat)
  | .cpVect => inferInstanceAs (DecidableEq Chipmunk.cpVect)
  | .cpBB => inferInstanceAs (DecidableEq Chipmunk.cpBB)
  | .cpTransform => inferInstanceAs (DecidableEq Chipmunk.cpTransform)
  | .cpShapeFilter => inferInstanceAs (DecidableEq Chipmunk.cpShapeFilter)
  | .cpContactPointSet => inferInstanceAs (DecidableEq Chipmunk.cpContactPointSet)
  | .cpSpace => inferInstanceAs (DecidableEq Unit)
  | .cpBody => inferInstanceAs (DecidableEq Unit)
  | .cpShape => inferInstanceAs (DecidableEq Unit)
  | .cpConstraint => inferInstanceAs (DecidableEq Unit)
  | .cpArbiter => inferInstanceAs (DecidableEq Unit)
  | .cpSegmentQueryInfo => inferInstanceAs (DecidableEq Unit)
  | .cpPointQueryInfo => inferInstanceAs (DecidableEq Unit)
  | .ptr t => inferInstanceAs (DecidableEq (Ptr t))

/-- The value a function of result type `t` yields when it has nothing better: zero, null, the
zero vector. -/
def CTy.zero : (t : CTy) → t.denote
  | .void => ()
  | .int => (0 : Int)
  | .unsignedInt => (0 : Nat)
  | .uintptr_t => (0 : Nat)
  | .cpFloat => (⟨0⟩ : Chipmunk.cpFloat)
  | .cpBool => (0 : Nat)
  | .cpBodyType => (0 : Int)
  | .cpCollisionType => (0 : Nat)
  | .cpGroup => (0 : Nat)
  | .cpBitmask => (0 : Nat)
  | .cpVect => (⟨⟨0⟩, ⟨0⟩⟩ : Chipmunk.cpVect)
  | .cpBB => (⟨⟨0⟩, ⟨0⟩, ⟨0⟩, ⟨0⟩⟩ : Chipmunk.cpBB)
  | .cpTransform => (⟨⟨0⟩, ⟨0⟩, ⟨0⟩, ⟨0⟩, ⟨0⟩, ⟨0⟩⟩ : Chipmunk.cpTransform)
  | .cpShapeFilter => (⟨0, 0, 0⟩ : Chipmunk.cpShapeFilter)
  | .cpContactPointSet => (⟨0, ⟨⟨0⟩, ⟨0⟩⟩, []⟩ : Chipmunk.cpContactPointSet)
  | .cpSpace => ()
  | .cpBody => ()
  | .cpShape => ()
  | .cpConstraint => ()
  | .cpArbiter => ()
  | .cpSegmentQueryInfo => ()
  | .cpPointQueryInfo => ()
  | .ptr _ => ⟨0⟩

/-- A C value together with its type: what is handed to the engine as an argument. -/
structure Val where
  ty : CTy
  val : ty.denote

instance Val.decEq : DecidableEq Val := fun a b =>
  match a, b with
  | ⟨s, x⟩, ⟨t, y⟩ =>
    if h : s = t then
      match s, t, h, x, y with
      | s, _, rfl, x, y =>
        if h2 : x = y then isTrue (by rw [h2]) else isFalse (fun e => h2 (by cases e; rfl))
    else isFalse (fun e => h (by cases e; rfl))

/-- The value read back at type `t`; the zero of `t` when the value is of another type. -/
def Val.as (v : Val) (t : CTy) : t.denote :=
  if h : v.ty = t then h ▸ v.val else t.zero

/-! ## Engine functions, programs and their execution -/

/-- An engine function: its name and the type of its result. -/
structure EngineFn where
  name : String
  ret : CTy
  deriving DecidableEq, Repr

/-- The Lean type of the result of an engine function. -/
abbrev Ret (f : EngineFn) : Type := f.ret.denote

/-- A wrapper body: it returns a value, or calls an engine function on a list of arguments and
goes on with the result. -/
inductive Prog (α : Type) where
  | ret (a : α) : Prog α
  | call (f : EngineFn) (args : List Val) (k : Ret f → Prog α) : Prog α

/-- One engine call as it is observed: the function and the arguments it received. -/
structure Call where
  fn : EngineFn
  args : List Val
  deriving DecidableEq

/-- An engine: for each function, its result and the next engine state, from the arguments and
the current state. -/
structure Engine (σ : Type) where
  exec : (f : EngineFn) → List Val → σ → Ret f × σ

/-- What running a program gives: the returned value, the engine state afterwards, and the engine
calls made, in order. -/
structure Outcome (σ α : Type) where
  value : α
  state : σ
  trace : List Call

/-- Runs a program against an engine from a state. -/
def Prog.run {σ α : Type} (E : Engine σ) : Prog α → σ → Outcome σ α
  | .ret a, s => ⟨a, s, []⟩
  | .call f args k, s =>
    let r := E.exec f args s
    let o := (k r.1).run E r.2
    ⟨o.value, o.state, ⟨f, args⟩ :: o.trace⟩

/-! ## Casts -/

/-- The cast `(cpBodyType)type` of an `int` to the engine's body-type enumeration.  The engine
header that declares the enumeration is not among the sources; its kinds have no negative value,
so the compiled enumeration is a 32-bit unsigned integer and the cast takes the integer modulo
2^32: a value from 0 to 2^31 - 1 is kept, -1 becomes 4294967295. -/
def cpBodyType_of_int (i : Int) : Int := i % 4294967296

/-- The cast `(int)` of the engine's body-type enumeration, a 32-bit unsigned value, to the 32-bit
signed `int`: a value below 2^31 is kept, a value from 2^31 on comes out lowered by 2^32, so
4294967295 becomes -1. -/
def int_of_cpBodyType (t : Int) : Int := (t + 2147483648) % 4294967296 - 2147483648

/-- The cast `(cpCollisionType)collisionType` of a `uintptr_t`: the engine's collision type is an
unsigned integer of pointer width, so the value is kept. -/
def cpCollisionType_of_uintptr (c : Nat) : Nat := c

/-- The cast `(uintptr_t)` of the engine's collision type: the value is kept. -/
def uintptr_of_cpCollisionType (c : Nat) : Nat := c

/-! ## The engine functions the binding calls

Each engine function is named as the implementation file names it, with the type of its result.
The engine header is not among the sources; the result type is the one the calling wrapper
returns or converts from.  Where a wrapper drops the result the function is taken to return
nothing, except for the three `cpSpaceAdd...` functions, which hand back the object they were
given. -/

/-- The engine function cpSpaceNew. -/
def cpSpaceNew : EngineFn := ⟨"cpSpaceNew", .ptr .cpSpace⟩

/-- The engine function cpSpaceFree. -/
def cpSpaceFree : EngineFn := ⟨"cpSpaceFree", .void⟩

/-- The engine function cpSpaceStep. -/
def cpSpaceStep : EngineFn := ⟨"cpSpaceStep", .void⟩

/-- The engine function cpSpaceSetGravity. -/
def cpSpaceSetGravity : EngineFn := ⟨"cpSpaceSetGravity", .void⟩

/-- The engine function cpSpaceGetGravity. -/
def cpSpaceGetGravity : EngineFn := ⟨"cpSpaceGetGravity", .cpVect⟩

/-- The engine function cpSpaceSetIterations. -/
def cpSpaceSetIterations : EngineFn := ⟨"cpSpaceSetIterations", .void⟩

/-- The engine function cpSpaceSetCollisionSlop. -/
def cpSpaceSetCollisionSlop : EngineFn := ⟨"cpSpaceSetCollisionSlop", .void⟩

/-- The engine function cpSpaceSetDamping. -/
def cpSpaceSetDamping : EngineFn := ⟨"cpSpaceSetDamping", .void⟩

/-- The engine function cpSpaceSetIdleSpeedThreshold. -/
def cpSpaceSetIdleSpeedThreshold : EngineFn := ⟨"cpSpaceSetIdleSpeedThreshold", .void⟩

/-- The engine function cpSpaceSetSleepTimeThreshold. -/
def cpSpaceSetSleepTimeThreshold : EngineFn := ⟨"cpSpaceSetSleepTimeThreshold", .void⟩

/-- The engine function cpSpaceSetCollisionBias. -/
def cpSpaceSetCollisionBias : EngineFn := ⟨"cpSpaceSetCollisionBias", .void⟩

/-- The engine function cpSpaceSetCollisionPersistence. -/
def cpSpaceSetCollisionPersistence : EngineFn := ⟨"cpSpaceSetCollisionPersistence", .void⟩

/-- The engine function cpSpaceReindexStatic. -/
def cpSpaceReindexStatic : EngineFn := ⟨"cpSpaceReindexStatic", .void⟩

/-- The engine function cpSpaceReindexShape. -/
def cpSpaceReindexShape : EngineFn := ⟨"cpSpaceReindexShape", .void⟩

/-- The engine function cpSpaceReindexShapesForBody. -/
def cpSpaceReindexShapesForBody : EngineFn := ⟨"cpSpaceReindexShapesForBody", .void⟩

/-- The engine function cpSpaceGetStaticBody. -/
def cpSpaceGetStaticBody : EngineFn := ⟨"cpSpaceGetStaticBody", .ptr .cpBody⟩

/-- The engine function cpSpaceGetIterations. -/
def cpSpaceGetIterations : EngineFn := ⟨"cpSpaceGetIterations", .int⟩

/-- The engine function cpSpaceGetDamping. -/
def cpSpaceGetDamping : EngineFn := ⟨"cpSpaceGetDamping", .cpFloat⟩

/-- The engine function cpSpaceGetIdleSpeedThreshold. -/
def cpSpaceGetIdleSpeedThreshold : EngineFn := ⟨"cpSpaceGetIdleSpeedThreshold", .cpFloat⟩

/-- The engine function cpSpaceGetSleepTimeThreshold. -/
def cpSpaceGetSleepTimeThreshold : EngineFn := ⟨"cpSpaceGetSleepTimeThreshold", .cpFloat⟩

/-- The engine function cpSpaceGetCollisionSlop. -/
def cpSpaceGetCollisionSlop : EngineFn := ⟨"cpSpaceGetCollisionSlop", .cpFloat⟩

/-- The engine function cpSpaceGetCollisionBias. -/
def cpSpaceGetCollisionBias : EngineFn := ⟨"cpSpaceGetCollisionBias", .cpFloat⟩

/-- The engine function cpSpaceGetCollisionPersistence. -/
def cpSpaceGetCollisionPersistence : EngineFn := ⟨"cpSpaceGetCollisionPersistence", .unsignedInt⟩

/-- The engine function cpSpaceGetCurrentTimeStep. -/
def cpSpaceGetCurrentTimeStep : EngineFn := ⟨"cpSpaceGetCurrentTimeStep", .cpFloat⟩

/-- The engine function cpSpaceIsLocked. -/
def cpSpaceIsLocked : EngineFn := ⟨"cpSpaceIsLocked", .cpBool⟩

/-- The engine function cpSpaceContainsBody. -/
def cpSpaceContainsBody : EngineFn := ⟨"cpSpaceContainsBody", .cpBool⟩

/-- The engine function cpSpaceContainsShape. -/
def cpSpaceContainsShape : EngineFn := ⟨"cpSpaceContainsShape", .cpBool⟩

/-- The engine function cpSpaceContainsConstraint. -/
def cpSpaceContainsConstraint : EngineFn := ⟨"cpSpaceContainsConstraint", .cpBool⟩

/-- The engine function cpSpaceAddConstraint. -/
def cpSpaceAddConstraint : EngineFn := ⟨"cpSpaceAddConstraint", .ptr .cpConstraint⟩

/-- The engine function cpSpaceRemoveConstraint. -/
def cpSpaceRemoveConstraint : EngineFn := ⟨"cpSpaceRemoveConstraint", .void⟩

/-- The engine function cpSpaceSegmentQueryFirst. -/
def cpSpaceSegmentQueryFirst : EngineFn := ⟨"cpSpaceSegmentQueryFirst", .ptr .cpShape⟩

/-- The engine function cpSpaceShapeQuery. -/
def cpSpaceShapeQuery : EngineFn := ⟨"cpSpaceShapeQuery", .cpBool⟩

/-- The engine function cpBodyNew. -/
def cpBodyNew : EngineFn := ⟨"cpBodyNew", .ptr .cpBody⟩

/-- The engine function cpBodyNewKinematic. -/
def cpBodyNewKinematic : EngineFn := ⟨"cpBodyNewKinematic", .ptr .cpBody⟩

/-- The engine function cpBodyNewStatic. -/
def cpBodyNewStatic : EngineFn := ⟨"cpBodyNewStatic", .ptr .cpBody⟩

/-- The engine function cpBodyFree. -/
def cpBodyFree : EngineFn := ⟨"cpBodyFree", .void⟩

/-- The engine function cpBodySetPosition. -/
def cpBodySetPosition : EngineFn := ⟨"cpBodySetPosition", .void⟩

/-- The engine function cpBodyGetPosition. -/
def cpBodyGetPosition : EngineFn := ⟨"cpBodyGetPosition", .cpVect⟩

/-- The engine function cpBodySetVelocity. -/
def cpBodySetVelocity : EngineFn := ⟨"cpBodySetVelocity", .void⟩

/-- The engine function cpBodyGetVelocity. -/
def cpBodyGetVelocity : EngineFn := ⟨"cpBodyGetVelocity", .cpVect⟩

/-- The engine function cpBodySetAngle. -/
def cpBodySetAngle : EngineFn := ⟨"cpBodySetAngle", .void⟩

/-- The engine function cpBodyGetAngle. -/
def cpBodyGetAngle : EngineFn := ⟨"cpBodyGetAngle", .cpFloat⟩

/-- The engine function cpBodyGetMass. -/
def cpBodyGetMass : EngineFn := ⟨"cpBodyGetMass", .cpFloat⟩

/-- The engine function cpBodySetMass. -/
def cpBodySetMass : EngineFn := ⟨"cpBodySetMass", .void⟩

/-- The engine function cpBodyGetMoment. -/
def cpBodyGetMoment : EngineFn := ⟨"cpBodyGetMoment", .cpFloat⟩

/-- The engine function cpBodySetMoment. -/
def cpBodySetMoment : EngineFn := ⟨"cpBodySetMoment", .void⟩

/-- The engine function cpBodyGetCenterOfGravity. -/
def cpBodyGetCenterOfGravity : EngineFn := ⟨"cpBodyGetCenterOfGravity", .cpVect⟩

/-- The engine function cpBodySetCenterOfGravity. -/
def cpBodySetCenterOfGravity : EngineFn := ⟨"cpBodySetCenterOfGravity", .void⟩

/-- The engine function cpBodyGetForce. -/
def cpBodyGetForce : EngineFn := ⟨"cpBodyGetForce", .cpVect⟩

/-- The engine function cpBodySetForce. -/
def cpBodySetForce : EngineFn := ⟨"cpBodySetForce", .void⟩

/-- The engine function cpBodyGetAngularVelocity. -/
def cpBodyGetAngularVelocity : EngineFn := ⟨"cpBodyGetAngularVelocity", .cpFloat⟩

/-- The engine function cpBodySetAngularVelocity. -/
def cpBodySetAngularVelocity : EngineFn := ⟨"cpBodySetAngularVelocity", .void⟩

/-- The engine function cpBodyGetTorque. -/
def cpBodyGetTorque : EngineFn := ⟨"cpBodyGetTorque", .cpFloat⟩

/-- The engine function cpBodySetTorque. -/
def cpBodySetTorque : EngineFn := ⟨"cpBodySetTorque", .void⟩

/-- The engine function cpBodyGetRotation. -/
def cpBodyGetRotation : EngineFn := ⟨"cpBodyGetRotation", .cpVect⟩

/-- The engine function cpBodyGetType. -/
def cpBodyGetType : EngineFn := ⟨"cpBodyGetType", .cpBodyType⟩

/-- The engine function cpBodySetType. -/
def cpBodySetType : EngineFn := ⟨"cpBodySetType", .void⟩

/-- The engine function cpBodyIsSleeping. -/
def cpBodyIsSleeping : EngineFn := ⟨"cpBodyIsSleeping", .cpBool⟩

/-- The engine function cpBodyActivate. -/
def cpBodyActivate : EngineFn := ⟨"cpBodyActivate", .void⟩

/-- The engine function cpBodyActivateStatic. -/
def cpBodyActivateStatic : EngineFn := ⟨"cpBodyActivateStatic", .void⟩

/-- The engine function cpBodySleep. -/
def cpBodySleep : EngineFn := ⟨"cpBodySleep", .void⟩

/-- The engine function cpBodySleepWithGroup. -/
def cpBodySleepWithGroup : EngineFn := ⟨"cpBodySleepWithGroup", .void⟩

/-- The engine function cpBodyLocalToWorld. -/
def cpBodyLocalToWorld : EngineFn := ⟨"cpBodyLocalToWorld", .cpVect⟩

/-- The engine function cpBodyWorldToLocal. -/
def cpBodyWorldToLocal : EngineFn := ⟨"cpBodyWorldToLocal", .cpVect⟩

/-- The engine function cpBodyApplyForceAtWorldPoint. -/
def cpBodyApplyForceAtWorldPoint : EngineFn := ⟨"cpBodyApplyForceAtWorldPoint", .void⟩

/-- The engine function cpBodyApplyForceAtLocalPoint. -/
def cpBodyApplyForceAtLocalPoint : EngineFn := ⟨"cpBodyApplyForceAtLocalPoint", .void⟩

/-- The engine function cpBodyApplyImpulseAtWorldPoint. -/
def cpBodyApplyImpulseAtWorldPoint : EngineFn := ⟨"cpBodyApplyImpulseAtWorldPoint", .void⟩

/-- The engine function cpBodyApplyImpulseAtLocalPoint. -/
def cpBodyApplyImpulseAtLocalPoint : EngineFn := ⟨"cpBodyApplyImpulseAtLocalPoint", .void⟩

/-- The engine function cpBodyGetVelocityAtWorldPoint. -/
def cpBodyGetVelocityAtWorldPoint : EngineFn := ⟨"cpBodyGetVelocityAtWorldPoint", .cpVect⟩

/-- The engine function cpBodyGetVelocityAtLocalPoint. -/
def cpBodyGetVelocityAtLocalPoint : EngineFn := ⟨"cpBodyGetVelocityAtLocalPoint", .cpVect⟩

/-- The engine function cpBodyKineticEnergy. -/
def cpBodyKineticEnergy : EngineFn := ⟨"cpBodyKineticEnergy", .cpFloat⟩

/-- The engine function cpBodyGetSpace. -/
def cpBodyGetSpace : EngineFn := ⟨"cpBodyGetSpace", .ptr .cpSpace⟩

/-- The engine function cpCircleShapeNew. -/
def cpCircleShapeNew : EngineFn := ⟨"cpCircleShapeNew", .ptr .cpShape⟩

/-- The engine function cpBoxShapeNew. -/
def cpBoxShapeNew : EngineFn := ⟨"cpBoxShapeNew", .ptr .cpShape⟩

/-- The engine function cpSegmentShapeNew. -/
def cpSegmentShapeNew : EngineFn := ⟨"cpSegmentShapeNew", .ptr .cpShape⟩

/-- The engine function cpShapeFree. -/
def cpShapeFree : EngineFn := ⟨"cpShapeFree", .void⟩

/-- The engine function cpShapeSetFriction. -/
def cpShapeSetFriction : EngineFn := ⟨"cpShapeSetFriction", .void⟩

/-- The engine function cpShapeGetFriction. -/
def cpShapeGetFriction : EngineFn := ⟨"cpShapeGetFriction", .cpFloat⟩

/-- The engine function cpShapeSetElasticity. -/
def cpShapeSetElasticity : EngineFn := ⟨"cpShapeSetElasticity", .void⟩

/-- The engine function cpShapeGetElasticity. -/
def cpShapeGetElasticity : EngineFn := ⟨"cpShapeGetElasticity", .cpFloat⟩

/-- The engine function cpShapeGetFilter. -/
def cpShapeGetFilter : EngineFn := ⟨"cpShapeGetFilter", .cpShapeFilter⟩

/-- The engine function cpShapeSetFilter. -/
def cpShapeSetFilter : EngineFn := ⟨"cpShapeSetFilter", .void⟩

/-- The engine function cpShapeFilterNew. -/
def cpShapeFilterNew : EngineFn := ⟨"cpShapeFilterNew", .cpShapeFilter⟩

/-- The engine function cpPolyShapeNew. -/
def cpPolyShapeNew : EngineFn := ⟨"cpPolyShapeNew", .ptr .cpShape⟩

/-- The engine function cpPolyShapeNewRaw. -/
def cpPolyShapeNewRaw : EngineFn := ⟨"cpPolyShapeNewRaw", .ptr .cpShape⟩

/-- The engine function cpBoxShapeNew2. -/
def cpBoxShapeNew2 : EngineFn := ⟨"cpBoxShapeNew2", .ptr .cpShape⟩

/-- The engine function cpShapeGetMass. -/
def cpShapeGetMass : EngineFn := ⟨"cpShapeGetMass", .cpFloat⟩

/-- The engine function cpShapeSetMass. -/
def cpShapeSetMass : EngineFn := ⟨"cpShapeSetMass", .void⟩

/-- The engine function cpShapeGetDensity. -/
def cpShapeGetDensity : EngineFn := ⟨"cpShapeGetDensity", .cpFloat⟩

/-- The engine function cpShapeSetDensity. -/
def cpShapeSetDensity : EngineFn := ⟨"cpShapeSetDensity", .void⟩

/-- The engine function cpShapeGetMoment. -/
def cpShapeGetMoment : EngineFn := ⟨"cpShapeGetMoment", .cpFloat⟩

/-- The engine function cpShapeGetArea. -/
def cpShapeGetArea : EngineFn := ⟨"cpShapeGetArea", .cpFloat⟩

/-- The engine function cpShapeGetCenterOfGravity. -/
def cpShapeGetCenterOfGravity : EngineFn := ⟨"cpShapeGetCenterOfGravity", .cpVect⟩

/-- The engine function cpShapeGetBB. -/
def cpShapeGetBB : EngineFn := ⟨"cpShapeGetBB", .cpBB⟩

/-- The engine function cpShapeGetSensor. -/
def cpShapeGetSensor : EngineFn := ⟨"cpShapeGetSensor", .cpBool⟩

/-- The engine function cpShapeSetSensor. -/
def cpShapeSetSensor : EngineFn := ⟨"cpShapeSetSensor", .void⟩

/-- The engine function cpShapeGetSurfaceVelocity. -/
def cpShapeGetSurfaceVelocity : EngineFn := ⟨"cpShapeGetSurfaceVelocity", .cpVect⟩

/-- The engine function cpShapeSetSurfaceVelocity. -/
def cpShapeSetSurfaceVelocity : EngineFn := ⟨"cpShapeSetSurfaceVelocity", .void⟩

/-- The engine function cpShapeGetCollisionType. -/
def cpShapeGetCollisionType : EngineFn := ⟨"cpShapeGetCollisionType", .cpCollisionType⟩

/-- The engine function cpShapeSetCollisionType. -/
def cpShapeSetCollisionType : EngineFn := ⟨"cpShapeSetCollisionType", .void⟩

/-- The engine function cpShapeGetBody. -/
def cpShapeGetBody : EngineFn := ⟨"cpShapeGetBody", .ptr .cpBody⟩

/-- The engine function cpShapeSetBody. -/
def cpShapeSetBody : EngineFn := ⟨"cpShapeSetBody", .void⟩

/-- The engine function cpShapeGetSpace. -/
def cpShapeGetSpace : EngineFn := ⟨"cpShapeGetSpace", .ptr .cpSpace⟩

/-- The engine function cpShapePointQuery. -/
def cpShapePointQuery : EngineFn := ⟨"cpShapePointQuery", .cpFloat⟩

/-- The engine function cpShapeSegmentQuery. -/
def cpShapeSegmentQuery : EngineFn := ⟨"cpShapeSegmentQuery", .cpBool⟩

/-- The engine function cpShapesCollide. -/
def cpShapesCollide : EngineFn := ⟨"cpShapesCollide", .cpContactPointSet⟩

/-- The engine function cpCircleShapeGetOffset. -/
def cpCircleShapeGetOffset : EngineFn := ⟨"cpCircleShapeGetOffset", .cpVect⟩

/-- The engine function cpCircleShapeGetRadius. -/
def cpCircleShapeGetRadius : EngineFn := ⟨"cpCircleShapeGetRadius", .cpFloat⟩

/-- The engine function cpSegmentShapeGetA. -/
def cpSegmentShapeGetA : EngineFn := ⟨"cpSegmentShapeGetA", .cpVect⟩

/-- The engine function cpSegmentShapeGetB. -/
def cpSegmentShapeGetB : EngineFn := ⟨"cpSegmentShapeGetB", .cpVect⟩

/-- The engine function cpSegmentShapeGetNormal. -/
def cpSegmentShapeGetNormal : EngineFn := ⟨"cpSegmentShapeGetNormal", .cpVect⟩

/-- The engine function cpSegmentShapeGetRadius. -/
def cpSegmentShapeGetRadius : EngineFn := ⟨"cpSegmentShapeGetRadius", .cpFloat⟩

/-- The engine function cpSegmentShapeSetNeighbors. -/
def cpSegmentShapeSetNeighbors : EngineFn := ⟨"cpSegmentShapeSetNeighbors", .void⟩

/-- The engine function cpPolyShapeGetCount. -/
def cpPolyShapeGetCount : EngineFn := ⟨"cpPolyShapeGetCount", .int⟩

/-- The engine function cpPolyShapeGetVert. -/
def cpPolyShapeGetVert : EngineFn := ⟨"cpPolyShapeGetVert", .cpVect⟩

/-- The engine function cpPolyShapeGetRadius. -/
def cpPolyShapeGetRadius : EngineFn := ⟨"cpPolyShapeGetRadius", .cpFloat⟩

/-- The engine function cpSpaceAddBody. -/
def cpSpaceAddBody : EngineFn := ⟨"cpSpaceAddBody", .ptr .cpBody⟩

/-- The engine function cpSpaceRemoveBody. -/
def cpSpaceRemoveBody : EngineFn := ⟨"cpSpaceRemoveBody", .void⟩

/-- The engine function cpSpaceAddShape. -/
def cpSpaceAddShape : EngineFn := ⟨"cpSpaceAddShape", .ptr .cpShape⟩

/-- The engine function cpSpaceRemoveShape. -/
def cpSpaceRemoveShape : EngineFn := ⟨"cpSpaceRemoveShape", .void⟩

/-- The engine function cpv. -/
def cpv : EngineFn := ⟨"cpv", .cpVect⟩

/-- The engine function cpSpacePointQueryNearest. -/
def cpSpacePointQueryNearest : EngineFn := ⟨"cpSpacePointQueryNearest", .ptr .cpShape⟩

/-- The engine function cpConstraintFree. -/
def cpConstraintFree : EngineFn := ⟨"cpConstraintFree", .void⟩

/-- The engine function cpConstraintGetSpace. -/
def cpConstraintGetSpace : EngineFn := ⟨"cpConstraintGetSpace", .ptr .cpSpace⟩

/-- The engine function cpConstraintGetBodyA. -/
def cpConstraintGetBodyA : EngineFn := ⟨"cpConstraintGetBodyA", .ptr .cpBody⟩

/-- The engine function cpConstraintGetBodyB. -/
def cpConstraintGetBodyB : EngineFn := ⟨"cpConstraintGetBodyB", .ptr .cpBody⟩

/-- The engine function cpConstraintGetMaxForce. -/
def cpConstraintGetMaxForce : EngineFn := ⟨"cpConstraintGetMaxForce", .cpFloat⟩

/-- The engine function cpConstraintSetMaxForce. -/
def cpConstraintSetMaxForce : EngineFn := ⟨"cpConstraintSetMaxForce", .void⟩

/-- The engine function cpConstraintGetErrorBias. -/
def cpConstraintGetErrorBias : EngineFn := ⟨"cpConstraintGetErrorBias", .cpFloat⟩

/-- The engine function cpConstraintSetErrorBias. -/
def cpConstraintSetErrorBias : EngineFn := ⟨"cpConstraintSetErrorBias", .void⟩

/-- The engine function cpConstraintGetMaxBias. -/
def cpConstraintGetMaxBias : EngineFn := ⟨"cpConstraintGetMaxBias", .cpFloat⟩

/-- The engine function cpConstraintSetMaxBias. -/
def cpConstraintSetMaxBias : EngineFn := ⟨"cpConstraintSetMaxBias", .void⟩

/-- The engine function cpConstraintGetCollideBodies. -/
def cpConstraintGetCollideBodies : EngineFn := ⟨"cpConstraintGetCollideBodies", .cpBool⟩

/-- The engine function cpConstraintSetCollideBodies. -/
def cpConstraintSetCollideBodies : EngineFn := ⟨"cpConstraintSetCollideBodies", .void⟩

/-- The engine function cpConstraintGetImpulse. -/
def cpConstraintGetImpulse : EngineFn := ⟨"cpConstraintGetImpulse", .cpFloat⟩

/-- The engine function cpPinJointNew. -/
def cpPinJointNew : EngineFn := ⟨"cpPinJointNew", .ptr .cpConstraint⟩

/-- The engine function cpPinJointGetAnchorA. -/
def cpPinJointGetAnchorA : EngineFn := ⟨"cpPinJointGetAnchorA", .cpVect⟩

/-- The engine function cpPinJointSetAnchorA. -/
def cpPinJointSetAnchorA : EngineFn := ⟨"cpPinJointSetAnchorA", .void⟩

/-- The engine function cpPinJointGetAnchorB. -/
def cpPinJointGetAnchorB : EngineFn := ⟨"cpPinJointGetAnchorB", .cpVect⟩

/-- The engine function cpPinJointSetAnchorB. -/
def cpPinJointSetAnchorB : EngineFn := ⟨"cpPinJointSetAnchorB", .void⟩

/-- The engine function cpPinJointGetDist. -/
def cpPinJointGetDist : EngineFn := ⟨"cpPinJointGetDist", .cpFloat⟩

/-- The engine function cpPinJointSetDist. -/
def cpPinJointSetDist : EngineFn := ⟨"cpPinJointSetDist", .void⟩

/-- The engine function cpSlideJointNew. -/
def cpSlideJointNew : EngineFn := ⟨"cpSlideJointNew", .ptr .cpConstraint⟩

/-- The engine function cpSlideJointGetAnchorA. -/
def cpSlideJointGetAnchorA : EngineFn := ⟨"cpSlideJointGetAnchorA", .cpVect⟩

/-- The engine function cpSlideJointSetAnchorA. -/
def cpSlideJointSetAnchorA : EngineFn := ⟨"cpSlideJointSetAnchorA", .void⟩

/-- The engine function cpSlideJointGetAnchorB. -/
def cpSlideJointGetAnchorB : EngineFn := ⟨"cpSlideJointGetAnchorB", .cpVect⟩

/-- The engine function cpSlideJointSetAnchorB. -/
def cpSlideJointSetAnchorB : EngineFn := ⟨"cpSlideJointSetAnchorB", .void⟩

/-- The engine function cpSlideJointGetMin. -/
def cpSlideJointGetMin : EngineFn := ⟨"cpSlideJointGetMin", .cpFloat⟩

/-- The engine function cpSlideJointSetMin. -/
def cpSlideJointSetMin : EngineFn := ⟨"cpSlideJointSetMin", .void⟩

/-- The engine function cpSlideJointGetMax. -/
def cpSlideJointGetMax : EngineFn := ⟨"cpSlideJointGetMax", .cpFloat⟩

/-- The engine function cpSlideJointSetMax. -/
def cpSlideJointSetMax : EngineFn := ⟨"cpSlideJointSetMax", .void⟩

/-- The engine function cpPivotJointNew. -/
def cpPivotJointNew : EngineFn := ⟨"cpPivotJointNew", .ptr .cpConstraint⟩

/-- The engine function cpPivotJointNew2. -/
def cpPivotJointNew2 : EngineFn := ⟨"cpPivotJointNew2", .ptr .cpConstraint⟩

/-- The engine function cpPivotJointGetAnchorA. -/
def cpPivotJointGetAnchorA : EngineFn := ⟨"cpPivotJointGetAnchorA", .cpVect⟩

/-- The engine function cpPivotJointSetAnchorA. -/
def cpPivotJointSetAnchorA : EngineFn := ⟨"cpPivotJointSetAnchorA", .void⟩

/-- The engine function cpPivotJointGetAnchorB. -/
def cpPivotJointGetAnchorB : EngineFn := ⟨"cpPivotJointGetAnchorB", .cpVect⟩

/-- The engine function cpPivotJointSetAnchorB. -/
def cpPivotJointSetAnchorB : EngineFn := ⟨"cpPivotJointSetAnchorB", .void⟩

/-- The engine function cpGrooveJointNew. -/
def cpGrooveJointNew : EngineFn := ⟨"cpGrooveJointNew", .ptr .cpConstraint⟩

/-- The engine function cpGrooveJointGetGrooveA. -/
def cpGrooveJointGetGrooveA : EngineFn := ⟨"cpGrooveJointGetGrooveA", .cpVect⟩

/-- The engine function cpGrooveJointSetGrooveA. -/
def cpGrooveJointSetGrooveA : EngineFn := ⟨"cpGrooveJointSetGrooveA", .void⟩

/-- The engine function cpGrooveJointGetGrooveB. -/
def cpGrooveJointGetGrooveB : EngineFn := ⟨"cpGrooveJointGetGrooveB", .cpVect⟩

/-- The engine function cpGrooveJointSetGrooveB. -/
def cpGrooveJointSetGrooveB : EngineFn := ⟨"cpGrooveJointSetGrooveB", .void⟩

/-- The engine function cpGrooveJointGetAnchorB. -/
def cpGrooveJointGetAnchorB : EngineFn := ⟨"cpGrooveJointGetAnchorB", .cpVect⟩

/-- The engine function cpGrooveJointSetAnchorB. -/
def cpGrooveJointSetAnchorB : EngineFn := ⟨"cpGrooveJointSetAnchorB", .void⟩

/-- The engine function cpDampedSpringNew. -/
def cpDampedSpringNew : EngineFn := ⟨"cpDampedSpringNew", .ptr .cpConstraint⟩

/-- The engine function cpDampedSpringGetAnchorA. -/
def cpDampedSpringGetAnchorA : EngineFn := ⟨"cpDampedSpringGetAnchorA", .cpVect⟩

/-- The engine function cpDampedSpringSetAnchorA. -/
def cpDampedSpringSetAnchorA : EngineFn := ⟨"cpDampedSpringSetAnchorA", .void⟩

/-- The engine function cpDampedSpringGetAnchorB. -/
def cpDampedSpringGetAnchorB : EngineFn := ⟨"cpDampedSpringGetAnchorB", .cpVect⟩

/-- The engine function cpDampedSpringSetAnchorB. -/
def cpDampedSpringSetAnchorB : EngineFn := ⟨"cpDampedSpringSetAnchorB", .void⟩

/-- The engine function cpDampedSpringGetRestLength. -/
def cpDampedSpringGetRestLength : EngineFn := ⟨"cpDampedSpringGetRestLength", .cpFloat⟩

/-- The engine function cpDampedSpringSetRestLength. -/
def cpDampedSpringSetRestLength : EngineFn := ⟨"cpDampedSpringSetRestLength", .void⟩

/-- The engine function cpDampedSpringGetStiffness. -/
def cpDampedSpringGetStiffness : EngineFn := ⟨"cpDampedSpringGetStiffness", .cpFloat⟩

/-- The engine function cpDampedSpringSetStiffness. -/
def cpDampedSpringSetStiffness : EngineFn := ⟨"cpDampedSpringSetStiffness", .void⟩

/-- The engine function cpDampedSpringGetDamping. -/
def cpDampedSpringGetDamping : EngineFn := ⟨"cpDampedSpringGetDamping", .cpFloat⟩

/-- The engine function cpDampedSpringSetDamping. -/
def cpDampedSpringSetDamping : EngineFn := ⟨"cpDampedSpringSetDamping", .void⟩

/-- The engine function cpDampedRotarySpringNew. -/
def cpDampedRotarySpringNew : EngineFn := ⟨"cpDampedRotarySpringNew", .ptr .cpConstraint⟩

/-- The engine function cpDampedRotarySpringGetRestAngle. -/
def cpDampedRotarySpringGetRestAngle : EngineFn := ⟨"cpDampedRotarySpringGetRestAngle", .cpFloat⟩

/-- The engine function cpDampedRotarySpringSetRestAngle. -/
def cpDampedRotarySpringSetRestAngle : EngineFn := ⟨"cpDampedRotarySpringSetRestAngle", .void⟩

/-- The engine function cpDampedRotarySpringGetStiffness. -/
def cpDampedRotarySpringGetStiffness : EngineFn := ⟨"cpDampedRotarySpringGetStiffness", .cpFloat⟩

/-- The engine function cpDampedRotarySpringSetStiffness. -/
def cpDampedRotarySpringSetStiffness : EngineFn := ⟨"cpDampedRotarySpringSetStiffness", .void⟩

/-- The engine function cpDampedRotarySpringGetDamping. -/
def cpDampedRotarySpringGetDamping : EngineFn := ⟨"cpDampedRotarySpringGetDamping", .cpFloat⟩

/-- The engine function cpDampedRotarySpringSetDamping. -/
def cpDampedRotarySpringSetDamping : EngineFn := ⟨"cpDampedRotarySpringSetDamping", .void⟩

/-- The engine function cpRotaryLimitJointNew. -/
def cpRotaryLimitJointNew : EngineFn := ⟨"cpRotaryLimitJointNew", .ptr .cpConstraint⟩

/-- The engine function cpRotaryLimitJointGetMin. -/
def cpRotaryLimitJointGetMin : EngineFn := ⟨"cpRotaryLimitJointGetMin", .cpFloat⟩

/-- The engine function cpRotaryLimitJointSetMin. -/
def cpRotaryLimitJointSetMin : EngineFn := ⟨"cpRotaryLimitJointSetMin", .void⟩

/-- The engine function cpRotaryLimitJointGetMax. -/
def cpRotaryLimitJointGetMax : EngineFn := ⟨"cpRotaryLimitJointGetMax", .cpFloat⟩

/-- The engine function cpRotaryLimitJointSetMax. -/
def cpRotaryLimitJointSetMax : EngineFn := ⟨"cpRotaryLimitJointSetMax", .void⟩

/-- The engine function cpRatchetJointNew. -/
def cpRatchetJointNew : EngineFn := ⟨"cpRatchetJointNew", .ptr .cpConstraint⟩

/-- The engine function cpRatchetJointGetAngle. -/
def cpRatchetJointGetAngle : EngineFn := ⟨"cpRatchetJointGetAngle", .cpFloat⟩

/-- The engine function cpRatchetJointSetAngle. -/
def cpRatchetJointSetAngle : EngineFn := ⟨"cpRatchetJointSetAngle", .void⟩

/-- The engine function cpRatchetJointGetPhase. -/
def cpRatchetJointGetPhase : EngineFn := ⟨"cpRatchetJointGetPhase", .cpFloat⟩

/-- The engine function cpRatchetJointSetPhase. -/
def cpRatchetJointSetPhase : EngineFn := ⟨"cpRatchetJointSetPhase", .void⟩

/-- The engine function cpRatchetJointGetRatchet. -/
def cpRatchetJointGetRatchet : EngineFn := ⟨"cpRatchetJointGetRatchet", .cpFloat⟩

/-- The engine function cpRatchetJointSetRatchet. -/
def cpRatchetJointSetRatchet : EngineFn := ⟨"cpRatchetJointSetRatchet", .void⟩

/-- The engine function cpGearJointNew. -/
def cpGearJointNew : EngineFn := ⟨"cpGearJointNew", .ptr .cpConstraint⟩

/-- The engine function cpGearJointGetPhase. -/
def cpGearJointGetPhase : EngineFn := ⟨"cpGearJointGetPhase", .cpFloat⟩

/-- The engine function cpGearJointSetPhase. -/
def cpGearJointSetPhase : EngineFn := ⟨"cpGearJointSetPhase", .void⟩

/-- The engine function cpGearJointGetRatio. -/
def cpGearJointGetRatio : EngineFn := ⟨"cpGearJointGetRatio", .cpFloat⟩

/-- The engine function cpGearJointSetRatio. -/
def cpGearJointSetRatio : EngineFn := ⟨"cpGearJointSetRatio", .void⟩

/-- The engine function cpSimpleMotorNew. -/
def cpSimpleMotorNew : EngineFn := ⟨"cpSimpleMotorNew", .ptr .cpConstraint⟩

/-- The engine function cpSimpleMotorGetRate. -/
def cpSimpleMotorGetRate : EngineFn := ⟨"cpSimpleMotorGetRate", .cpFloat⟩

/-- The engine function cpSimpleMotorSetRate. -/
def cpSimpleMotorSetRate : EngineFn := ⟨"cpSimpleMotorSetRate", .void⟩

/-- The engine function cpArbiterGetRestitution. -/
def cpArbiterGetRestitution : EngineFn := ⟨"cpArbiterGetRestitution", .cpFloat⟩

/-- The engine function cpArbiterSetRestitution. -/
def cpArbiterSetRestitution : EngineFn := ⟨"cpArbiterSetRestitution", .void⟩

/-- The engine function cpArbiterGetFriction. -/
def cpArbiterGetFriction : EngineFn := ⟨"cpArbiterGetFriction", .cpFloat⟩

/-- The engine function cpArbiterSetFriction. -/
def cpArbiterSetFriction : EngineFn := ⟨"cpArbiterSetFriction", .void⟩

/-- The engine function cpArbiterGetSurfaceVelocity. -/
def cpArbiterGetSurfaceVelocity : EngineFn := ⟨"cpArbiterGetSurfaceVelocity", .cpVect⟩

/-- The engine function cpArbiterSetSurfaceVelocity. -/
def cpArbiterSetSurfaceVelocity : EngineFn := ⟨"cpArbiterSetSurfaceVelocity", .void⟩

/-- The engine function cpArbiterTotalImpulse. -/
def cpArbiterTotalImpulse : EngineFn := ⟨"cpArbiterTotalImpulse", .cpVect⟩

/-- The engine function cpArbiterTotalKE. -/
def cpArbiterTotalKE : EngineFn := ⟨"cpArbiterTotalKE", .cpFloat⟩

/-- The engine function cpArbiterIgnore. -/
def cpArbiterIgnore : EngineFn := ⟨"cpArbiterIgnore", .cpBool⟩

/-- The engine function cpArbiterGetShapes. -/
def cpArbiterGetShapes : EngineFn := ⟨"cpArbiterGetShapes", .void⟩

/-- The engine function cpArbiterGetBodies. -/
def cpArbiterGetBodies : EngineFn := ⟨"cpArbiterGetBodies", .void⟩

/-- The engine function cpArbiterGetContactPointSet. -/
def cpArbiterGetContactPointSet : EngineFn := ⟨"cpArbiterGetContactPointSet", .cpContactPointSet⟩

/-- The engine function cpArbiterSetContactPointSet. -/
def cpArbiterSetContactPointSet : EngineFn := ⟨"cpArbiterSetContactPointSet", .void⟩

/-- The engine function cpArbiterIsFirstContact. -/
def cpArbiterIsFirstContact : EngineFn := ⟨"cpArbiterIsFirstContact", .cpBool⟩

/-- The engine function cpArbiterIsRemoval. -/
def cpArbiterIsRemoval : EngineFn := ⟨"cpArbiterIsRemoval", .cpBool⟩

/-- The engine function cpArbiterGetCount. -/
def cpArbiterGetCount : EngineFn := ⟨"cpArbiterGetCount", .int⟩

/-- The engine function cpArbiterGetNormal. -/
def cpArbiterGetNormal : EngineFn := ⟨"cpArbiterGetNormal", .cpVect⟩

/-- The engine function cpArbiterGetPointA. -/
def cpArbiterGetPointA : EngineFn := ⟨"cpArbiterGetPointA", .cpVect⟩

/-- The engine function cpArbiterGetPointB. -/
def cpArbiterGetPointB : EngineFn := ⟨"cpArbiterGetPointB", .cpVect⟩

/-- The engine function cpArbiterGetDepth. -/
def cpArbiterGetDepth : EngineFn := ⟨"cpArbiterGetDepth", .cpFloat⟩

/-- The engine function cpMomentForCircle. -/
def cpMomentForCircle : EngineFn := ⟨"cpMomentForCircle", .cpFloat⟩

/-- The engine function cpAreaForCircle. -/
def cpAreaForCircle : EngineFn := ⟨"cpAreaForCircle", .cpFloat⟩

/-- The engine function cpMomentForSegment. -/
def cpMomentForSegment : EngineFn := ⟨"cpMomentForSegment", .cpFloat⟩

/-- The engine function cpAreaForSegment. -/
def cpAreaForSegment : EngineFn := ⟨"cpAreaForSegment", .cpFloat⟩

/-- The engine function cpMomentForPoly. -/
def cpMomentForPoly : EngineFn := ⟨"cpMomentForPoly", .cpFloat⟩

/-- The engine function cpAreaForPoly. -/
def cpAreaForPoly : EngineFn := ⟨"cpAreaForPoly", .cpFloat⟩

/-- The engine function cpCentroidForPoly. -/
def cpCentroidForPoly : EngineFn := ⟨"cpCentroidForPoly", .cpVect⟩

/-- The engine function cpMomentForBox. -/
def cpMomentForBox : EngineFn := ⟨"cpMomentForBox", .cpFloat⟩

/-- The engine function cpMomentForBox2. -/
def cpMomentForBox2 : EngineFn := ⟨"cpMomentForBox2", .cpFloat⟩

/-- The engine function cpConvexHull. -/
def cpConvexHull : EngineFn := ⟨"cpConvexHull", .int⟩

/-! ## The exported wrappers

One definition for each function of `chipmunk2d_physics_ffi.c`, in source order, with the
parameters of the C function and the C statement of its body.  An argument of the engine call is
written with its C type. -/

/-- Source lines 4-6: `return cpSpaceNew();` -/
def cp_space_new : Prog (Ptr .cpSpace) :=
  .call cpSpaceNew [] fun (r : Ptr .cpSpace) => .ret r

/-- Source lines 8-10: `cpSpaceFree(space);` -/
def cp_space_free (space : Ptr .cpSpace) : Prog Unit :=
  .call cpSpaceFree [⟨.ptr .cpSpace, space⟩] fun _ => .ret ()

/-- Source lines 12-14: `cpSpaceStep(space, dt);` -/
def cp_space_step (space : Ptr .cpSpace) (dt : cpFloat) : Prog Unit :=
  .call cpSpaceStep [⟨.ptr .cpSpace, space⟩, ⟨.cpFloat, dt⟩] fun _ => .ret ()

/-- Source lines 16-18: `cpSpaceSetGravity(space, gravity);` -/
def cp_space_set_gravity (space : Ptr .cpSpace) (gravity : cpVect) : Prog Unit :=
  .call cpSpaceSetGravity [⟨.ptr .cpSpace, space⟩, ⟨.cpVect, gravity⟩] fun _ => .ret ()

/-- Source lines 20-22: `return cpSpaceGetGravity(space);` -/
def cp_space_get_gravity (space : Ptr .cpSpace) : Prog cpVect :=
  .call cpSpaceGetGravity [⟨.ptr .cpSpace, space⟩] fun (r : cpVect) => .ret r

/-- Source lines 24-26: `cpSpaceSetIterations(space, iterations);` -/
def cp_space_set_iterations (space : Ptr .cpSpace) (iterations : Int) : Prog Unit :=
  .call cpSpaceSetIterations [⟨.ptr .cpSpace, space⟩, ⟨.int, iterations⟩] fun _ => .ret ()

/-- Source lines 28-30: `cpSpaceSetCollisionSlop(space, collisionSlop);` -/
def cp_space_set_collision_slop (space : Ptr .cpSpace) (collisionSlop : cpFloat) : Prog Unit :=
  .call cpSpaceSetCollisionSlop [⟨.ptr .cpSpace, space⟩, ⟨.cpFloat, collisionSlop⟩] fun _ => .ret ()

/-- Source lines 32-34: `cpSpaceSetDamping(space, damping);` -/
def cp_space_set_damping (space : Ptr .cpSpace) (damping : cpFloat) : Prog Unit :=
  .call cpSpaceSetDamping [⟨.ptr .cpSpace, space⟩, ⟨.cpFloat, damping⟩] fun _ => .ret ()

/-- Source lines 36-38: `cpSpaceSetIdleSpeedThreshold(space, idleSpeedThreshold);` -/
def cp_space_set_idle_speed_threshold
    (space : Ptr .cpSpace) (idleSpeedThreshold : cpFloat) :
    Prog Unit :=
  .call cpSpaceSetIdleSpeedThreshold
    [⟨.ptr .cpSpace, space⟩, ⟨.cpFloat, idleSpeedThreshold⟩]
    fun _ => .ret ()

/-- Source lines 40-42: `cpSpaceSetSleepTimeThreshold(space, sleepTimeThreshold);` -/
def cp_space_set_sleep_time_threshold
    (space : Ptr .cpSpace) (sleepTimeThreshold : cpFloat) :
    Prog Unit :=
  .call cpSpaceSetSleepTimeThreshold
    [⟨.ptr .cpSpace, space⟩, ⟨.cpFloat, sleepTimeThreshold⟩]
    fun _ => .ret ()

/-- Source lines 44-46: `cpSpaceSetCollisionBias(space, collisionBias);` -/
def cp_space_set_collision_bias (space : Ptr .cpSpace) (collisionBias : cpFloat) : Prog Unit :=
  .call cpSpaceSetCollisionBias [⟨.ptr .cpSpace, space⟩, ⟨.cpFloat, collisionBias⟩] fun _ => .ret ()

/-- Source lines 48-50: `cpSpaceSetCollisionPersistence(space, collisionPersistence);` -/
def cp_space_set_collision_persistence
    (space : Ptr .cpSpace) (collisionPersistence : Nat) :
    Prog Unit :=
  .call cpSpaceSetCollisionPersistence
    [⟨.ptr .cpSpace, space⟩, ⟨.unsignedInt, collisionPersistence⟩]
    fun _ => .ret ()

/-- Source lines 52-54: `cpSpaceReindexStatic(space);` -/
def cp_space_reindex_static (space : Ptr .cpSpace) : Prog Unit :=
  .call cpSpaceReindexStatic [⟨.ptr .cpSpace, space⟩] fun _ => .ret ()

/-- Source lines 56-58: `cpSpaceReindexShape(space, shape);` -/
def cp_space_reindex_shape (space : Ptr .cpSpace) (shape : Ptr .cpShape) : Prog Unit :=
  .call cpSpaceReindexShape [⟨.ptr .cpSpace, space⟩, ⟨.ptr .cpShape, shape⟩] fun _ => .ret ()

/-- Source lines 60-62: `cpSpaceReindexShapesForBody(space, body);` -/
def cp_space_reindex_shapes_for_body (space : Ptr .cpSpace) (body : Ptr .cpBody) : Prog Unit :=
  .call cpSpaceReindexShapesForBody [⟨.ptr .cpSpace, space⟩, ⟨.ptr .cpBody, body⟩] fun _ => .ret ()

/-- Source lines 64-66: `return cpSpaceGetStaticBody(space);` -/
def cp_space_get_static_body (space : Ptr .cpSpace) : Prog (Ptr .cpBody) :=
  .call cpSpaceGetStaticBody [⟨.ptr .cpSpace, space⟩] fun (r : Ptr .cpBody) => .ret r

/-- Source lines 68-70: `return cpSpaceGetIterations(space);` -/
def cp_space_get_iterations (space : Ptr .cpSpace) : Prog Int :=
  .call cpSpaceGetIterations [⟨.ptr .cpSpace, space⟩] fun (r : Int) => .ret r

/-- Source lines 72-74: `return cpSpaceGetDamping(space);` -/
def cp_space_get_damping (space : Ptr .cpSpace) : Prog cpFloat :=
  .call cpSpaceGetDamping [⟨.ptr .cpSpace, space⟩] fun (r : cpFloat) => .ret r

/-- Source lines 76-78: `return cpSpaceGetIdleSpeedThreshold(space);` -/
def cp_space_get_idle_speed_threshold (space : Ptr .cpSpace) : Prog cpFloat :=
  .call cpSpaceGetIdleSpeedThreshold [⟨.ptr .cpSpace, space⟩] fun (r : cpFloat) => .ret r

/-- Source lines 80-82: `return cpSpaceGetSleepTimeThreshold(space);` -/
def cp_space_get_sleep_time_threshold (space : Ptr .cpSpace) : Prog cpFloat :=
  .call cpSpaceGetSleepTimeThreshold [⟨.ptr .cpSpace, space⟩] fun (r : cpFloat) => .ret r

/-- Source lines 84-86: `return cpSpaceGetCollisionSlop(space);` -/
def cp_space_get_collision_slop (space : Ptr .cpSpace) : Prog cpFloat :=
  .call cpSpaceGetCollisionSlop [⟨.ptr .cpSpace, space⟩] fun (r : cpFloat) => .ret r

/-- Source lines 88-90: `return cpSpaceGetCollisionBias(space);` -/
def cp_space_get_collision_bias (space : Ptr .cpSpace) : Prog cpFloat :=
  .call cpSpaceGetCollisionBias [⟨.ptr .cpSpace, space⟩] fun (r : cpFloat) => .ret r

/-- Source lines 92-94: `return cpSpaceGetCollisionPersistence(space);` -/
def cp_space_get_collision_persistence (space : Ptr .cpSpace) : Prog Nat :=
  .call cpSpaceGetCollisionPersistence [⟨.ptr .cpSpace, space⟩] fun (r : Nat) => .ret r

/-- Source lines 96-98: `return cpSpaceGetCurrentTimeStep(space);` -/
def cp_space_get_current_time_step (space : Ptr .cpSpace) : Prog cpFloat :=
  .call cpSpaceGetCurrentTimeStep [⟨.ptr .cpSpace, space⟩] fun (r : cpFloat) => .ret r

/-- Source lines 100-102: `return cpSpaceIsLocked(space) ? 1 : 0;` -/
def cp_space_is_locked (space : Ptr .cpSpace) : Prog Int :=
  .call cpSpaceIsLocked [⟨.ptr .cpSpace, space⟩] fun (r : cpBool) => .ret (if r ≠ 0 then 1 else 0)

/-- Source lines 104-106: `return cpSpaceContainsBody(space, body) ? 1 : 0;` -/
def cp_space_contains_body (space : Ptr .cpSpace) (body : Ptr .cpBody) : Prog Int :=
  .call cpSpaceContainsBody
    [⟨.ptr .cpSpace, space⟩, ⟨.ptr .cpBody, body⟩]
    fun (r : cpBool) => .ret (if r ≠ 0 then 1 else 0)

/-- Source lines 108-110: `return cpSpaceContainsShape(space, shape) ? 1 : 0;` -/
def cp_space_contains_shape (space : Ptr .cpSpace) (shape : Ptr .cpShape) : Prog Int :=
  .call cpSpaceContainsShape
    [⟨.ptr .cpSpace, space⟩, ⟨.ptr .cpShape, shape⟩]
    fun (r : cpBool) => .ret (if r ≠ 0 then 1 else 0)

/-- Source lines 112-114: `return cpSpaceContainsConstraint(space, constraint) ? 1 : 0;` -/
def cp_space_contains_constraint
    (space : Ptr .cpSpace) (constraint : Ptr .cpConstraint) :
    Prog Int :=
  .call cpSpaceContainsConstraint
    [⟨.ptr .cpSpace, space⟩, ⟨.ptr .cpConstraint, constraint⟩]
    fun (r : cpBool) => .ret (if r ≠ 0 then 1 else 0)

/-- Source lines 116-118: `cpSpaceAddConstraint(space, constraint);` -/
def cp_space_add_constraint (space : Ptr .cpSpace) (constraint : Ptr .cpConstraint) : Prog Unit :=
  .call cpSpaceAddConstraint
    [⟨.ptr .cpSpace, space⟩, ⟨.ptr .cpConstraint, constraint⟩]
    fun _ => .ret ()

/-- Source lines 120-122: `cpSpaceRemoveConstraint(space, constraint);` -/
def cp_space_remove_constraint
    (space : Ptr .cpSpace) (constraint : Ptr .cpConstraint) :
    Prog Unit :=
  .call cpSpaceRemoveConstraint
    [⟨.ptr .cpSpace, space⟩, ⟨.ptr .cpConstraint, constraint⟩]
    fun _ => .ret ()

/-- Source lines 124-126: `return cpSpaceSegmentQueryFirst(space, start, end, radius, filter, out);` -/
def cp_space_segment_query_first
    (space : Ptr .cpSpace) (start : cpVect) (end_ : cpVect) (radius : cpFloat)
    (filter : cpShapeFilter) (out : Ptr .cpSegmentQueryInfo) :
    Prog (Ptr .cpShape) :=
  .call cpSpaceSegmentQueryFirst
    [⟨.ptr .cpSpace, space⟩, ⟨.cpVect, start⟩, ⟨.cpVect, end_⟩, ⟨.cpFloat, radius⟩,
     ⟨.cpShapeFilter, filter⟩, ⟨.ptr .cpSegmentQueryInfo, out⟩]
    fun (r : Ptr .cpShape) => .ret r

/-- Source lines 128-132: `return cpSpaceShapeQuery(space, shape, NULL, data) ? 1 : 0;` -/
def cp_space_shape_query
    (space : Ptr .cpSpace) (shape : Ptr .cpShape) (func : Ptr .void) (data : Ptr .void) :
    Prog Int :=
  .call cpSpaceShapeQuery
    [⟨.ptr .cpSpace, space⟩, ⟨.ptr .cpShape, shape⟩, ⟨.ptr .void, NULL⟩, ⟨.ptr .void, data⟩]
    fun (r : cpBool) => .ret (if r ≠ 0 then 1 else 0)

/-- Source lines 135-137: `return cpBodyNew(mass, moment);` -/
def cp_body_new (mass : cpFloat) (moment : cpFloat) : Prog (Ptr .cpBody) :=
  .call cpBodyNew [⟨.cpFloat, mass⟩, ⟨.cpFloat, moment⟩] fun (r : Ptr .cpBody) => .ret r

/-- Source lines 139-141: `return cpBodyNewKinematic();` -/
def cp_body_new_kinematic : Prog (Ptr .cpBody) :=
  .call cpBodyNewKinematic [] fun (r : Ptr .cpBody) => .ret r

/-- Source lines 143-145: `return cpBodyNewStatic();` -/
def cp_body_new_static : Prog (Ptr .cpBody) :=
  .call cpBodyNewStatic [] fun (r : Ptr .cpBody) => .ret r

/-- Source lines 147-149: `cpBodyFree(body);` -/
def cp_body_free (body : Ptr .cpBody) : Prog Unit :=
  .call cpBodyFree [⟨.ptr .cpBody, body⟩] fun _ => .ret ()

/-- Source lines 151-153: `cpBodySetPosition(body, pos);` -/
def cp_body_set_position (body : Ptr .cpBody) (pos : cpVect) : Prog Unit :=
  .call cpBodySetPosition [⟨.ptr .cpBody, body⟩, ⟨.cpVect, pos⟩] fun _ => .ret ()

/-- Source lines 155-157: `return cpBodyGetPosition(body);` -/
def cp_body_get_position (body : Ptr .cpBody) : Prog cpVect :=
  .call cpBodyGetPosition [⟨.ptr .cpBody, body⟩] fun (r : cpVect) => .ret r

/-- Source lines 159-161: `cpBodySetVelocity(body, velocity);` -/
def cp_body_set_velocity (body : Ptr .cpBody) (velocity : cpVect) : Prog Unit :=
  .call cpBodySetVelocity [⟨.ptr .cpBody, body⟩, ⟨.cpVect, velocity⟩] fun _ => .ret ()

/-- Source lines 163-165: `return cpBodyGetVelocity(body);` -/
def cp_body_get_velocity (body : Ptr .cpBody) : Prog cpVect :=
  .call cpBodyGetVelocity [⟨.ptr .cpBody, body⟩] fun (r : cpVect) => .ret r

/-- Source lines 167-169: `cpBodySetAngle(body, angle);` -/
def cp_body_set_angle (body : Ptr .cpBody) (angle : cpFloat) : Prog Unit :=
  .call cpBodySetAngle [⟨.ptr .cpBody, body⟩, ⟨.cpFloat, angle⟩] fun _ => .ret ()

/-- Source lines 171-173: `return cpBodyGetAngle(body);` -/
def cp_body_get_angle (body : Ptr .cpBody) : Prog cpFloat :=
  .call cpBodyGetAngle [⟨.ptr .cpBody, body⟩] fun (r : cpFloat) => .ret r

/-- Source lines 175-177: `return cpBodyGetMass(body);` -/
def cp_body_get_mass (body : Ptr .cpBody) : Prog cpFloat :=
  .call cpBodyGetMass [⟨.ptr .cpBody, body⟩] fun (r : cpFloat) => .ret r

/-- Source lines 179-181: `cpBodySetMass(body, mass);` -/
def cp_body_set_mass (body : Ptr .cpBody) (mass : cpFloat) : Prog Unit :=
  .call cpBodySetMass [⟨.ptr .cpBody, body⟩, ⟨.cpFloat, mass⟩] fun _ => .ret ()

/-- Source lines 183-185: `return cpBodyGetMoment(body);` -/
def cp_body_get_moment (body : Ptr .cpBody) : Prog cpFloat :=
  .call cpBodyGetMoment [⟨.ptr .cpBody, body⟩] fun (r : cpFloat) => .ret r

/-- Source lines 187-189: `cpBodySetMoment(body, moment);` -/
def cp_body_set_moment (body : Ptr .cpBody) (moment : cpFloat) : Prog Unit :=
  .call cpBodySetMoment [⟨.ptr .cpBody, body⟩, ⟨.cpFloat, moment⟩] fun _ => .ret ()

/-- Source lines 191-193: `return cpBodyGetCenterOfGravity(body);` -/
def cp_body_get_center_of_gravity (body : Ptr .cpBody) : Prog cpVect :=
  .call cpBodyGetCenterOfGravity [⟨.ptr .cpBody, body⟩] fun (r : cpVect) => .ret r

/-- Source lines 195-197: `cpBodySetCenterOfGravity(body, cog);` -/
def cp_body_set_center_of_gravity (body : Ptr .cpBody) (cog : cpVect) : Prog Unit :=
  .call cpBodySetCenterOfGravity [⟨.ptr .cpBody, body⟩, ⟨.cpVect, cog⟩] fun _ => .ret ()

/-- Source lines 199-201: `return cpBodyGetForce(body);` -/
def cp_body_get_force (body : Ptr .cpBody) : Prog cpVect :=
  .call cpBodyGetForce [⟨.ptr .cpBody, body⟩] fun (r : cpVect) => .ret r

/-- Source lines 203-205: `cpBodySetForce(body, force);` -/
def cp_body_set_force (body : Ptr .cpBody) (force : cpVect) : Prog Unit :=
  .call cpBodySetForce [⟨.ptr .cpBody, body⟩, ⟨.cpVect, force⟩] fun _ => .ret ()

/-- Source lines 207-209: `return cpBodyGetAngularVelocity(body);` -/
def cp_body_get_angular_velocity (body : Ptr .cpBody) : Prog cpFloat :=
  .call cpBodyGetAngularVelocity [⟨.ptr .cpBody, body⟩] fun (r : cpFloat) => .ret r

/-- Source lines 211-213: `cpBodySetAngularVelocity(body, angularVelocity);` -/
def cp_body_set_angular_velocity (body : Ptr .cpBody) (angularVelocity : cpFloat) : Prog Unit :=
  .call cpBodySetAngularVelocity
    [⟨.ptr .cpBody, body⟩, ⟨.cpFloat, angularVelocity⟩]
    fun _ => .ret ()

/-- Source lines 215-217: `return cpBodyGetTorque(body);` -/
def cp_body_get_torque (body : Ptr .cpBody) : Prog cpFloat :=
  .call cpBodyGetTorque [⟨.ptr .cpBody, body⟩] fun (r : cpFloat) => .ret r

/-- Source lines 219-221: `cpBodySetTorque(body, torque);` -/
def cp_body_set_torque (body : Ptr .cpBody) (torque : cpFloat) : Prog Unit :=
  .call cpBodySetTorque [⟨.ptr .cpBody, body⟩, ⟨.cpFloat, torque⟩] fun _ => .ret ()

/-- Source lines 223-225: `return cpBodyGetRotation(body);` -/
def cp_body_get_rotation (body : Ptr .cpBody) : Prog cpVect :=
  .call cpBodyGetRotation [⟨.ptr .cpBody, body⟩] fun (r : cpVect) => .ret r

/-- Source lines 227-229: `return (int)cpBodyGetType(body);` -/
def cp_body_get_type (body : Ptr .cpBody) : Prog Int :=
  .call cpBodyGetType [⟨.ptr .cpBody, body⟩] fun (r : Int) => .ret (int_of_cpBodyType r)

/-- Source lines 231-233: `cpBodySetType(body, (cpBodyType)type);` -/
def cp_body_set_type (body : Ptr .cpBody) (type : Int) : Prog Unit :=
  .call cpBodySetType [⟨.ptr .cpBody, body⟩, ⟨.cpBodyType, cpBodyType_of_int type⟩] fun _ => .ret ()

/-- Source lines 235-237: `return cpBodyIsSleeping(body) ? 1 : 0;` -/
def cp_body_is_sleeping (body : Ptr .cpBody) : Prog Int :=
  .call cpBodyIsSleeping [⟨.ptr .cpBody, body⟩] fun (r : cpBool) => .ret (if r ≠ 0 then 1 else 0)

/-- Source lines 239-241: `cpBodyActivate(body);` -/
def cp_body_activate (body : Ptr .cpBody) : Prog Unit :=
  .call cpBodyActivate [⟨.ptr .cpBody, body⟩] fun _ => .ret ()

/-- Source lines 243-245: `cpBodyActivateStatic(body, filter);` -/
def cp_body_activate_static (body : Ptr .cpBody) (filter : Ptr .cpShape) : Prog Unit :=
  .call cpBodyActivateStatic [⟨.ptr .cpBody, body⟩, ⟨.ptr .cpShape, filter⟩] fun _ => .ret ()

/-- Source lines 247-249: `cpBodySleep(body);` -/
def cp_body_sleep (body : Ptr .cpBody) : Prog Unit :=
  .call cpBodySleep [⟨.ptr .cpBody, body⟩] fun _ => .ret ()

/-- Source lines 251-253: `cpBodySleepWithGroup(body, group);` -/
def cp_body_sleep_with_group (body : Ptr .cpBody) (group : Ptr .cpBody) : Prog Unit :=
  .call cpBodySleepWithGroup [⟨.ptr .cpBody, body⟩, ⟨.ptr .cpBody, group⟩] fun _ => .ret ()

/-- Source lines 255-257: `return cpBodyLocalToWorld(body, point);` -/
def cp_body_local_to_world (body : Ptr .cpBody) (point : cpVect) : Prog cpVect :=
  .call cpBodyLocalToWorld [⟨.ptr .cpBody, body⟩, ⟨.cpVect, point⟩] fun (r : cpVect) => .ret r

/-- Source lines 259-261: `return cpBodyWorldToLocal(body, point);` -/
def cp_body_world_to_local (body : Ptr .cpBody) (point : cpVect) : Prog cpVect :=
  .call cpBodyWorldToLocal [⟨.ptr .cpBody, body⟩, ⟨.cpVect, point⟩] fun (r : cpVect) => .ret r

/-- Source lines 263-265: `cpBodyApplyForceAtWorldPoint(body, force, point);` -/
def cp_body_apply_force_at_world_point
    (body : Ptr .cpBody) (force : cpVect) (point : cpVect) :
    Prog Unit :=
  .call cpBodyApplyForceAtWorldPoint
    [⟨.ptr .cpBody, body⟩, ⟨.cpVect, force⟩, ⟨.cpVect, point⟩]
    fun _ => .ret ()

/-- Source lines 267-269: `cpBodyApplyForceAtLocalPoint(body, force, point);` -/
def cp_body_apply_force_at_local_point
    (body : Ptr .cpBody) (force : cpVect) (point : cpVect) :
    Prog Unit :=
  .call cpBodyApplyForceAtLocalPoint
    [⟨.ptr .cpBody, body⟩, ⟨.cpVect, force⟩, ⟨.cpVect, point⟩]
    fun _ => .ret ()

/-- Source lines 271-273: `cpBodyApplyImpulseAtWorldPoint(body, impulse, point);` -/
def cp_body_apply_impulse_at_world_point
    (body : Ptr .cpBody) (impulse : cpVect) (point : cpVect) :
    Prog Unit :=
  .call cpBodyApplyImpulseAtWorldPoint
    [⟨.ptr .cpBody, body⟩, ⟨.cpVect, impulse⟩, ⟨.cpVect, point⟩]
    fun _ => .ret ()

/-- Source lines 275-277: `cpBodyApplyImpulseAtLocalPoint(body, impulse, point);` -/
def cp_body_apply_impulse_at_local_point
    (body : Ptr .cpBody) (impulse : cpVect) (point : cpVect) :
    Prog Unit :=
  .call cpBodyApplyImpulseAtLocalPoint
    [⟨.ptr .cpBody, body⟩, ⟨.cpVect, impulse⟩, ⟨.cpVect, point⟩]
    fun _ => .ret ()

/-- Source lines 279-281: `return cpBodyGetVelocityAtWorldPoint(body, point);` -/
def cp_body_get_velocity_at_world_point (body : Ptr .cpBody) (point : cpVect) : Prog cpVect :=
  .call cpBodyGetVelocityAtWorldPoint
    [⟨.ptr .cpBody, body⟩, ⟨.cpVect, point⟩]
    fun (r : cpVect) => .ret r

/-- Source lines 283-285: `return cpBodyGetVelocityAtLocalPoint(body, point);` -/
def cp_body_get_velocity_at_local_point (body : Ptr .cpBody) (point : cpVect) : Prog cpVect :=
  .call cpBodyGetVelocityAtLocalPoint
    [⟨.ptr .cpBody, body⟩, ⟨.cpVect, point⟩]
    fun (r : cpVect) => .ret r

/-- Source lines 287-289: `return cpBodyKineticEnergy(body);` -/
def cp_body_kinetic_energy (body : Ptr .cpBody) : Prog cpFloat :=
  .call cpBodyKineticEnergy [⟨.ptr .cpBody, body⟩] fun (r : cpFloat) => .ret r

/-- Source lines 291-293: `return cpBodyGetSpace(body);` -/
def cp_body_get_space (body : Ptr .cpBody) : Prog (Ptr .cpSpace) :=
  .call cpBodyGetSpace [⟨.ptr .cpBody, body⟩] fun (r : Ptr .cpSpace) => .ret r

/-- Source lines 296-298: `return cpCircleShapeNew(body, radius, offset);` -/
def cp_circle_shape_new
    (body : Ptr .cpBody) (radius : cpFloat) (offset : cpVect) :
    Prog (Ptr .cpShape) :=
  .call cpCircleShapeNew
    [⟨.ptr .cpBody, body⟩, ⟨.cpFloat, radius⟩, ⟨.cpVect, offset⟩]
    fun (r : Ptr .cpShape) => .ret r

/-- Source lines 300-302: `return cpBoxShapeNew(body, width, height, radius);` -/
def cp_box_shape_new
    (body : Ptr .cpBody) (width : cpFloat) (height : cpFloat) (radius : cpFloat) :
    Prog (Ptr .cpShape) :=
  .call cpBoxShapeNew
    [⟨.ptr .cpBody, body⟩, ⟨.cpFloat, width⟩, ⟨.cpFloat, height⟩, ⟨.cpFloat, radius⟩]
    fun (r : Ptr .cpShape) => .ret r

/-- Source lines 304-306: `return cpSegmentShapeNew(body, a, b, radius);` -/
def cp_segment_shape_new
    (body : Ptr .cpBody) (a : cpVect) (b : cpVect) (radius : cpFloat) :
    Prog (Ptr .cpShape) :=
  .call cpSegmentShapeNew
    [⟨.ptr .cpBody, body⟩, ⟨.cpVect, a⟩, ⟨.cpVect, b⟩, ⟨.cpFloat, radius⟩]
    fun (r : Ptr .cpShape) => .ret r

/-- Source lines 308-310: `cpShapeFree(shape);` -/
def cp_shape_free (shape : Ptr .cpShape) : Prog Unit :=
  .call cpShapeFree [⟨.ptr .cpShape, shape⟩] fun _ => .ret ()

/-- Source lines 312-314: `cpShapeSetFriction(shape, friction);` -/
def cp_shape_set_friction (shape : Ptr .cpShape) (friction : cpFloat) : Prog Unit :=
  .call cpShapeSetFriction [⟨.ptr .cpShape, shape⟩, ⟨.cpFloat, friction⟩] fun _ => .ret ()

/-- Source lines 316-318: `return cpShapeGetFriction(shape);` -/
def cp_shape_get_friction (shape : Ptr .cpShape) : Prog cpFloat :=
  .call cpShapeGetFriction [⟨.ptr .cpShape, shape⟩] fun (r : cpFloat) => .ret r

/-- Source lines 320-322: `cpShapeSetElasticity(shape, elasticity);` -/
def cp_shape_set_elasticity (shape : Ptr .cpShape) (elasticity : cpFloat) : Prog Unit :=
  .call cpShapeSetElasticity [⟨.ptr .cpShape, shape⟩, ⟨.cpFloat, elasticity⟩] fun _ => .ret ()

/-- Source lines 324-326: `return cpShapeGetElasticity(shape);` -/
def cp_shape_get_elasticity (shape : Ptr .cpShape) : Prog cpFloat :=
  .call cpShapeGetElasticity [⟨.ptr .cpShape, shape⟩] fun (r : cpFloat) => .ret r

/-- Source lines 328-330: `return cpShapeGetFilter(shape);` -/
def cp_shape_get_filter (shape : Ptr .cpShape) : Prog cpShapeFilter :=
  .call cpShapeGetFilter [⟨.ptr .cpShape, shape⟩] fun (r : cpShapeFilter) => .ret r

/-- Source lines 332-334: `cpShapeSetFilter(shape, filter);` -/
def cp_shape_set_filter (shape : Ptr .cpShape) (filter : cpShapeFilter) : Prog Unit :=
  .call cpShapeSetFilter [⟨.ptr .cpShape, shape⟩, ⟨.cpShapeFilter, filter⟩] fun _ => .ret ()

/-- Source lines 336-338: `return cpShapeFilterNew(group, categories, mask);` -/
def cp_shape_filter_new (group : Nat) (categories : Nat) (mask : Nat) : Prog cpShapeFilter :=
  .call cpShapeFilterNew
    [⟨.cpGroup, group⟩, ⟨.cpBitmask, categories⟩, ⟨.cpBitmask, mask⟩]
    fun (r : cpShapeFilter) => .ret r

/-- Source lines 340-342: `return cpPolyShapeNew(body, count, verts, transform, radius);` -/
def cp_poly_shape_new
    (body : Ptr .cpBody) (count : Int) (verts : Ptr .cpVect) (transform : cpTransform)
    (radius : cpFloat) :
    Prog (Ptr .cpShape) :=
  .call cpPolyShapeNew
    [⟨.ptr .cpBody, body⟩, ⟨.int, count⟩, ⟨.ptr .cpVect, verts⟩, ⟨.cpTransform, transform⟩,
     ⟨.cpFloat, radius⟩]
    fun (r : Ptr .cpShape) => .ret r

/-- Source lines 344-346: `return cpPolyShapeNewRaw(body, count, verts, radius);` -/
def cp_poly_shape_new_raw
    (body : Ptr .cpBody) (count : Int) (verts : Ptr .cpVect) (radius : cpFloat) :
    Prog (Ptr .cpShape) :=
  .call cpPolyShapeNewRaw
    [⟨.ptr .cpBody, body⟩, ⟨.int, count⟩, ⟨.ptr .cpVect, verts⟩, ⟨.cpFloat, radius⟩]
    fun (r : Ptr .cpShape) => .ret r

/-- Source lines 348-350: `return cpBoxShapeNew2(body, box, radius);` -/
def cp_box_shape_new2 (body : Ptr .cpBody) (box : cpBB) (radius : cpFloat) : Prog (Ptr .cpShape) :=
  .call cpBoxShapeNew2
    [⟨.ptr .cpBody, body⟩, ⟨.cpBB, box⟩, ⟨.cpFloat, radius⟩]
    fun (r : Ptr .cpShape) => .ret r

/-- Source lines 352-354: `return cpShapeGetMass(shape);` -/
def cp_shape_get_mass (shape : Ptr .cpShape) : Prog cpFloat :=
  .call cpShapeGetMass [⟨.ptr .cpShape, shape⟩] fun (r : cpFloat) => .ret r

/-- Source lines 356-358: `cpShapeSetMass(shape, mass);` -/
def cp_shape_set_mass (shape : Ptr .cpShape) (mass : cpFloat) : Prog Unit :=
  .call cpShapeSetMass [⟨.ptr .cpShape, shape⟩, ⟨.cpFloat, mass⟩] fun _ => .ret ()

/-- Source lines 360-362: `return cpShapeGetDensity(shape);` -/
def cp_shape_get_density (shape : Ptr .cpShape) : Prog cpFloat :=
  .call cpShapeGetDensity [⟨.ptr .cpShape, shape⟩] fun (r : cpFloat) => .ret r

/-- Source lines 364-366: `cpShapeSetDensity(shape, density);` -/
def cp_shape_set_density (shape : Ptr .cpShape) (density : cpFloat) : Prog Unit :=
  .call cpShapeSetDensity [⟨.ptr .cpShape, shape⟩, ⟨.cpFloat, density⟩] fun _ => .ret ()

/-- Source lines 368-370: `return cpShapeGetMoment(shape);` -/
def cp_shape_get_moment (shape : Ptr .cpShape) : Prog cpFloat :=
  .call cpShapeGetMoment [⟨.ptr .cpShape, shape⟩] fun (r : cpFloat) => .ret r

/-- Source lines 372-374: `return cpShapeGetArea(shape);` -/
def cp_shape_get_area (shape : Ptr .cpShape) : Prog cpFloat :=
  .call cpShapeGetArea [⟨.ptr .cpShape, shape⟩] fun (r : cpFloat) => .ret r

/-- Source lines 376-378: `return cpShapeGetCenterOfGravity(shape);` -/
def cp_shape_get_center_of_gravity (shape : Ptr .cpShape) : Prog cpVect :=
  .call cpShapeGetCenterOfGravity [⟨.ptr .cpShape, shape⟩] fun (r : cpVect) => .ret r

/-- Source lines 380-382: `return cpShapeGetBB(shape);` -/
def cp_shape_get_bb (shape : Ptr .cpShape) : Prog cpBB :=
  .call cpShapeGetBB [⟨.ptr .cpShape, shape⟩] fun (r : cpBB) => .ret r

/-- Source lines 384-386: `return cpShapeGetSensor(shape) ? 1 : 0;` -/
def cp_shape_get_sensor (shape : Ptr .cpShape) : Prog Int :=
  .call cpShapeGetSensor [⟨.ptr .cpShape, shape⟩] fun (r : cpBool) => .ret (if r ≠ 0 then 1 else 0)

/-- Source lines 388-390: `cpShapeSetSensor(shape, sensor ? cpTrue : cpFalse);` -/
def cp_shape_set_sensor (shape : Ptr .cpShape) (sensor : Int) : Prog Unit :=
  .call cpShapeSetSensor
    [⟨.ptr .cpShape, shape⟩, ⟨.cpBool, if sensor ≠ 0 then cpTrue else cpFalse⟩]
    fun _ => .ret ()

/-- Source lines 392-394: `return cpShapeGetSurfaceVelocity(shape);` -/
def cp_shape_get_surface_velocity (shape : Ptr .cpShape) : Prog cpVect :=
  .call cpShapeGetSurfaceVelocity [⟨.ptr .cpShape, shape⟩] fun (r : cpVect) => .ret r

/-- Source lines 396-398: `cpShapeSetSurfaceVelocity(shape, surfaceVelocity);` -/
def cp_shape_set_surface_velocity (shape : Ptr .cpShape) (surfaceVelocity : cpVect) : Prog Unit :=
  .call cpShapeSetSurfaceVelocity
    [⟨.ptr .cpShape, shape⟩, ⟨.cpVect, surfaceVelocity⟩]
    fun _ => .ret ()

/-- Source lines 400-402: `return (uintptr_t)cpShapeGetCollisionType(shape);` -/
def cp_shape_get_collision_type (shape : Ptr .cpShape) : Prog Nat :=
  .call cpShapeGetCollisionType
    [⟨.ptr .cpShape, shape⟩]
    fun (r : Nat) => .ret (uintptr_of_cpCollisionType r)

/-- Source lines 404-406: `cpShapeSetCollisionType(shape, (cpCollisionType)collisionType);` -/
def cp_shape_set_collision_type (shape : Ptr .cpShape) (collisionType : Nat) : Prog Unit :=
  .call cpShapeSetCollisionType
    [⟨.ptr .cpShape, shape⟩, ⟨.cpCollisionType, cpCollisionType_of_uintptr collisionType⟩]
    fun _ => .ret ()

/-- Source lines 408-410: `return cpShapeGetBody(shape);` -/
def cp_shape_get_body (shape : Ptr .cpShape) : Prog (Ptr .cpBody) :=
  .call cpShapeGetBody [⟨.ptr .cpShape, shape⟩] fun (r : Ptr .cpBody) => .ret r

/-- Source lines 412-414: `cpShapeSetBody(shape, body);` -/
def cp_shape_set_body (shape : Ptr .cpShape) (body : Ptr .cpBody) : Prog Unit :=
  .call cpShapeSetBody [⟨.ptr .cpShape, shape⟩, ⟨.ptr .cpBody, body⟩] fun _ => .ret ()

/-- Source lines 416-418: `return cpShapeGetSpace(shape);` -/
def cp_shape_get_space (shape : Ptr .cpShape) : Prog (Ptr .cpSpace) :=
  .call cpShapeGetSpace [⟨.ptr .cpShape, shape⟩] fun (r : Ptr .cpSpace) => .ret r

/-- Source lines 420-422: `return cpShapePointQuery(shape, p, out);` -/
def cp_shape_point_query
    (shape : Ptr .cpShape) (p : cpVect) (out : Ptr .cpPointQueryInfo) :
    Prog cpFloat :=
  .call cpShapePointQuery
    [⟨.ptr .cpShape, shape⟩, ⟨.cpVect, p⟩, ⟨.ptr .cpPointQueryInfo, out⟩]
    fun (r : cpFloat) => .ret r

/-- Source lines 424-426: `return cpShapeSegmentQuery(shape, a, b, radius, info) ? 1 : 0;` -/
def cp_shape_segment_query
    (shape : Ptr .cpShape) (a : cpVect) (b : cpVect) (radius : cpFloat)
    (info : Ptr .cpSegmentQueryInfo) :
    Prog Int :=
  .call cpShapeSegmentQuery
    [⟨.ptr .cpShape, shape⟩, ⟨.cpVect, a⟩, ⟨.cpVect, b⟩, ⟨.cpFloat, radius⟩,
     ⟨.ptr .cpSegmentQueryInfo, info⟩]
    fun (r : cpBool) => .ret (if r ≠ 0 then 1 else 0)

/-- Source lines 428-430: `return cpShapesCollide(a, b);` -/
def cp_shapes_collide (a : Ptr .cpShape) (b : Ptr .cpShape) : Prog cpContactPointSet :=
  .call cpShapesCollide
    [⟨.ptr .cpShape, a⟩, ⟨.ptr .cpShape, b⟩]
    fun (r : cpContactPointSet) => .ret r

/-- Source lines 432-434: `return cpCircleShapeGetOffset(shape);` -/
def cp_circle_shape_get_offset (shape : Ptr .cpShape) : Prog cpVect :=
  .call cpCircleShapeGetOffset [⟨.ptr .cpShape, shape⟩] fun (r : cpVect) => .ret r

/-- Source lines 436-438: `return cpCircleShapeGetRadius(shape);` -/
def cp_circle_shape_get_radius (shape : Ptr .cpShape) : Prog cpFloat :=
  .call cpCircleShapeGetRadius [⟨.ptr .cpShape, shape⟩] fun (r : cpFloat) => .ret r

/-- Source lines 440-442: `return cpSegmentShapeGetA(shape);` -/
def cp_segment_shape_get_a (shape : Ptr .cpShape) : Prog cpVect :=
  .call cpSegmentShapeGetA [⟨.ptr .cpShape, shape⟩] fun (r : cpVect) => .ret r

/-- Source lines 444-446: `return cpSegmentShapeGetB(shape);` -/
def cp_segment_shape_get_b (shape : Ptr .cpShape) : Prog cpVect :=
  .call cpSegmentShapeGetB [⟨.ptr .cpShape, shape⟩] fun (r : cpVect) => .ret r

/-- Source lines 448-450: `return cpSegmentShapeGetNormal(shape);` -/
def cp_segment_shape_get_normal (shape : Ptr .cpShape) : Prog cpVect :=
  .call cpSegmentShapeGetNormal [⟨.ptr .cpShape, shape⟩] fun (r : cpVect) => .ret r

/-- Source lines 452-454: `return cpSegmentShapeGetRadius(shape);` -/
def cp_segment_shape_get_radius (shape : Ptr .cpShape) : Prog cpFloat :=
  .call cpSegmentShapeGetRadius [⟨.ptr .cpShape, shape⟩] fun (r : cpFloat) => .ret r

/-- Source lines 456-458: `cpSegmentShapeSetNeighbors(shape, prev, next);` -/
def cp_segment_shape_set_neighbors
    (shape : Ptr .cpShape) (prev : cpVect) (next : cpVect) :
    Prog Unit :=
  .call cpSegmentShapeSetNeighbors
    [⟨.ptr .cpShape, shape⟩, ⟨.cpVect, prev⟩, ⟨.cpVect, next⟩]
    fun _ => .ret ()

/-- Source lines 460-462: `return cpPolyShapeGetCount(shape);` -/
def cp_poly_shape_get_count (shape : Ptr .cpShape) : Prog Int :=
  .call cpPolyShapeGetCount [⟨.ptr .cpShape, shape⟩] fun (r : Int) => .ret r

/-- Source lines 464-466: `return cpPolyShapeGetVert(shape, index);` -/
def cp_poly_shape_get_vert (shape : Ptr .cpShape) (index : Int) : Prog cpVect :=
  .call cpPolyShapeGetVert [⟨.ptr .cpShape, shape⟩, ⟨.int, index⟩] fun (r : cpVect) => .ret r

/-- Source lines 468-470: `return cpPolyShapeGetRadius(shape);` -/
def cp_poly_shape_get_radius (shape : Ptr .cpShape) : Prog cpFloat :=
  .call cpPolyShapeGetRadius [⟨.ptr .cpShape, shape⟩] fun (r : cpFloat) => .ret r

/-- Source lines 473-475: `cpSpaceAddBody(space, body);` -/
def cp_space_add_body (space : Ptr .cpSpace) (body : Ptr .cpBody) : Prog Unit :=
  .call cpSpaceAddBody [⟨.ptr .cpSpace, space⟩, ⟨.ptr .cpBody, body⟩] fun _ => .ret ()

/-- Source lines 477-479: `cpSpaceRemoveBody(space, body);` -/
def cp_space_remove_body (space : Ptr .cpSpace) (body : Ptr .cpBody) : Prog Unit :=
  .call cpSpaceRemoveBody [⟨.ptr .cpSpace, space⟩, ⟨.ptr .cpBody, body⟩] fun _ => .ret ()

/-- Source lines 481-483: `cpSpaceAddShape(space, shape);` -/
def cp_space_add_shape (space : Ptr .cpSpace) (shape : Ptr .cpShape) : Prog Unit :=
  .call cpSpaceAddShape [⟨.ptr .cpSpace, space⟩, ⟨.ptr .cpShape, shape⟩] fun _ => .ret ()

/-- Source lines 485-487: `cpSpaceRemoveShape(space, shape);` -/
def cp_space_remove_shape (space : Ptr .cpSpace) (shape : Ptr .cpShape) : Prog Unit :=
  .call cpSpaceRemoveShape [⟨.ptr .cpSpace, space⟩, ⟨.ptr .cpShape, shape⟩] fun _ => .ret ()

/-- Source lines 490-492: `return cpv(x, y);` -/
def cp_vect_new (x : cpFloat) (y : cpFloat) : Prog cpVect :=
  .call cpv [⟨.cpFloat, x⟩, ⟨.cpFloat, y⟩] fun (r : cpVect) => .ret r

/-- Source lines 494-496: `return v.x;` -/
def cp_vect_get_x (v : cpVect) : Prog cpFloat :=
  .ret v.x

/-- Source lines 498-500: `return v.y;` -/
def cp_vect_get_y (v : cpVect) : Prog cpFloat :=
  .ret v.y

/-- Source lines 503-505: `return cpSpacePointQueryNearest(space, point, maxDistance, filter, out);` -/
def cp_space_point_query_nearest
    (space : Ptr .cpSpace) (point : cpVect) (maxDistance : cpFloat) (filter : cpShapeFilter)
    (out : Ptr .cpPointQueryInfo) :
    Prog (Ptr .cpShape) :=
  .call cpSpacePointQueryNearest
    [⟨.ptr .cpSpace, space⟩, ⟨.cpVect, point⟩, ⟨.cpFloat, maxDistance⟩, ⟨.cpShapeFilter, filter⟩,
     ⟨.ptr .cpPointQueryInfo, out⟩]
    fun (r : Ptr .cpShape) => .ret r

/-- Source lines 508-510: `cpConstraintFree(constraint);` -/
def cp_constraint_free (constraint : Ptr .cpConstraint) : Prog Unit :=
  .call cpConstraintFree [⟨.ptr .cpConstraint, constraint⟩] fun _ => .ret ()

/-- Source lines 512-514: `return cpConstraintGetSpace(constraint);` -/
def cp_constraint_get_space (constraint : Ptr .cpConstraint) : Prog (Ptr .cpSpace) :=
  .call cpConstraintGetSpace [⟨.ptr .cpConstraint, constraint⟩] fun (r : Ptr .cpSpace) => .ret r

/-- Source lines 516-518: `return cpConstraintGetBodyA(constraint);` -/
def cp_constraint_get_body_a (constraint : Ptr .cpConstraint) : Prog (Ptr .cpBody) :=
  .call cpConstraintGetBodyA [⟨.ptr .cpConstraint, constraint⟩] fun (r : Ptr .cpBody) => .ret r

/-- Source lines 520-522: `return cpConstraintGetBodyB(constraint);` -/
def cp_constraint_get_body_b (constraint : Ptr .cpConstraint) : Prog (Ptr .cpBody) :=
  .call cpConstraintGetBodyB [⟨.ptr .cpConstraint, constraint⟩] fun (r : Ptr .cpBody) => .ret r

/-- Source lines 524-526: `return cpConstraintGetMaxForce(constraint);` -/
def cp_constraint_get_max_force (constraint : Ptr .cpConstraint) : Prog cpFloat :=
  .call cpConstraintGetMaxForce [⟨.ptr .cpConstraint, constraint⟩] fun (r : cpFloat) => .ret r

/-- Source lines 528-530: `cpConstraintSetMaxForce(constraint, maxForce);` -/
def cp_constraint_set_max_force (constraint : Ptr .cpConstraint) (maxForce : cpFloat) : Prog Unit :=
  .call cpConstraintSetMaxForce
    [⟨.ptr .cpConstraint, constraint⟩, ⟨.cpFloat, maxForce⟩]
    fun _ => .ret ()

/-- Source lines 532-534: `return cpConstraintGetErrorBias(constraint);` -/
def cp_constraint_get_error_bias (constraint : Ptr .cpConstraint) : Prog cpFloat :=
  .call cpConstraintGetErrorBias [⟨.ptr .cpConstraint, constraint⟩] fun (r : cpFloat) => .ret r

/-- Source lines 536-538: `cpConstraintSetErrorBias(constraint, errorBias);` -/
def cp_constraint_set_error_bias
    (constraint : Ptr .cpConstraint) (errorBias : cpFloat) :
    Prog Unit :=
  .call cpConstraintSetErrorBias
    [⟨.ptr .cpConstraint, constraint⟩, ⟨.cpFloat, errorBias⟩]
    fun _ => .ret ()

/-- Source lines 540-542: `return cpConstraintGetMaxBias(constraint);` -/
def cp_constraint_get_max_bias (constraint : Ptr .cpConstraint) : Prog cpFloat :=
  .call cpConstraintGetMaxBias [⟨.ptr .cpConstraint, constraint⟩] fun (r : cpFloat) => .ret r

/-- Source lines 544-546: `cpConstraintSetMaxBias(constraint, maxBias);` -/
def cp_constraint_set_max_bias (constraint : Ptr .cpConstraint) (maxBias : cpFloat) : Prog Unit :=
  .call cpConstraintSetMaxBias
    [⟨.ptr .cpConstraint, constraint⟩, ⟨.cpFloat, maxBias⟩]
    fun _ => .ret ()

/-- Source lines 548-550: `return cpConstraintGetCollideBodies(constraint) ? 1 : 0;` -/
def cp_constraint_get_collide_bodies (constraint : Ptr .cpConstraint) : Prog Int :=
  .call cpConstraintGetCollideBodies
    [⟨.ptr .cpConstraint, constraint⟩]
    fun (r : cpBool) => .ret (if r ≠ 0 then 1 else 0)

/-- Source lines 552-554: `cpConstraintSetCollideBodies(constraint, collideBodies ? cpTrue : cpFalse);` -/
def cp_constraint_set_collide_bodies
    (constraint : Ptr .cpConstraint) (collideBodies : Int) :
    Prog Unit :=
  .call cpConstraintSetCollideBodies
    [⟨.ptr .cpConstraint, constraint⟩, ⟨.cpBool, if collideBodies ≠ 0 then cpTrue else cpFalse⟩]
    fun _ => .ret ()

/-- Source lines 556-558: `return cpConstraintGetImpulse(constraint);` -/
def cp_constraint_get_impulse (constraint : Ptr .cpConstraint) : Prog cpFloat :=
  .call cpConstraintGetImpulse [⟨.ptr .cpConstraint, constraint⟩] fun (r : cpFloat) => .ret r

/-- Source lines 561-563: `return cpPinJointNew(a, b, anchorA, anchorB);` -/
def cp_pin_joint_new
    (a : Ptr .cpBody) (b : Ptr .cpBody) (anchorA : cpVect) (anchorB : cpVect) :
    Prog (Ptr .cpConstraint) :=
  .call cpPinJointNew
    [⟨.ptr .cpBody, a⟩, ⟨.ptr .cpBody, b⟩, ⟨.cpVect, anchorA⟩, ⟨.cpVect, anchorB⟩]
    fun (r : Ptr .cpConstraint) => .ret r

/-- Source lines 565-567: `return cpPinJointGetAnchorA(constraint);` -/
def cp_pin_joint_get_anchor_a (constraint : Ptr .cpConstraint) : Prog cpVect :=
  .call cpPinJointGetAnchorA [⟨.ptr .cpConstraint, constraint⟩] fun (r : cpVect) => .ret r

/-- Source lines 569-571: `cpPinJointSetAnchorA(constraint, anchorA);` -/
def cp_pin_joint_set_anchor_a (constraint : Ptr .cpConstraint) (anchorA : cpVect) : Prog Unit :=
  .call cpPinJointSetAnchorA [⟨.ptr .cpConstraint, constraint⟩, ⟨.cpVect, anchorA⟩] fun _ => .ret ()

/-- Source lines 573-575: `return cpPinJointGetAnchorB(constraint);` -/
def cp_pin_joint_get_anchor_b (constraint : Ptr .cpConstraint) : Prog cpVect :=
  .call cpPinJointGetAnchorB [⟨.ptr .cpConstraint, constraint⟩] fun (r : cpVect) => .ret r

/-- Source lines 577-579: `cpPinJointSetAnchorB(constraint, anchorB);` -/
def cp_pin_joint_set_anchor_b (constraint : Ptr .cpConstraint) (anchorB : cpVect) : Prog Unit :=
  .call cpPinJointSetAnchorB [⟨.ptr .cpConstraint, constraint⟩, ⟨.cpVect, anchorB⟩] fun _ => .ret ()

/-- Source lines 581-583: `return cpPinJointGetDist(constraint);` -/
def cp_pin_joint_get_dist (constraint : Ptr .cpConstraint) : Prog cpFloat :=
  .call cpPinJointGetDist [⟨.ptr .cpConstraint, constraint⟩] fun (r : cpFloat) => .ret r

/-- Source lines 585-587: `cpPinJointSetDist(constraint, dist);` -/
def cp_pin_joint_set_dist (constraint : Ptr .cpConstraint) (dist : cpFloat) : Prog Unit :=
  .call cpPinJointSetDist [⟨.ptr .cpConstraint, constraint⟩, ⟨.cpFloat, dist⟩] fun _ => .ret ()

/-- Source lines 590-592: `return cpSlideJointNew(a, b, anchorA, anchorB, min, max);` -/
def cp_slide_joint_new
    (a : Ptr .cpBody) (b : Ptr .cpBody) (anchorA : cpVect) (anchorB : cpVect) (min : cpFloat)
    (max : cpFloat) :
    Prog (Ptr .cpConstraint) :=
  .call cpSlideJointNew
    [⟨.ptr .cpBody, a⟩, ⟨.ptr .cpBody, b⟩, ⟨.cpVect, anchorA⟩, ⟨.cpVect, anchorB⟩, ⟨.cpFloat, min⟩,
     ⟨.cpFloat, max⟩]
    fun (r : Ptr .cpConstraint) => .ret r

/-- Source lines 594-596: `return cpSlideJointGetAnchorA(constraint);` -/
def cp_slide_joint_get_anchor_a (constraint : Ptr .cpConstraint) : Prog cpVect :=
  .call cpSlideJointGetAnchorA [⟨.ptr .cpConstraint, constraint⟩] fun (r : cpVect) => .ret r

/-- Source lines 598-600: `cpSlideJointSetAnchorA(constraint, anchorA);` -/
def cp_slide_joint_set_anchor_a (constraint : Ptr .cpConstraint) (anchorA : cpVect) : Prog Unit :=
  .call cpSlideJointSetAnchorA
    [⟨.ptr .cpConstraint, constraint⟩, ⟨.cpVect, anchorA⟩]
    fun _ => .ret ()

/-- Source lines 602-604: `return cpSlideJointGetAnchorB(constraint);` -/
def cp_slide_joint_get_anchor_b (constraint : Ptr .cpConstraint) : Prog cpVect :=
  .call cpSlideJointGetAnchorB [⟨.ptr .cpConstraint, constraint⟩] fun (r : cpVect) => .ret r

/-- Source lines 606-608: `cpSlideJointSetAnchorB(constraint, anchorB);` -/
def cp_slide_joint_set_anchor_b (constraint : Ptr .cpConstraint) (anchorB : cpVect) : Prog Unit :=
  .call cpSlideJointSetAnchorB
    [⟨.ptr .cpConstraint, constraint⟩, ⟨.cpVect, anchorB⟩]
    fun _ => .ret ()

/-- Source lines 610-612: `return cpSlideJointGetMin(constraint);` -/
def cp_slide_joint_get_min (constraint : Ptr .cpConstraint) : Prog cpFloat :=
  .call cpSlideJointGetMin [⟨.ptr .cpConstraint, constraint⟩] fun (r : cpFloat) => .ret r

/-- Source lines 614-616: `cpSlideJointSetMin(constraint, min);` -/
def cp_slide_joint_set_min (constraint : Ptr .cpConstraint) (min : cpFloat) : Prog Unit :=
  .call cpSlideJointSetMin [⟨.ptr .cpConstraint, constraint⟩, ⟨.cpFloat, min⟩] fun _ => .ret ()

/-- Source lines 618-620: `return cpSlideJointGetMax(constraint);` -/
def cp_slide_joint_get_max (constraint : Ptr .cpConstraint) : Prog cpFloat :=
  .call cpSlideJointGetMax [⟨.ptr .cpConstraint, constraint⟩] fun (r : cpFloat) => .ret r

/-- Source lines 622-624: `cpSlideJointSetMax(constraint, max);` -/
def cp_slide_joint_set_max (constraint : Ptr .cpConstraint) (max : cpFloat) : Prog Unit :=
  .call cpSlideJointSetMax [⟨.ptr .cpConstraint, constraint⟩, ⟨.cpFloat, max⟩] fun _ => .ret ()

/-- Source lines 627-629: `return cpPivotJointNew(a, b, pivot);` -/
def cp_pivot_joint_new
    (a : Ptr .cpBody) (b : Ptr .cpBody) (pivot : cpVect) :
    Prog (Ptr .cpConstraint) :=
  .call cpPivotJointNew
    [⟨.ptr .cpBody, a⟩, ⟨.ptr .cpBody, b⟩, ⟨.cpVect, pivot⟩]
    fun (r : Ptr .cpConstraint) => .ret r

/-- Source lines 631-633: `return cpPivotJointNew2(a, b, anchorA, anchorB);` -/
def cp_pivot_joint_new2
    (a : Ptr .cpBody) (b : Ptr .cpBody) (anchorA : cpVect) (anchorB : cpVect) :
    Prog (Ptr .cpConstraint) :=
  .call cpPivotJointNew2
    [⟨.ptr .cpBody, a⟩, ⟨.ptr .cpBody, b⟩, ⟨.cpVect, anchorA⟩, ⟨.cpVect, anchorB⟩]
    fun (r : Ptr .cpConstraint) => .ret r

/-- Source lines 635-637: `return cpPivotJointGetAnchorA(constraint);` -/
def cp_pivot_joint_get_anchor_a (constraint : Ptr .cpConstraint) : Prog cpVect :=
  .call cpPivotJointGetAnchorA [⟨.ptr .cpConstraint, constraint⟩] fun (r : cpVect) => .ret r

/-- Source lines 639-641: `cpPivotJointSetAnchorA(constraint, anchorA);` -/
def cp_pivot_joint_set_anchor_a (constraint : Ptr .cpConstraint) (anchorA : cpVect) : Prog Unit :=
  .call cpPivotJointSetAnchorA
    [⟨.ptr .cpConstraint, constraint⟩, ⟨.cpVect, anchorA⟩]
    fun _ => .ret ()

/-- Source lines 643-645: `return cpPivotJointGetAnchorB(constraint);` -/
def cp_pivot_joint_get_anchor_b (constraint : Ptr .cpConstraint) : Prog cpVect :=
  .call cpPivotJointGetAnchorB [⟨.ptr .cpConstraint, constraint⟩] fun (r : cpVect) => .ret r

/-- Source lines 647-649: `cpPivotJointSetAnchorB(constraint, anchorB);` -/
def cp_pivot_joint_set_anchor_b (constraint : Ptr .cpConstraint) (anchorB : cpVect) : Prog Unit :=
  .call cpPivotJointSetAnchorB
    [⟨.ptr .cpConstraint, constraint⟩, ⟨.cpVect, anchorB⟩]
    fun _ => .ret ()

/-- Source lines 652-654: `return cpGrooveJointNew(a, b, groove_a, groove_b, anchorB);` -/
def cp_groove_joint_new
    (a : Ptr .cpBody) (b : Ptr .cpBody) (groove_a : cpVect) (groove_b : cpVect) (anchorB : cpVect) :
    Prog (Ptr .cpConstraint) :=
  .call cpGrooveJointNew
    [⟨.ptr .cpBody, a⟩, ⟨.ptr .cpBody, b⟩, ⟨.cpVect, groove_a⟩, ⟨.cpVect, groove_b⟩,
     ⟨.cpVect, anchorB⟩]
    fun (r : Ptr .cpConstraint) => .ret r

/-- Source lines 656-658: `return cpGrooveJointGetGrooveA(constraint);` -/
def cp_groove_joint_get_groove_a (constraint : Ptr .cpConstraint) : Prog cpVect :=
  .call cpGrooveJointGetGrooveA [⟨.ptr .cpConstraint, constraint⟩] fun (r : cpVect) => .ret r

/-- Source lines 660-662: `cpGrooveJointSetGrooveA(constraint, grooveA);` -/
def cp_groove_joint_set_groove_a (constraint : Ptr .cpConstraint) (grooveA : cpVect) : Prog Unit :=
  .call cpGrooveJointSetGrooveA
    [⟨.ptr .cpConstraint, constraint⟩, ⟨.cpVect, grooveA⟩]
    fun _ => .ret ()

/-- Source lines 664-666: `return cpGrooveJointGetGrooveB(constraint);` -/
def cp_groove_joint_get_groove_b (constraint : Ptr .cpConstraint) : Prog cpVect :=
  .call cpGrooveJointGetGrooveB [⟨.ptr .cpConstraint, constraint⟩] fun (r : cpVect) => .ret r

/-- Source lines 668-670: `cpGrooveJointSetGrooveB(constraint, grooveB);` -/
def cp_groove_joint_set_groove_b (constraint : Ptr .cpConstraint) (grooveB : cpVect) : Prog Unit :=
  .call cpGrooveJointSetGrooveB
    [⟨.ptr .cpConstraint, constraint⟩, ⟨.cpVect, grooveB⟩]
    fun _ => .ret ()

/-- Source lines 672-674: `return cpGrooveJointGetAnchorB(constraint);` -/
def cp_groove_joint_get_anchor_b (constraint : Ptr .cpConstraint) : Prog cpVect :=
  .call cpGrooveJointGetAnchorB [⟨.ptr .cpConstraint, constraint⟩] fun (r : cpVect) => .ret r

/-- Source lines 676-678: `cpGrooveJointSetAnchorB(constraint, anchorB);` -/
def cp_groove_joint_set_anchor_b (constraint : Ptr .cpConstraint) (anchorB : cpVect) : Prog Unit :=
  .call cpGrooveJointSetAnchorB
    [⟨.ptr .cpConstraint, constraint⟩, ⟨.cpVect, anchorB⟩]
    fun _ => .ret ()

/-- Source lines 681-683: `return cpDampedSpringNew(a, b, anchorA, anchorB, restLength, stiffness, damping);` -/
def cp_damped_spring_new
    (a : Ptr .cpBody) (b : Ptr .cpBody) (anchorA : cpVect) (anchorB : cpVect)
    (restLength : cpFloat) (stiffness : cpFloat) (damping : cpFloat) :
    Prog (Ptr .cpConstraint) :=
  .call cpDampedSpringNew
    [⟨.ptr .cpBody, a⟩, ⟨.ptr .cpBody, b⟩, ⟨.cpVect, anchorA⟩, ⟨.cpVect, anchorB⟩,
     ⟨.cpFloat, restLength⟩, ⟨.cpFloat, stiffness⟩, ⟨.cpFloat, damping⟩]
    fun (r : Ptr .cpConstraint) => .ret r

/-- Source lines 685-687: `return cpDampedSpringGetAnchorA(constraint);` -/
def cp_damped_spring_get_anchor_a (constraint : Ptr .cpConstraint) : Prog cpVect :=
  .call cpDampedSpringGetAnchorA [⟨.ptr .cpConstraint, constraint⟩] fun (r : cpVect) => .ret r

/-- Source lines 689-691: `cpDampedSpringSetAnchorA(constraint, anchorA);` -/
def cp_damped_spring_set_anchor_a (constraint : Ptr .cpConstraint) (anchorA : cpVect) : Prog Unit :=
  .call cpDampedSpringSetAnchorA
    [⟨.ptr .cpConstraint, constraint⟩, ⟨.cpVect, anchorA⟩]
    fun _ => .ret ()

/-- Source lines 693-695: `return cpDampedSpringGetAnchorB(constraint);` -/
def cp_damped_spring_get_anchor_b (constraint : Ptr .cpConstraint) : Prog cpVect :=
  .call cpDampedSpringGetAnchorB [⟨.ptr .cpConstraint, constraint⟩] fun (r : cpVect) => .ret r

/-- Source lines 697-699: `cpDampedSpringSetAnchorB(constraint, anchorB);` -/
def cp_damped_spring_set_anchor_b (constraint : Ptr .cpConstraint) (anchorB : cpVect) : Prog Unit :=
  .call cpDampedSpringSetAnchorB
    [⟨.ptr .cpConstraint, constraint⟩, ⟨.cpVect, anchorB⟩]
    fun _ => .ret ()

/-- Source lines 701-703: `return cpDampedSpringGetRestLength(constraint);` -/
def cp_damped_spring_get_rest_length (constraint : Ptr .cpConstraint) : Prog cpFloat :=
  .call cpDampedSpringGetRestLength [⟨.ptr .cpConstraint, constraint⟩] fun (r : cpFloat) => .ret r

/-- Source lines 705-707: `cpDampedSpringSetRestLength(constraint, restLength);` -/
def cp_damped_spring_set_rest_length
    (constraint : Ptr .cpConstraint) (restLength : cpFloat) :
    Prog Unit :=
  .call cpDampedSpringSetRestLength
    [⟨.ptr .cpConstraint, constraint⟩, ⟨.cpFloat, restLength⟩]
    fun _ => .ret ()

/-- Source lines 709-711: `return cpDampedSpringGetStiffness(constraint);` -/
def cp_damped_spring_get_stiffness (constraint : Ptr .cpConstraint) : Prog cpFloat :=
  .call cpDampedSpringGetStiffness [⟨.ptr .cpConstraint, constraint⟩] fun (r : cpFloat) => .ret r

/-- Source lines 713-715: `cpDampedSpringSetStiffness(constraint, stiffness);` -/
def cp_damped_spring_set_stiffness
    (constraint : Ptr .cpConstraint) (stiffness : cpFloat) :
    Prog Unit :=
  .call cpDampedSpringSetStiffness
    [⟨.ptr .cpConstraint, constraint⟩, ⟨.cpFloat, stiffness⟩]
    fun _ => .ret ()

/-- Source lines 717-719: `return cpDampedSpringGetDamping(constraint);` -/
def cp_damped_spring_get_damping (constraint : Ptr .cpConstraint) : Prog cpFloat :=
  .call cpDampedSpringGetDamping [⟨.ptr .cpConstraint, constraint⟩] fun (r : cpFloat) => .ret r

/-- Source lines 721-723: `cpDampedSpringSetDamping(constraint, damping);` -/
def cp_damped_spring_set_damping (constraint : Ptr .cpConstraint) (damping : cpFloat) : Prog Unit :=
  .call cpDampedSpringSetDamping
    [⟨.ptr .cpConstraint, constraint⟩, ⟨.cpFloat, damping⟩]
    fun _ => .ret ()

/-- Source lines 726-728: `return cpDampedRotarySpringNew(a, b, restAngle, stiffness, damping);` -/
def cp_damped_rotary_spring_new
    (a : Ptr .cpBody) (b : Ptr .cpBody) (restAngle : cpFloat) (stiffness : cpFloat)
    (damping : cpFloat) :
    Prog (Ptr .cpConstraint) :=
  .call cpDampedRotarySpringNew
    [⟨.ptr .cpBody, a⟩, ⟨.ptr .cpBody, b⟩, ⟨.cpFloat, restAngle⟩, ⟨.cpFloat, stiffness⟩,
     ⟨.cpFloat, damping⟩]
    fun (r : Ptr .cpConstraint) => .ret r

/-- Source lines 730-732: `return cpDampedRotarySpringGetRestAngle(constraint);` -/
def cp_damped_rotary_spring_get_rest_angle (constraint : Ptr .cpConstraint) : Prog cpFloat :=
  .call cpDampedRotarySpringGetRestAngle
    [⟨.ptr .cpConstraint, constraint⟩]
    fun (r : cpFloat) => .ret r

/-- Source lines 734-736: `cpDampedRotarySpringSetRestAngle(constraint, restAngle);` -/
def cp_damped_rotary_spring_set_rest_angle
    (constraint : Ptr .cpConstraint) (restAngle : cpFloat) :
    Prog Unit :=
  .call cpDampedRotarySpringSetRestAngle
    [⟨.ptr .cpConstraint, constraint⟩, ⟨.cpFloat, restAngle⟩]
    fun _ => .ret ()

/-- Source lines 738-740: `return cpDampedRotarySpringGetStiffness(constraint);` -/
def cp_damped_rotary_spring_get_stiffness (constraint : Ptr .cpConstraint) : Prog cpFloat :=
  .call cpDampedRotarySpringGetStiffness
    [⟨.ptr .cpConstraint, constraint⟩]
    fun (r : cpFloat) => .ret r

/-- Source lines 742-744: `cpDampedRotarySpringSetStiffness(constraint, stiffness);` -/
def cp_damped_rotary_spring_set_stiffness
    (constraint : Ptr .cpConstraint) (stiffness : cpFloat) :
    Prog Unit :=
  .call cpDampedRotarySpringSetStiffness
    [⟨.ptr .cpConstraint, constraint⟩, ⟨.cpFloat, stiffness⟩]
    fun _ => .ret ()

/-- Source lines 746-748: `return cpDampedRotarySpringGetDamping(constraint);` -/
def cp_damped_rotary_spring_get_damping (constraint : Ptr .cpConstraint) : Prog cpFloat :=
  .call cpDampedRotarySpringGetDamping
    [⟨.ptr .cpConstraint, constraint⟩]
    fun (r : cpFloat) => .ret r

/-- Source lines 750-752: `cpDampedRotarySpringSetDamping(constraint, damping);` -/
def cp_damped_rotary_spring_set_damping
    (constraint : Ptr .cpConstraint) (damping : cpFloat) :
    Prog Unit :=
  .call cpDampedRotarySpringSetDamping
    [⟨.ptr .cpConstraint, constraint⟩, ⟨.cpFloat, damping⟩]
    fun _ => .ret ()

/-- Source lines 755-757: `return cpRotaryLimitJointNew(a, b, min, max);` -/
def cp_rotary_limit_joint_new
    (a : Ptr .cpBody) (b : Ptr .cpBody) (min : cpFloat) (max : cpFloat) :
    Prog (Ptr .cpConstraint) :=
  .call cpRotaryLimitJointNew
    [⟨.ptr .cpBody, a⟩, ⟨.ptr .cpBody, b⟩, ⟨.cpFloat, min⟩, ⟨.cpFloat, max⟩]
    fun (r : Ptr .cpConstraint) => .ret r

/-- Source lines 759-761: `return cpRotaryLimitJointGetMin(constraint);` -/
def cp_rotary_limit_joint_get_min (constraint : Ptr .cpConstraint) : Prog cpFloat :=
  .call cpRotaryLimitJointGetMin [⟨.ptr .cpConstraint, constraint⟩] fun (r : cpFloat) => .ret r

/-- Source lines 763-765: `cpRotaryLimitJointSetMin(constraint, min);` -/
def cp_rotary_limit_joint_set_min (constraint : Ptr .cpConstraint) (min : cpFloat) : Prog Unit :=
  .call cpRotaryLimitJointSetMin
    [⟨.ptr .cpConstraint, constraint⟩, ⟨.cpFloat, min⟩]
    fun _ => .ret ()

/-- Source lines 767-769: `return cpRotaryLimitJointGetMax(constraint);` -/
def cp_rotary_limit_joint_get_max (constraint : Ptr .cpConstraint) : Prog cpFloat :=
  .call cpRotaryLimitJointGetMax [⟨.ptr .cpConstraint, constraint⟩] fun (r : cpFloat) => .ret r

/-- Source lines 771-773: `cpRotaryLimitJointSetMax(constraint, max);` -/
def cp_rotary_limit_joint_set_max (constraint : Ptr .cpConstraint) (max : cpFloat) : Prog Unit :=
  .call cpRotaryLimitJointSetMax
    [⟨.ptr .cpConstraint, constraint⟩, ⟨.cpFloat, max⟩]
    fun _ => .ret ()

/-- Source lines 776-778: `return cpRatchetJointNew(a, b, phase, ratchet);` -/
def cp_ratchet_joint_new
    (a : Ptr .cpBody) (b : Ptr .cpBody) (phase : cpFloat) (ratchet : cpFloat) :
    Prog (Ptr .cpConstraint) :=
  .call cpRatchetJointNew
    [⟨.ptr .cpBody, a⟩, ⟨.ptr .cpBody, b⟩, ⟨.cpFloat, phase⟩, ⟨.cpFloat, ratchet⟩]
    fun (r : Ptr .cpConstraint) => .ret r

/-- Source lines 780-782: `return cpRatchetJointGetAngle(constraint);` -/
def cp_ratchet_joint_get_angle (constraint : Ptr .cpConstraint) : Prog cpFloat :=
  .call cpRatchetJointGetAngle [⟨.ptr .cpConstraint, constraint⟩] fun (r : cpFloat) => .ret r

/-- Source lines 784-786: `cpRatchetJointSetAngle(constraint, angle);` -/
def cp_ratchet_joint_set_angle (constraint : Ptr .cpConstraint) (angle : cpFloat) : Prog Unit :=
  .call cpRatchetJointSetAngle
    [⟨.ptr .cpConstraint, constraint⟩, ⟨.cpFloat, angle⟩]
    fun _ => .ret ()

/-- Source lines 788-790: `return cpRatchetJointGetPhase(constraint);` -/
def cp_ratchet_joint_get_phase (constraint : Ptr .cpConstraint) : Prog cpFloat :=
  .call cpRatchetJointGetPhase [⟨.ptr .cpConstraint, constraint⟩] fun (r : cpFloat) => .ret r

/-- Source lines 792-794: `cpRatchetJointSetPhase(constraint, phase);` -/
def cp_ratchet_joint_set_phase (constraint : Ptr .cpConstraint) (phase : cpFloat) : Prog Unit :=
  .call cpRatchetJointSetPhase
    [⟨.ptr .cpConstraint, constraint⟩, ⟨.cpFloat, phase⟩]
    fun _ => .ret ()

/-- Source lines 796-798: `return cpRatchetJointGetRatchet(constraint);` -/
def cp_ratchet_joint_get_ratchet (constraint : Ptr .cpConstraint) : Prog cpFloat :=
  .call cpRatchetJointGetRatchet [⟨.ptr .cpConstraint, constraint⟩] fun (r : cpFloat) => .ret r

/-- Source lines 800-802: `cpRatchetJointSetRatchet(constraint, ratchet);` -/
def cp_ratchet_joint_set_ratchet (constraint : Ptr .cpConstraint) (ratchet : cpFloat) : Prog Unit :=
  .call cpRatchetJointSetRatchet
    [⟨.ptr .cpConstraint, constraint⟩, ⟨.cpFloat, ratchet⟩]
    fun _ => .ret ()

/-- Source lines 805-807: `return cpGearJointNew(a, b, phase, ratio);` -/
def cp_gear_joint_new
    (a : Ptr .cpBody) (b : Ptr .cpBody) (phase : cpFloat) (ratio : cpFloat) :
    Prog (Ptr .cpConstraint) :=
  .call cpGearJointNew
    [⟨.ptr .cpBody, a⟩, ⟨.ptr .cpBody, b⟩, ⟨.cpFloat, phase⟩, ⟨.cpFloat, ratio⟩]
    fun (r : Ptr .cpConstraint) => .ret r

/-- Source lines 809-811: `return cpGearJointGetPhase(constraint);` -/
def cp_gear_joint_get_phase (constraint : Ptr .cpConstraint) : Prog cpFloat :=
  .call cpGearJointGetPhase [⟨.ptr .cpConstraint, constraint⟩] fun (r : cpFloat) => .ret r

/-- Source lines 813-815: `cpGearJointSetPhase(constraint, phase);` -/
def cp_gear_joint_set_phase (constraint : Ptr .cpConstraint) (phase : cpFloat) : Prog Unit :=
  .call cpGearJointSetPhase [⟨.ptr .cpConstraint, constraint⟩, ⟨.cpFloat, phase⟩] fun _ => .ret ()

/-- Source lines 817-819: `return cpGearJointGetRatio(constraint);` -/
def cp_gear_joint_get_ratio (constraint : Ptr .cpConstraint) : Prog cpFloat :=
  .call cpGearJointGetRatio [⟨.ptr .cpConstraint, constraint⟩] fun (r : cpFloat) => .ret r

/-- Source lines 821-823: `cpGearJointSetRatio(constraint, ratio);` -/
def cp_gear_joint_set_ratio (constraint : Ptr .cpConstraint) (ratio : cpFloat) : Prog Unit :=
  .call cpGearJointSetRatio [⟨.ptr .cpConstraint, constraint⟩, ⟨.cpFloat, ratio⟩] fun _ => .ret ()

/-- Source lines 826-828: `return cpSimpleMotorNew(a, b, rate);` -/
def cp_simple_motor_new
    (a : Ptr .cpBody) (b : Ptr .cpBody) (rate : cpFloat) :
    Prog (Ptr .cpConstraint) :=
  .call cpSimpleMotorNew
    [⟨.ptr .cpBody, a⟩, ⟨.ptr .cpBody, b⟩, ⟨.cpFloat, rate⟩]
    fun (r : Ptr .cpConstraint) => .ret r

/-- Source lines 830-832: `return cpSimpleMotorGetRate(constraint);` -/
def cp_simple_motor_get_rate (constraint : Ptr .cpConstraint) : Prog cpFloat :=
  .call cpSimpleMotorGetRate [⟨.ptr .cpConstraint, constraint⟩] fun (r : cpFloat) => .ret r

/-- Source lines 834-836: `cpSimpleMotorSetRate(constraint, rate);` -/
def cp_simple_motor_set_rate (constraint : Ptr .cpConstraint) (rate : cpFloat) : Prog Unit :=
  .call cpSimpleMotorSetRate [⟨.ptr .cpConstraint, constraint⟩, ⟨.cpFloat, rate⟩] fun _ => .ret ()

/-- Source lines 839-841: `return cpArbiterGetRestitution(arb);` -/
def cp_arbiter_get_restitution (arb : Ptr .cpArbiter) : Prog cpFloat :=
  .call cpArbiterGetRestitution [⟨.ptr .cpArbiter, arb⟩] fun (r : cpFloat) => .ret r

/-- Source lines 843-845: `cpArbiterSetRestitution(arb, restitution);` -/
def cp_arbiter_set_restitution (arb : Ptr .cpArbiter) (restitution : cpFloat) : Prog Unit :=
  .call cpArbiterSetRestitution [⟨.ptr .cpArbiter, arb⟩, ⟨.cpFloat, restitution⟩] fun _ => .ret ()

/-- Source lines 847-849: `return cpArbiterGetFriction(arb);` -/
def cp_arbiter_get_friction (arb : Ptr .cpArbiter) : Prog cpFloat :=
  .call cpArbiterGetFriction [⟨.ptr .cpArbiter, arb⟩] fun (r : cpFloat) => .ret r

/-- Source lines 851-853: `cpArbiterSetFriction(arb, friction);` -/
def cp_arbiter_set_friction (arb : Ptr .cpArbiter) (friction : cpFloat) : Prog Unit :=
  .call cpArbiterSetFriction [⟨.ptr .cpArbiter, arb⟩, ⟨.cpFloat, friction⟩] fun _ => .ret ()

/-- Source lines 855-857: `return cpArbiterGetSurfaceVelocity(arb);` -/
def cp_arbiter_get_surface_velocity (arb : Ptr .cpArbiter) : Prog cpVect :=
  .call cpArbiterGetSurfaceVelocity [⟨.ptr .cpArbiter, arb⟩] fun (r : cpVect) => .ret r

/-- Source lines 859-861: `cpArbiterSetSurfaceVelocity(arb, vr);` -/
def cp_arbiter_set_surface_velocity (arb : Ptr .cpArbiter) (vr : cpVect) : Prog Unit :=
  .call cpArbiterSetSurfaceVelocity [⟨.ptr .cpArbiter, arb⟩, ⟨.cpVect, vr⟩] fun _ => .ret ()

/-- Source lines 863-865: `return cpArbiterTotalImpulse(arb);` -/
def cp_arbiter_total_impulse (arb : Ptr .cpArbiter) : Prog cpVect :=
  .call cpArbiterTotalImpulse [⟨.ptr .cpArbiter, arb⟩] fun (r : cpVect) => .ret r

/-- Source lines 867-869: `return cpArbiterTotalKE(arb);` -/
def cp_arbiter_total_ke (arb : Ptr .cpArbiter) : Prog cpFloat :=
  .call cpArbiterTotalKE [⟨.ptr .cpArbiter, arb⟩] fun (r : cpFloat) => .ret r

/-- Source lines 871-873: `return cpArbiterIgnore(arb) ? 1 : 0;` -/
def cp_arbiter_ignore (arb : Ptr .cpArbiter) : Prog Int :=
  .call cpArbiterIgnore [⟨.ptr .cpArbiter, arb⟩] fun (r : cpBool) => .ret (if r ≠ 0 then 1 else 0)

/-- Source lines 875-877: `cpArbiterGetShapes(arb, a, b);` -/
def cp_arbiter_get_shapes
    (arb : Ptr .cpArbiter) (a : Ptr (.ptr .cpShape)) (b : Ptr (.ptr .cpShape)) :
    Prog Unit :=
  .call cpArbiterGetShapes
    [⟨.ptr .cpArbiter, arb⟩, ⟨.ptr (.ptr .cpShape), a⟩, ⟨.ptr (.ptr .cpShape), b⟩]
    fun _ => .ret ()

/-- Source lines 879-881: `cpArbiterGetBodies(arb, a, b);` -/
def cp_arbiter_get_bodies
    (arb : Ptr .cpArbiter) (a : Ptr (.ptr .cpBody)) (b : Ptr (.ptr .cpBody)) :
    Prog Unit :=
  .call cpArbiterGetBodies
    [⟨.ptr .cpArbiter, arb⟩, ⟨.ptr (.ptr .cpBody), a⟩, ⟨.ptr (.ptr .cpBody), b⟩]
    fun _ => .ret ()

/-- Source lines 883-885: `return cpArbiterGetContactPointSet(arb);` -/
def cp_arbiter_get_contact_point_set (arb : Ptr .cpArbiter) : Prog cpContactPointSet :=
  .call cpArbiterGetContactPointSet [⟨.ptr .cpArbiter, arb⟩] fun (r : cpContactPointSet) => .ret r

/-- Source lines 887-889: `cpArbiterSetContactPointSet(arb, set);` -/
def cp_arbiter_set_contact_point_set
    (arb : Ptr .cpArbiter) (set : Ptr .cpContactPointSet) :
    Prog Unit :=
  .call cpArbiterSetContactPointSet
    [⟨.ptr .cpArbiter, arb⟩, ⟨.ptr .cpContactPointSet, set⟩]
    fun _ => .ret ()

/-- Source lines 891-893: `return cpArbiterIsFirstContact(arb) ? 1 : 0;` -/
def cp_arbiter_is_first_contact (arb : Ptr .cpArbiter) : Prog Int :=
  .call cpArbiterIsFirstContact
    [⟨.ptr .cpArbiter, arb⟩]
    fun (r : cpBool) => .ret (if r ≠ 0 then 1 else 0)

/-- Source lines 895-897: `return cpArbiterIsRemoval(arb) ? 1 : 0;` -/
def cp_arbiter_is_removal (arb : Ptr .cpArbiter) : Prog Int :=
  .call cpArbiterIsRemoval
    [⟨.ptr .cpArbiter, arb⟩]
    fun (r : cpBool) => .ret (if r ≠ 0 then 1 else 0)

/-- Source lines 899-901: `return cpArbiterGetCount(arb);` -/
def cp_arbiter_get_count (arb : Ptr .cpArbiter) : Prog Int :=
  .call cpArbiterGetCount [⟨.ptr .cpArbiter, arb⟩] fun (r : Int) => .ret r

/-- Source lines 903-905: `return cpArbiterGetNormal(arb);` -/
def cp_arbiter_get_normal (arb : Ptr .cpArbiter) : Prog cpVect :=
  .call cpArbiterGetNormal [⟨.ptr .cpArbiter, arb⟩] fun (r : cpVect) => .ret r

/-- Source lines 907-909: `return cpArbiterGetPointA(arb, i);` -/
def cp_arbiter_get_point_a (arb : Ptr .cpArbiter) (i : Int) : Prog cpVect :=
  .call cpArbiterGetPointA [⟨.ptr .cpArbiter, arb⟩, ⟨.int, i⟩] fun (r : cpVect) => .ret r

/-- Source lines 911-913: `return cpArbiterGetPointB(arb, i);` -/
def cp_arbiter_get_point_b (arb : Ptr .cpArbiter) (i : Int) : Prog cpVect :=
  .call cpArbiterGetPointB [⟨.ptr .cpArbiter, arb⟩, ⟨.int, i⟩] fun (r : cpVect) => .ret r

/-- Source lines 915-917: `return cpArbiterGetDepth(arb, i);` -/
def cp_arbiter_get_depth (arb : Ptr .cpArbiter) (i : Int) : Prog cpFloat :=
  .call cpArbiterGetDepth [⟨.ptr .cpArbiter, arb⟩, ⟨.int, i⟩] fun (r : cpFloat) => .ret r

/-- Source lines 920-922: `return cpMomentForCircle(m, r1, r2, offset);` -/
def cp_moment_for_circle
    (m : cpFloat) (r1 : cpFloat) (r2 : cpFloat) (offset : cpVect) :
    Prog cpFloat :=
  .call cpMomentForCircle
    [⟨.cpFloat, m⟩, ⟨.cpFloat, r1⟩, ⟨.cpFloat, r2⟩, ⟨.cpVect, offset⟩]
    fun (r : cpFloat) => .ret r

/-- Source lines 924-926: `return cpAreaForCircle(r1, r2);` -/
def cp_area_for_circle (r1 : cpFloat) (r2 : cpFloat) : Prog cpFloat :=
  .call cpAreaForCircle [⟨.cpFloat, r1⟩, ⟨.cpFloat, r2⟩] fun (r : cpFloat) => .ret r

/-- Source lines 928-930: `return cpMomentForSegment(m, a, b, radius);` -/
def cp_moment_for_segment
    (m : cpFloat) (a : cpVect) (b : cpVect) (radius : cpFloat) :
    Prog cpFloat :=
  .call cpMomentForSegment
    [⟨.cpFloat, m⟩, ⟨.cpVect, a⟩, ⟨.cpVect, b⟩, ⟨.cpFloat, radius⟩]
    fun (r : cpFloat) => .ret r

/-- Source lines 932-934: `return cpAreaForSegment(a, b, radius);` -/
def cp_area_for_segment (a : cpVect) (b : cpVect) (radius : cpFloat) : Prog cpFloat :=
  .call cpAreaForSegment
    [⟨.cpVect, a⟩, ⟨.cpVect, b⟩, ⟨.cpFloat, radius⟩]
    fun (r : cpFloat) => .ret r

/-- Source lines 936-938: `return cpMomentForPoly(m, count, verts, offset, radius);` -/
def cp_moment_for_poly
    (m : cpFloat) (count : Int) (verts : Ptr .cpVect) (offset : cpVect) (radius : cpFloat) :
    Prog cpFloat :=
  .call cpMomentForPoly
    [⟨.cpFloat, m⟩, ⟨.int, count⟩, ⟨.ptr .cpVect, verts⟩, ⟨.cpVect, offset⟩, ⟨.cpFloat, radius⟩]
    fun (r : cpFloat) => .ret r

/-- Source lines 940-942: `return cpAreaForPoly(count, verts, radius);` -/
def cp_area_for_poly (count : Int) (verts : Ptr .cpVect) (radius : cpFloat) : Prog cpFloat :=
  .call cpAreaForPoly
    [⟨.int, count⟩, ⟨.ptr .cpVect, verts⟩, ⟨.cpFloat, radius⟩]
    fun (r : cpFloat) => .ret r

/-- Source lines 944-946: `return cpCentroidForPoly(count, verts);` -/
def cp_centroid_for_poly (count : Int) (verts : Ptr .cpVect) : Prog cpVect :=
  .call cpCentroidForPoly [⟨.int, count⟩, ⟨.ptr .cpVect, verts⟩] fun (r : cpVect) => .ret r

/-- Source lines 948-950: `return cpMomentForBox(m, width, height);` -/
def cp_moment_for_box (m : cpFloat) (width : cpFloat) (height : cpFloat) : Prog cpFloat :=
  .call cpMomentForBox
    [⟨.cpFloat, m⟩, ⟨.cpFloat, width⟩, ⟨.cpFloat, height⟩]
    fun (r : cpFloat) => .ret r

/-- Source lines 952-954: `return cpMomentForBox2(m, box);` -/
def cp_moment_for_box2 (m : cpFloat) (box : cpBB) : Prog cpFloat :=
  .call cpMomentForBox2 [⟨.cpFloat, m⟩, ⟨.cpBB, box⟩] fun (r : cpFloat) => .ret r

/-- Source lines 956-958: `return cpConvexHull(count, verts, result, first, tol);` -/
def cp_convex_hull
    (count : Int) (verts : Ptr .cpVect) (result : Ptr .cpVect) (first : Ptr .int) (tol : cpFloat) :
    Prog Int :=
  .call cpConvexHull
    [⟨.int, count⟩, ⟨.ptr .cpVect, verts⟩, ⟨.ptr .cpVect, result⟩, ⟨.ptr .int, first⟩,
     ⟨.cpFloat, tol⟩]
    fun (r : Int) => .ret r

/-! ## The table of exported wrappers -/

/-- The Lean type of a wrapper with the given parameter types and result type. -/
def Fn : List CTy → CTy → Type
  | [], r => Prog r.denote
  | a :: as, r => a.denote → Fn as r

/-- One argument value for each parameter type. -/
def Args : List CTy → Type
  | [] => Unit
  | a :: as => a.denote × Args as

/-- A wrapper applied to its arguments. -/
def Fn.app : (ps : List CTy) → (r : CTy) → Fn ps r → Args ps → Prog r.denote
  | [], _, f, _ => f
  | _ :: as, r, f, x => Fn.app as r (f x.1) x.2

/-- The arguments a wrapper received, as typed values in parameter order. -/
def Args.vals : (ps : List CTy) → Args ps → List Val
  | [], _ => []
  | a :: as, x => ⟨a, x.1⟩ :: Args.vals as x.2

/-- An exported wrapper as the implementation file defines it: name, parameter types, result
type and body. -/
structure Wrapper where
  name : String
  params : List CTy
  ret : CTy
  impl : Fn params ret

/-- The program a wrapper runs on the given arguments. -/
def Wrapper.prog (w : Wrapper) (args : Args w.params) : Prog w.ret.denote :=
  Fn.app w.params w.ret w.impl args

/-- The wrappers of the section "Space management" (from source line 3), part 1, in source order. -/
def spaceManagementWrappers1 : List Wrapper := [
  ⟨"cp_space_new", [], .ptr .cpSpace, cp_space_new⟩,
  ⟨"cp_space_free", [.ptr .cpSpace], .void, cp_space_free⟩,
  ⟨"cp_space_step", [.ptr .cpSpace, .cpFloat], .void, cp_space_step⟩,
  ⟨"cp_space_set_gravity", [.ptr .cpSpace, .cpVect], .void, cp_space_set_gravity⟩,
  ⟨"cp_space_get_gravity", [.ptr .cpSpace], .cpVect, cp_space_get_gravity⟩,
  ⟨"cp_space_set_iterations", [.ptr .cpSpace, .int], .void, cp_space_set_iterations⟩,
  ⟨"cp_space_set_collision_slop", [.ptr .cpSpace, .cpFloat], .void, cp_space_set_collision_slop⟩,
  ⟨"cp_space_set_damping", [.ptr .cpSpace, .cpFloat], .void, cp_space_set_damping⟩,
  ⟨"cp_space_set_idle_speed_threshold",
    [.ptr .cpSpace, .cpFloat], .void, cp_space_set_idle_speed_threshold⟩,
  ⟨"cp_space_set_sleep_time_threshold",
    [.ptr .cpSpace, .cpFloat], .void, cp_space_set_sleep_time_threshold⟩,
  ⟨"cp_space_set_collision_bias", [.ptr .cpSpace, .cpFloat], .void, cp_space_set_collision_bias⟩,
  ⟨"cp_space_set_collision_persistence",
    [.ptr .cpSpace, .unsignedInt], .void, cp_space_set_collision_persistence⟩,
  ⟨"cp_space_reindex_static", [.ptr .cpSpace], .void, cp_space_reindex_static⟩,
  ⟨"cp_space_reindex_shape", [.ptr .cpSpace, .ptr .cpShape], .void, cp_space_reindex_shape⟩,
  ⟨"cp_space_reindex_shapes_for_body",
    [.ptr .cpSpace, .ptr .cpBody], .void, cp_space_reindex_shapes_for_body⟩,
  ⟨"cp_space_get_static_body", [.ptr .cpSpace], .ptr .cpBody, cp_space_get_static_body⟩,
  ⟨"cp_space_get_iterations", [.ptr .cpSpace], .int, cp_space_get_iterations⟩,
  ⟨"cp_space_get_damping", [.ptr .cpSpace], .cpFloat, cp_space_get_damping⟩,
  ⟨"cp_space_get_idle_speed_threshold",
    [.ptr .cpSpace], .cpFloat, cp_space_get_idle_speed_threshold⟩,
  ⟨"cp_space_get_sleep_time_threshold",
    [.ptr .cpSpace], .cpFloat, cp_space_get_sleep_time_threshold⟩,
  ⟨"cp_space_get_collision_slop", [.ptr .cpSpace], .cpFloat, cp_space_get_collision_slop⟩,
  ⟨"cp_space_get_collision_bias", [.ptr .cpSpace], .cpFloat, cp_space_get_collision_bias⟩,
  ⟨"cp_space_get_collision_persistence",
    [.ptr .cpSpace], .unsignedInt, cp_space_get_collision_persistence⟩,
  ⟨"cp_space_get_current_time_step", [.ptr .cpSpace], .cpFloat, cp_space_get_current_time_step⟩]

/-- The wrappers of the section "Space management" (from source line 3), part 2, in source order. -/
def spaceManagementWrappers2 : List Wrapper := [
  ⟨"cp_space_is_locked", [.ptr .cpSpace], .int, cp_space_is_locked⟩,
  ⟨"cp_space_contains_body", [.ptr .cpSpace, .ptr .cpBody], .int, cp_space_contains_body⟩,
  ⟨"cp_space_contains_shape", [.ptr .cpSpace, .ptr .cpShape], .int, cp_space_contains_shape⟩,
  ⟨"cp_space_contains_constraint",
    [.ptr .cpSpace, .ptr .cpConstraint], .int, cp_space_contains_constraint⟩,
  ⟨"cp_space_add_constraint", [.ptr .cpSpace, .ptr .cpConstraint], .void, cp_space_add_constraint⟩,
  ⟨"cp_space_remove_constraint",
    [.ptr .cpSpace, .ptr .cpConstraint], .void, cp_space_remove_constraint⟩,
  ⟨"cp_space_segment_query_first",
    [.ptr .cpSpace, .cpVect, .cpVect, .cpFloat, .cpShapeFilter, .ptr .cpSegmentQueryInfo], .ptr .cpShape, cp_space_segment_query_first⟩,
  ⟨"cp_space_shape_query",
    [.ptr .cpSpace, .ptr .cpShape, .ptr .void, .ptr .void], .int, cp_space_shape_query⟩]

/-- The wrappers of the section "Body management" (from source line 134), part 1, in source order. -/
def bodyManagementWrappers1 : List Wrapper := [
  ⟨"cp_body_new", [.cpFloat, .cpFloat], .ptr .cpBody, cp_body_new⟩,
  ⟨"cp_body_new_kinematic", [], .ptr .cpBody, cp_body_new_kinematic⟩,
  ⟨"cp_body_new_static", [], .ptr .cpBody, cp_body_new_static⟩,
  ⟨"cp_body_free", [.ptr .cpBody], .void, cp_body_free⟩,
  ⟨"cp_body_set_position", [.ptr .cpBody, .cpVect], .void, cp_body_set_position⟩,
  ⟨"cp_body_get_position", [.ptr .cpBody], .cpVect, cp_body_get_position⟩,
  ⟨"cp_body_set_velocity", [.ptr .cpBody, .cpVect], .void, cp_body_set_velocity⟩,
  ⟨"cp_body_get_velocity", [.ptr .cpBody], .cpVect, cp_body_get_velocity⟩,
  ⟨"cp_body_set_angle", [.ptr .cpBody, .cpFloat], .void, cp_body_set_angle⟩,
  ⟨"cp_body_get_angle", [.ptr .cpBody], .cpFloat, cp_body_get_angle⟩,
  ⟨"cp_body_get_mass", [.ptr .cpBody], .cpFloat, cp_body_get_mass⟩,
  ⟨"cp_body_set_mass", [.ptr .cpBody, .cpFloat], .void, cp_body_set_mass⟩,
  ⟨"cp_body_get_moment", [.ptr .cpBody], .cpFloat, cp_body_get_moment⟩,
  ⟨"cp_body_set_moment", [.ptr .cpBody, .cpFloat], .void, cp_body_set_moment⟩,
  ⟨"cp_body_get_center_of_gravity", [.ptr .cpBody], .cpVect, cp_body_get_center_of_gravity⟩,
  ⟨"cp_body_set_center_of_gravity", [.ptr .cpBody, .cpVect], .void, cp_body_set_center_of_gravity⟩,
  ⟨"cp_body_get_force", [.ptr .cpBody], .cpVect, cp_body_get_force⟩,
  ⟨"cp_body_set_force", [.ptr .cpBody, .cpVect], .void, cp_body_set_force⟩,
  ⟨"cp_body_get_angular_velocity", [.ptr .cpBody], .cpFloat, cp_body_get_angular_velocity⟩,
  ⟨"cp_body_set_angular_velocity", [.ptr .cpBody, .cpFloat], .void, cp_body_set_angular_velocity⟩,
  ⟨"cp_body_get_torque", [.ptr .cpBody], .cpFloat, cp_body_get_torque⟩,
  ⟨"cp_body_set_torque", [.ptr .cpBody, .cpFloat], .void, cp_body_set_torque⟩,
  ⟨"cp_body_get_rotation", [.ptr .cpBody], .cpVect, cp_body_get_rotation⟩,
  ⟨"cp_body_get_type", [.ptr .cpBody], .int, cp_body_get_type⟩]

/-- The wrappers of the section "Body management" (from source line 134), part 2, in source order. -/
def bodyManagementWrappers2 : List Wrapper := [
  ⟨"cp_body_set_type", [.ptr .cpBody, .int], .void, cp_body_set_type⟩,
  ⟨"cp_body_is_sleeping", [.ptr .cpBody], .int, cp_body_is_sleeping⟩,
  ⟨"cp_body_activate", [.ptr .cpBody], .void, cp_body_activate⟩,
  ⟨"cp_body_activate_static", [.ptr .cpBody, .ptr .cpShape], .void, cp_body_activate_static⟩,
  ⟨"cp_body_sleep", [.ptr .cpBody], .void, cp_body_sleep⟩,
  ⟨"cp_body_sleep_with_group", [.ptr .cpBody, .ptr .cpBody], .void, cp_body_sleep_with_group⟩,
  ⟨"cp_body_local_to_world", [.ptr .cpBody, .cpVect], .cpVect, cp_body_local_to_world⟩,
  ⟨"cp_body_world_to_local", [.ptr .cpBody, .cpVect], .cpVect, cp_body_world_to_local⟩,
  ⟨"cp_body_apply_force_at_world_point",
    [.ptr .cpBody, .cpVect, .cpVect], .void, cp_body_apply_force_at_world_point⟩,
  ⟨"cp_body_apply_force_at_local_point",
    [.ptr .cpBody, .cpVect, .cpVect], .void, cp_body_apply_force_at_local_point⟩,
  ⟨"cp_body_apply_impulse_at_world_point",
    [.ptr .cpBody, .cpVect, .cpVect], .void, cp_body_apply_impulse_at_world_point⟩,
  ⟨"cp_body_apply_impulse_at_local_point",
    [.ptr .cpBody, .cpVect, .cpVect], .void, cp_body_apply_impulse_at_local_point⟩,
  ⟨"cp_body_get_velocity_at_world_point",
    [.ptr .cpBody, .cpVect], .cpVect, cp_body_get_velocity_at_world_point⟩,
  ⟨"cp_body_get_velocity_at_local_point",
    [.ptr .cpBody, .cpVect], .cpVect, cp_body_get_velocity_at_local_point⟩,
  ⟨"cp_body_kinetic_energy", [.ptr .cpBody], .cpFloat, cp_body_kinetic_energy⟩,
  ⟨"cp_body_get_space", [.ptr .cpBody], .ptr .cpSpace, cp_body_get_space⟩]

/-- The wrappers of the section "Shape management" (from source line 295), part 1, in source order. -/
def shapeManagementWrappers1 : List Wrapper := [
  ⟨"cp_circle_shape_new", [.ptr .cpBody, .cpFloat, .cpVect], .ptr .cpShape, cp_circle_shape_new⟩,
  ⟨"cp_box_shape_new",
    [.ptr .cpBody, .cpFloat, .cpFloat, .cpFloat], .ptr .cpShape, cp_box_shape_new⟩,
  ⟨"cp_segment_shape_new",
    [.ptr .cpBody, .cpVect, .cpVect, .cpFloat], .ptr .cpShape, cp_segment_shape_new⟩,
  ⟨"cp_shape_free", [.ptr .cpShape], .void, cp_shape_free⟩,
  ⟨"cp_shape_set_friction", [.ptr .cpShape, .cpFloat], .void, cp_shape_set_friction⟩,
  ⟨"cp_shape_get_friction", [.ptr .cpShape], .cpFloat, cp_shape_get_friction⟩,
  ⟨"cp_shape_set_elasticity", [.ptr .cpShape, .cpFloat], .void, cp_shape_set_elasticity⟩,
  ⟨"cp_shape_get_elasticity", [.ptr .cpShape], .cpFloat, cp_shape_get_elasticity⟩,
  ⟨"cp_shape_get_filter", [.ptr .cpShape], .cpShapeFilter, cp_shape_get_filter⟩,
  ⟨"cp_shape_set_filter", [.ptr .cpShape, .cpShapeFilter], .void, cp_shape_set_filter⟩,
  ⟨"cp_shape_filter_new", [.cpGroup, .cpBitmask, .cpBitmask], .cpShapeFilter, cp_shape_filter_new⟩,
  ⟨"cp_poly_shape_new",
    [.ptr .cpBody, .int, .ptr .cpVect, .cpTransform, .cpFloat], .ptr .cpShape, cp_poly_shape_new⟩,
  ⟨"cp_poly_shape_new_raw",
    [.ptr .cpBody, .int, .ptr .cpVect, .cpFloat], .ptr .cpShape, cp_poly_shape_new_raw⟩,
  ⟨"cp_box_shape_new2", [.ptr .cpBody, .cpBB, .cpFloat], .ptr .cpShape, cp_box_shape_new2⟩,
  ⟨"cp_shape_get_mass", [.ptr .cpShape], .cpFloat, cp_shape_get_mass⟩,
  ⟨"cp_shape_set_mass", [.ptr .cpShape, .cpFloat], .void, cp_shape_set_mass⟩,
  ⟨"cp_shape_get_density", [.ptr .cpShape], .cpFloat, cp_shape_get_density⟩,
  ⟨"cp_shape_set_density", [.ptr .cpShape, .cpFloat], .void, cp_shape_set_density⟩,
  ⟨"cp_shape_get_moment", [.ptr .cpShape], .cpFloat, cp_shape_get_moment⟩,
  ⟨"cp_shape_get_area", [.ptr .cpShape], .cpFloat, cp_shape_get_area⟩,
  ⟨"cp_shape_get_center_of_gravity", [.ptr .cpShape], .cpVect, cp_shape_get_center_of_gravity⟩,
  ⟨"cp_shape_get_bb", [.ptr .cpShape], .cpBB, cp_shape_get_bb⟩,
  ⟨"cp_shape_get_sensor", [.ptr .cpShape], .int, cp_shape_get_sensor⟩,
  ⟨"cp_shape_set_sensor", [.ptr .cpShape, .int], .void, cp_shape_set_sensor⟩]

/-- The wrappers of the section "Shape management" (from source line 295), part 2, in source order. -/
def shapeManagementWrappers2 : List Wrapper := [
  ⟨"cp_shape_get_surface_velocity", [.ptr .cpShape], .cpVect, cp_shape_get_surface_velocity⟩,
  ⟨"cp_shape_set_surface_velocity",
    [.ptr .cpShape, .cpVect], .void, cp_shape_set_surface_velocity⟩,
  ⟨"cp_shape_get_collision_type", [.ptr .cpShape], .uintptr_t, cp_shape_get_collision_type⟩,
  ⟨"cp_shape_set_collision_type", [.ptr .cpShape, .uintptr_t], .void, cp_shape_set_collision_type⟩,
  ⟨"cp_shape_get_body", [.ptr .cpShape], .ptr .cpBody, cp_shape_get_body⟩,
  ⟨"cp_shape_set_body", [.ptr .cpShape, .ptr .cpBody], .void, cp_shape_set_body⟩,
  ⟨"cp_shape_get_space", [.ptr .cpShape], .ptr .cpSpace, cp_shape_get_space⟩,
  ⟨"cp_shape_point_query",
    [.ptr .cpShape, .cpVect, .ptr .cpPointQueryInfo], .cpFloat, cp_shape_point_query⟩,
  ⟨"cp_shape_segment_query",
    [.ptr .cpShape, .cpVect, .cpVect, .cpFloat, .ptr .cpSegmentQueryInfo], .int, cp_shape_segment_query⟩,
  ⟨"cp_shapes_collide", [.ptr .cpShape, .ptr .cpShape], .cpContactPointSet, cp_shapes_collide⟩,
  ⟨"cp_circle_shape_get_offset", [.ptr .cpShape], .cpVect, cp_circle_shape_get_offset⟩,
  ⟨"cp_circle_shape_get_radius", [.ptr .cpShape], .cpFloat, cp_circle_shape_get_radius⟩,
  ⟨"cp_segment_shape_get_a", [.ptr .cpShape], .cpVect, cp_segment_shape_get_a⟩,
  ⟨"cp_segment_shape_get_b", [.ptr .cpShape], .cpVect, cp_segment_shape_get_b⟩,
  ⟨"cp_segment_shape_get_normal", [.ptr .cpShape], .cpVect, cp_segment_shape_get_normal⟩,
  ⟨"cp_segment_shape_get_radius", [.ptr .cpShape], .cpFloat, cp_segment_shape_get_radius⟩,
  ⟨"cp_segment_shape_set_neighbors",
    [.ptr .cpShape, .cpVect, .cpVect], .void, cp_segment_shape_set_neighbors⟩,
  ⟨"cp_poly_shape_get_count", [.ptr .cpShape], .int, cp_poly_shape_get_count⟩,
  ⟨"cp_poly_shape_get_vert", [.ptr .cpShape, .int], .cpVect, cp_poly_shape_get_vert⟩,
  ⟨"cp_poly_shape_get_radius", [.ptr .cpShape], .cpFloat, cp_poly_shape_get_radius⟩]

/-- The wrappers of the section "Space-Body-Shape relationships" (from source line 472), in source order. -/
def spacebodyshapeRelationshipsWrappers : List Wrapper := [
  ⟨"cp_space_add_body", [.ptr .cpSpace, .ptr .cpBody], .void, cp_space_add_body⟩,
  ⟨"cp_space_remove_body", [.ptr .cpSpace, .ptr .cpBody], .void, cp_space_remove_body⟩,
  ⟨"cp_space_add_shape", [.ptr .cpSpace, .ptr .cpShape], .void, cp_space_add_shape⟩,
  ⟨"cp_space_remove_shape", [.ptr .cpSpace, .ptr .cpShape], .void, cp_space_remove_shape⟩]

/-- The wrappers of the section "Vector utilities" (from source line 489), in source order. -/
def vectorUtilitiesWrappers : List Wrapper := [
  ⟨"cp_vect_new", [.cpFloat, .cpFloat], .cpVect, cp_vect_new⟩,
  ⟨"cp_vect_get_x", [.cpVect], .cpFloat, cp_vect_get_x⟩,
  ⟨"cp_vect_get_y", [.cpVect], .cpFloat, cp_vect_get_y⟩]

/-- The wrappers of the section "Collision detection" (from source line 502), in source order. -/
def collisionDetectionWrappers : List Wrapper := [
  ⟨"cp_space_point_query_nearest",
    [.ptr .cpSpace, .cpVect, .cpFloat, .cpShapeFilter, .ptr .cpPointQueryInfo], .ptr .cpShape, cp_space_point_query_nearest⟩]

/-- The wrappers of the section "Constraint management" (from source line 507), in source order. -/
def constraintManagementWrappers : List Wrapper := [
  ⟨"cp_constraint_free", [.ptr .cpConstraint], .void, cp_constraint_free⟩,
  ⟨"cp_constraint_get_space", [.ptr .cpConstraint], .ptr .cpSpace, cp_constraint_get_space⟩,
  ⟨"cp_constraint_get_body_a", [.ptr .cpConstraint], .ptr .cpBody, cp_constraint_get_body_a⟩,
  ⟨"cp_constraint_get_body_b", [.ptr .cpConstraint], .ptr .cpBody, cp_constraint_get_body_b⟩,
  ⟨"cp_constraint_get_max_force", [.ptr .cpConstraint], .cpFloat, cp_constraint_get_max_force⟩,
  ⟨"cp_constraint_set_max_force",
    [.ptr .cpConstraint, .cpFloat], .void, cp_constraint_set_max_force⟩,
  ⟨"cp_constraint_get_error_bias", [.ptr .cpConstraint], .cpFloat, cp_constraint_get_error_bias⟩,
  ⟨"cp_constraint_set_error_bias",
    [.ptr .cpConstraint, .cpFloat], .void, cp_constraint_set_error_bias⟩,
  ⟨"cp_constraint_get_max_bias", [.ptr .cpConstraint], .cpFloat, cp_constraint_get_max_bias⟩,
  ⟨"cp_constraint_set_max_bias",
    [.ptr .cpConstraint, .cpFloat], .void, cp_constraint_set_max_bias⟩,
  ⟨"cp_constraint_get_collide_bodies",
    [.ptr .cpConstraint], .int, cp_constraint_get_collide_bodies⟩,
  ⟨"cp_constraint_set_collide_bodies",
    [.ptr .cpConstraint, .int], .void, cp_constraint_set_collide_bodies⟩,
  ⟨"cp_constraint_get_impulse", [.ptr .cpConstraint], .cpFloat, cp_constraint_get_impulse⟩]

/-- The wrappers of the section "Pin joint" (from source line 560), in source order. -/
def pinJointWrappers : List Wrapper := [
  ⟨"cp_pin_joint_new",
    [.ptr .cpBody, .ptr .cpBody, .cpVect, .cpVect], .ptr .cpConstraint, cp_pin_joint_new⟩,
  ⟨"cp_pin_joint_get_anchor_a", [.ptr .cpConstraint], .cpVect, cp_pin_joint_get_anchor_a⟩,
  ⟨"cp_pin_joint_set_anchor_a", [.ptr .cpConstraint, .cpVect], .void, cp_pin_joint_set_anchor_a⟩,
  ⟨"cp_pin_joint_get_anchor_b", [.ptr .cpConstraint], .cpVect, cp_pin_joint_get_anchor_b⟩,
  ⟨"cp_pin_joint_set_anchor_b", [.ptr .cpConstraint, .cpVect], .void, cp_pin_joint_set_anchor_b⟩,
  ⟨"cp_pin_joint_get_dist", [.ptr .cpConstraint], .cpFloat, cp_pin_joint_get_dist⟩,
  ⟨"cp_pin_joint_set_dist", [.ptr .cpConstraint, .cpFloat], .void, cp_pin_joint_set_dist⟩]

/-- The wrappers of the section "Slide joint" (from source line 589), in source order. -/
def slideJointWrappers : List Wrapper := [
  ⟨"cp_slide_joint_new",
    [.ptr .cpBody, .ptr .cpBody, .cpVect, .cpVect, .cpFloat, .cpFloat], .ptr .cpConstraint, cp_slide_joint_new⟩,
  ⟨"cp_slide_joint_get_anchor_a", [.ptr .cpConstraint], .cpVect, cp_slide_joint_get_anchor_a⟩,
  ⟨"cp_slide_joint_set_anchor_a",
    [.ptr .cpConstraint, .cpVect], .void, cp_slide_joint_set_anchor_a⟩,
  ⟨"cp_slide_joint_get_anchor_b", [.ptr .cpConstraint], .cpVect, cp_slide_joint_get_anchor_b⟩,
  ⟨"cp_slide_joint_set_anchor_b",
    [.ptr .cpConstraint, .cpVect], .void, cp_slide_joint_set_anchor_b⟩,
  ⟨"cp_slide_joint_get_min", [.ptr .cpConstraint], .cpFloat, cp_slide_joint_get_min⟩,
  ⟨"cp_slide_joint_set_min", [.ptr .cpConstraint, .cpFloat], .void, cp_slide_joint_set_min⟩,
  ⟨"cp_slide_joint_get_max", [.ptr .cpConstraint], .cpFloat, cp_slide_joint_get_max⟩,
  ⟨"cp_slide_joint_set_max", [.ptr .cpConstraint, .cpFloat], .void, cp_slide_joint_set_max⟩]

/-- The wrappers of the section "Pivot joint" (from source line 626), in source order. -/
def pivotJointWrappers : List Wrapper := [
  ⟨"cp_pivot_joint_new",
    [.ptr .cpBody, .ptr .cpBody, .cpVect], .ptr .cpConstraint, cp_pivot_joint_new⟩,
  ⟨"cp_pivot_joint_new2",
    [.ptr .cpBody, .ptr .cpBody, .cpVect, .cpVect], .ptr .cpConstraint, cp_pivot_joint_new2⟩,
  ⟨"cp_pivot_joint_get_anchor_a", [.ptr .cpConstraint], .cpVect, cp_pivot_joint_get_anchor_a⟩,
  ⟨"cp_pivot_joint_set_anchor_a",
    [.ptr .cpConstraint, .cpVect], .void, cp_pivot_joint_set_anchor_a⟩,
  ⟨"cp_pivot_joint_get_anchor_b", [.ptr .cpConstraint], .cpVect, cp_pivot_joint_get_anchor_b⟩,
  ⟨"cp_pivot_joint_set_anchor_b",
    [.ptr .cpConstraint, .cpVect], .void, cp_pivot_joint_set_anchor_b⟩]

/-- The wrappers of the section "Groove joint" (from source line 651), in source order. -/
def grooveJointWrappers : List Wrapper := [
  ⟨"cp_groove_joint_new",
    [.ptr .cpBody, .ptr .cpBody, .cpVect, .cpVect, .cpVect], .ptr .cpConstraint, cp_groove_joint_new⟩,
  ⟨"cp_groove_joint_get_groove_a", [.ptr .cpConstraint], .cpVect, cp_groove_joint_get_groove_a⟩,
  ⟨"cp_groove_joint_set_groove_a",
    [.ptr .cpConstraint, .cpVect], .void, cp_groove_joint_set_groove_a⟩,
  ⟨"cp_groove_joint_get_groove_b", [.ptr .cpConstraint], .cpVect, cp_groove_joint_get_groove_b⟩,
  ⟨"cp_groove_joint_set_groove_b",
    [.ptr .cpConstraint, .cpVect], .void, cp_groove_joint_set_groove_b⟩,
  ⟨"cp_groove_joint_get_anchor_b", [.ptr .cpConstraint], .cpVect, cp_groove_joint_get_anchor_b⟩,
  ⟨"cp_groove_joint_set_anchor_b",
    [.ptr .cpConstraint, .cpVect], .void, cp_groove_joint_set_anchor_b⟩]

/-- The wrappers of the section "Damped spring" (from source line 680), in source order. -/
def dampedSpringWrappers : List Wrapper := [
  ⟨"cp_damped_spring_new",
    [.ptr .cpBody, .ptr .cpBody, .cpVect, .cpVect, .cpFloat, .cpFloat, .cpFloat], .ptr .cpConstraint, cp_damped_spring_new⟩,
  ⟨"cp_damped_spring_get_anchor_a", [.ptr .cpConstraint], .cpVect, cp_damped_spring_get_anchor_a⟩,
  ⟨"cp_damped_spring_set_anchor_a",
    [.ptr .cpConstraint, .cpVect], .void, cp_damped_spring_set_anchor_a⟩,
  ⟨"cp_damped_spring_get_anchor_b", [.ptr .cpConstraint], .cpVect, cp_damped_spring_get_anchor_b⟩,
  ⟨"cp_damped_spring_set_anchor_b",
    [.ptr .cpConstraint, .cpVect], .void, cp_damped_spring_set_anchor_b⟩,
  ⟨"cp_damped_spring_get_rest_length",
    [.ptr .cpConstraint], .cpFloat, cp_damped_spring_get_rest_length⟩,
  ⟨"cp_damped_spring_set_rest_length",
    [.ptr .cpConstraint, .cpFloat], .void, cp_damped_spring_set_rest_length⟩,
  ⟨"cp_damped_spring_get_stiffness",
    [.ptr .cpConstraint], .cpFloat, cp_damped_spring_get_stiffness⟩,
  ⟨"cp_damped_spring_set_stiffness",
    [.ptr .cpConstraint, .cpFloat], .void, cp_damped_spring_set_stiffness⟩,
  ⟨"cp_damped_spring_get_damping", [.ptr .cpConstraint], .cpFloat, cp_damped_spring_get_damping⟩,
  ⟨"cp_damped_spring_set_damping",
    [.ptr .cpConstraint, .cpFloat], .void, cp_damped_spring_set_damping⟩]

/-- The wrappers of the section "Damped rotary spring" (from source line 725), in source order. -/
def dampedRotarySpringWrappers : List Wrapper := [
  ⟨"cp_damped_rotary_spring_new",
    [.ptr .cpBody, .ptr .cpBody, .cpFloat, .cpFloat, .cpFloat], .ptr .cpConstraint, cp_damped_rotary_spring_new⟩,
  ⟨"cp_damped_rotary_spring_get_rest_angle",
    [.ptr .cpConstraint], .cpFloat, cp_damped_rotary_spring_get_rest_angle⟩,
  ⟨"cp_damped_rotary_spring_set_rest_angle",
    [.ptr .cpConstraint, .cpFloat], .void, cp_damped_rotary_spring_set_rest_angle⟩,
  ⟨"cp_damped_rotary_spring_get_stiffness",
    [.ptr .cpConstraint], .cpFloat, cp_damped_rotary_spring_get_stiffness⟩,
  ⟨"cp_damped_rotary_spring_set_stiffness",
    [.ptr .cpConstraint, .cpFloat], .void, cp_damped_rotary_spring_set_stiffness⟩,
  ⟨"cp_damped_rotary_spring_get_damping",
    [.ptr .cpConstraint], .cpFloat, cp_damped_rotary_spring_get_damping⟩,
  ⟨"cp_damped_rotary_spring_set_damping",
    [.ptr .cpConstraint, .cpFloat], .void, cp_damped_rotary_spring_set_damping⟩]

/-- The wrappers of the section "Rotary limit joint" (from source line 754), in source order. -/
def rotaryLimitJointWrappers : List Wrapper := [
  ⟨"cp_rotary_limit_joint_new",
    [.ptr .cpBody, .ptr .cpBody, .cpFloat, .cpFloat], .ptr .cpConstraint, cp_rotary_limit_joint_new⟩,
  ⟨"cp_rotary_limit_joint_get_min", [.ptr .cpConstraint], .cpFloat, cp_rotary_limit_joint_get_min⟩,
  ⟨"cp_rotary_limit_joint_set_min",
    [.ptr .cpConstraint, .cpFloat], .void, cp_rotary_limit_joint_set_min⟩,
  ⟨"cp_rotary_limit_joint_get_max", [.ptr .cpConstraint], .cpFloat, cp_rotary_limit_joint_get_max⟩,
  ⟨"cp_rotary_limit_joint_set_max",
    [.ptr .cpConstraint, .cpFloat], .void, cp_rotary_limit_joint_set_max⟩]

/-- The wrappers of the section "Ratchet joint" (from source line 775), in source order. -/
def ratchetJointWrappers : List Wrapper := [
  ⟨"cp_ratchet_joint_new",
    [.ptr .cpBody, .ptr .cpBody, .cpFloat, .cpFloat], .ptr .cpConstraint, cp_ratchet_joint_new⟩,
  ⟨"cp_ratchet_joint_get_angle", [.ptr .cpConstraint], .cpFloat, cp_ratchet_joint_get_angle⟩,
  ⟨"cp_ratchet_joint_set_angle",
    [.ptr .cpConstraint, .cpFloat], .void, cp_ratchet_joint_set_angle⟩,
  ⟨"cp_ratchet_joint_get_phase", [.ptr .cpConstraint], .cpFloat, cp_ratchet_joint_get_phase⟩,
  ⟨"cp_ratchet_joint_set_phase",
    [.ptr .cpConstraint, .cpFloat], .void, cp_ratchet_joint_set_phase⟩,
  ⟨"cp_ratchet_joint_get_ratchet", [.ptr .cpConstraint], .cpFloat, cp_ratchet_joint_get_ratchet⟩,
  ⟨"cp_ratchet_joint_set_ratchet",
    [.ptr .cpConstraint, .cpFloat], .void, cp_ratchet_joint_set_ratchet⟩]

/-- The wrappers of the section "Gear joint" (from source line 804), in source order. -/
def gearJointWrappers : List Wrapper := [
  ⟨"cp_gear_joint_new",
    [.ptr .cpBody, .ptr .cpBody, .cpFloat, .cpFloat], .ptr .cpConstraint, cp_gear_joint_new⟩,
  ⟨"cp_gear_joint_get_phase", [.ptr .cpConstraint], .cpFloat, cp_gear_joint_get_phase⟩,
  ⟨"cp_gear_joint_set_phase", [.ptr .cpConstraint, .cpFloat], .void, cp_gear_joint_set_phase⟩,
  ⟨"cp_gear_joint_get_ratio", [.ptr .cpConstraint], .cpFloat, cp_gear_joint_get_ratio⟩,
  ⟨"cp_gear_joint_set_ratio", [.ptr .cpConstraint, .cpFloat], .void, cp_gear_joint_set_ratio⟩]

/-- The wrappers of the section "Simple motor" (from source line 825), in source order. -/
def simpleMotorWrappers : List Wrapper := [
  ⟨"cp_simple_motor_new",
    [.ptr .cpBody, .ptr .cpBody, .cpFloat], .ptr .cpConstraint, cp_simple_motor_new⟩,
  ⟨"cp_simple_motor_get_rate", [.ptr .cpConstraint], .cpFloat, cp_simple_motor_get_rate⟩,
  ⟨"cp_simple_motor_set_rate", [.ptr .cpConstraint, .cpFloat], .void, cp_simple_motor_set_rate⟩]

/-- The wrappers of the section "Arbiter" (from source line 838), in source order. -/
def arbiterWrappers : List Wrapper := [
  ⟨"cp_arbiter_get_restitution", [.ptr .cpArbiter], .cpFloat, cp_arbiter_get_restitution⟩,
  ⟨"cp_arbiter_set_restitution", [.ptr .cpArbiter, .cpFloat], .void, cp_arbiter_set_restitution⟩,
  ⟨"cp_arbiter_get_friction", [.ptr .cpArbiter], .cpFloat, cp_arbiter_get_friction⟩,
  ⟨"cp_arbiter_set_friction", [.ptr .cpArbiter, .cpFloat], .void, cp_arbiter_set_friction⟩,
  ⟨"cp_arbiter_get_surface_velocity", [.ptr .cpArbiter], .cpVect, cp_arbiter_get_surface_velocity⟩,
  ⟨"cp_arbiter_set_surface_velocity",
    [.ptr .cpArbiter, .cpVect], .void, cp_arbiter_set_surface_velocity⟩,
  ⟨"cp_arbiter_total_impulse", [.ptr .cpArbiter], .cpVect, cp_arbiter_total_impulse⟩,
  ⟨"cp_arbiter_total_ke", [.ptr .cpArbiter], .cpFloat, cp_arbiter_total_ke⟩,
  ⟨"cp_arbiter_ignore", [.ptr .cpArbiter], .int, cp_arbiter_ignore⟩,
  ⟨"cp_arbiter_get_shapes",
    [.ptr .cpArbiter, .ptr (.ptr .cpShape), .ptr (.ptr .cpShape)], .void, cp_arbiter_get_shapes⟩,
  ⟨"cp_arbiter_get_bodies",
    [.ptr .cpArbiter, .ptr (.ptr .cpBody), .ptr (.ptr .cpBody)], .void, cp_arbiter_get_bodies⟩,
  ⟨"cp_arbiter_get_contact_point_set",
    [.ptr .cpArbiter], .cpContactPointSet, cp_arbiter_get_contact_point_set⟩,
  ⟨"cp_arbiter_set_contact_point_set",
    [.ptr .cpArbiter, .ptr .cpContactPointSet], .void, cp_arbiter_set_contact_point_set⟩,
  ⟨"cp_arbiter_is_first_contact", [.ptr .cpArbiter], .int, cp_arbiter_is_first_contact⟩,
  ⟨"cp_arbiter_is_removal", [.ptr .cpArbiter], .int, cp_arbiter_is_removal⟩,
  ⟨"cp_arbiter_get_count", [.ptr .cpArbiter], .int, cp_arbiter_get_count⟩,
  ⟨"cp_arbiter_get_normal", [.ptr .cpArbiter], .cpVect, cp_arbiter_get_normal⟩,
  ⟨"cp_arbiter_get_point_a", [.ptr .cpArbiter, .int], .cpVect, cp_arbiter_get_point_a⟩,
  ⟨"cp_arbiter_get_point_b", [.ptr .cpArbiter, .int], .cpVect, cp_arbiter_get_point_b⟩,
  ⟨"cp_arbiter_get_depth", [.ptr .cpArbiter, .int], .cpFloat, cp_arbiter_get_depth⟩]

/-- The wrappers of the section "Utility functions" (from source line 919), in source order. -/
def utilityFunctionsWrappers : List Wrapper := [
  ⟨"cp_moment_for_circle",
    [.cpFloat, .cpFloat, .cpFloat, .cpVect], .cpFloat, cp_moment_for_circle⟩,
  ⟨"cp_area_for_circle", [.cpFloat, .cpFloat], .cpFloat, cp_area_for_circle⟩,
  ⟨"cp_moment_for_segment",
    [.cpFloat, .cpVect, .cpVect, .cpFloat], .cpFloat, cp_moment_for_segment⟩,
  ⟨"cp_area_for_segment", [.cpVect, .cpVect, .cpFloat], .cpFloat, cp_area_for_segment⟩,
  ⟨"cp_moment_for_poly",
    [.cpFloat, .int, .ptr .cpVect, .cpVect, .cpFloat], .cpFloat, cp_moment_for_poly⟩,
  ⟨"cp_area_for_poly", [.int, .ptr .cpVect, .cpFloat], .cpFloat, cp_area_for_poly⟩,
  ⟨"cp_centroid_for_poly", [.int, .ptr .cpVect], .cpVect, cp_centroid_for_poly⟩,
  ⟨"cp_moment_for_box", [.cpFloat, .cpFloat, .cpFloat], .cpFloat, cp_moment_for_box⟩,
  ⟨"cp_moment_for_box2", [.cpFloat, .cpBB], .cpFloat, cp_moment_for_box2⟩,
  ⟨"cp_convex_hull",
    [.int, .ptr .cpVect, .ptr .cpVect, .ptr .int, .cpFloat], .int, cp_convex_hull⟩]

/-- Every exported wrapper of the implementation file, in source order. -/
def wrappers : List Wrapper :=
  spaceManagementWrappers1 ++
  spaceManagementWrappers2 ++
  bodyManagementWrappers1 ++
  bodyManagementWrappers2 ++
  shapeManagementWrappers1 ++
  shapeManagementWrappers2 ++
  spacebodyshapeRelationshipsWrappers ++
  vectorUtilitiesWrappers ++
  collisionDetectionWrappers ++
  constraintManagementWrappers ++
  pinJointWrappers ++
  slideJointWrappers ++
  pivotJointWrappers ++
  grooveJointWrappers ++
  dampedSpringWrappers ++
  dampedRotarySpringWrappers ++
  rotaryLimitJointWrappers ++
  ratchetJointWrappers ++
  gearJointWrappers ++
  simpleMotorWrappers ++
  arbiterWrappers ++
  utilityFunctionsWrappers

/-! ## Pass-through -/

/-- The letters of a name with the underscores dropped and the capitals lowered.  A wrapper
`cp_space_set_gravity` and the engine function `cpSpaceSetGravity` have the same letters. -/
def letters (s : String) : List Char :=
  (s.data.filter (fun c => c ≠ '_')).map Char.toLower

/-- The engine counterpart of a wrapper, by name: the engine function with the same letters; for
the vector constructor `cp_vect_new` it is the engine's vector constructor `cpv`. -/
def Counterpart (w : Wrapper) (f : EngineFn) : Prop :=
  letters w.name = letters f.name ∨ (w.name = "cp_vect_new" ∧ f.name = "cpv")

/-- The C conversion `b ? 1 : 0` of an engine boolean. -/
def truth (b : cpBool) : Int := if b ≠ 0 then 1 else 0

/-- The wrapper returns the engine's result: it returns nothing (a `void` wrapper), or the
engine's value as it is, or 1 or 0 as the engine's boolean is nonzero or zero. -/
def ResultKept (w : Wrapper) (f : EngineFn) (conv : Ret f → w.ret.denote) : Prop :=
  w.ret = .void ∨ (∀ r, (⟨w.ret, conv r⟩ : Val) = ⟨f.ret, r⟩) ∨
    (f.ret = .cpBool ∧
      ∀ r, (⟨w.ret, conv r⟩ : Val) = ⟨.int, truth ((Val.mk f.ret r).as .cpBool)⟩)

/-- A pass-through wrapper: on every argument list it makes one call, of its engine counterpart,
on exactly the arguments it received, in order, and returns the engine's result.  Said twice:
of the program, and of what running it against any engine gives. -/
def PassThrough (w : Wrapper) : Prop :=
  ∃ f : EngineFn, Counterpart w f ∧ ∃ conv : Ret f → w.ret.denote, ResultKept w f conv ∧
    ∀ args : Args w.params,
      w.prog args = .call f (Args.vals w.params args) (fun r => .ret (conv r)) ∧
      ∀ (σ : Type) (E : Engine σ) (s : σ),
        ((w.prog args).run E s).trace = [⟨f, Args.vals w.params args⟩] ∧
        ((w.prog args).run E s).value = conv (E.exec f (Args.vals w.params args) s).1 ∧
        ((w.prog args).run E s).state = (E.exec f (Args.vals w.params args) s).2

/-- The nine wrappers that are not plain pass-through, as the table of wrappers lists them. -/
def specialWrappers : List Wrapper := [
  ⟨"cp_space_shape_query", [.ptr .cpSpace, .ptr .cpShape, .ptr .void, .ptr .void], .int,
    cp_space_shape_query⟩,
  ⟨"cp_body_get_type", [.ptr .cpBody], .int, cp_body_get_type⟩,
  ⟨"cp_body_set_type", [.ptr .cpBody, .int], .void, cp_body_set_type⟩,
  ⟨"cp_shape_set_sensor", [.ptr .cpShape, .int], .void, cp_shape_set_sensor⟩,
  ⟨"cp_shape_get_collision_type", [.ptr .cpShape], .uintptr_t, cp_shape_get_collision_type⟩,
  ⟨"cp_shape_set_collision_type", [.ptr .cpShape, .uintptr_t], .void, cp_shape_set_collision_type⟩,
  ⟨"cp_vect_get_x", [.cpVect], .cpFloat, cp_vect_get_x⟩,
  ⟨"cp_vect_get_y", [.cpVect], .cpFloat, cp_vect_get_y⟩,
  ⟨"cp_constraint_set_collide_bodies", [.ptr .cpConstraint, .int], .void,
    cp_constraint_set_collide_bodies⟩]

/-- An engine that answers every call with the zero of the result type and has no state. -/
def zeroEngine : Engine Unit where
  exec f _ s := (f.ret.zero, s)

/-! ## Boolean results -/

/-- The program makes one engine call, whose result is an engine boolean `b`, and returns 1 when
`b` is nonzero and 0 when it is zero; so it returns 0 or 1, and 1 exactly when `b` is nonzero. -/
def ReturnsTruth (p : Prog Int) : Prop :=
  ∀ (σ : Type) (E : Engine σ) (s : σ), ∃ (f : EngineFn) (args : List Val) (b : cpBool),
    (p.run E s).trace = [⟨f, args⟩] ∧ (⟨f.ret, (E.exec f args s).1⟩ : Val) = ⟨.cpBool, b⟩ ∧
    (p.run E s).value = (if b ≠ 0 then 1 else 0) ∧
    ((p.run E s).value = 0 ∨ (p.run E s).value = 1) ∧ ((p.run E s).value = 1 ↔ b ≠ 0)

/-! ## Vectors -/

/-- Modelled from the spec: the engine's vector constructor `cpv`, an inline function of the
engine header that is not among the sources.  A vector is its `(x, y)` pair, so `cpv(x, y)` is
the vector with those two fields, and building it changes nothing in the engine. -/
def BuildsVect {σ : Type} (E : Engine σ) : Prop :=
  ∀ (x y : cpFloat) (s : σ), E.exec cpv [⟨.cpFloat, x⟩, ⟨.cpFloat, y⟩] s = ((⟨x, y⟩ : cpVect), s)

/-- An engine without state in which every call on two floats answers with their pair, read at
the result type of the function called; any other call answers zero. -/
def vectEngine : Engine Unit where
  exec f args s :=
    match args with
    | [⟨.cpFloat, x⟩, ⟨.cpFloat, y⟩] => ((Val.mk .cpVect (⟨x, y⟩ : cpVect)).as f.ret, s)
    | _ => (f.ret.zero, s)

/-! ## Setter and getter pairs -/

/-- A parameter with a setter and a getter.  `name` is the parameter as the specification names
it, `owner` the object type it belongs to and `ty` its type; `set` and `get` are the binding's
wrapper pair for it, taken from the implementation file; `engineSet` and `engineGet` are the
engine's setter and getter of that parameter, as the engine names them. -/
structure Accessor where
  name : String
  owner : CTy
  ty : CTy
  set : Ptr owner → ty.denote → Prog Unit
  get : Ptr owner → Prog ty.denote
  engineSet : EngineFn
  engineGet : EngineFn

/-- The wrapper pair is wired to the engine pair: the setter wrapper makes one call, of the
engine setter, on the handle and the value; the getter wrapper makes one call, of the engine
getter, on the handle, and returns its result. -/
def Wired (a : Accessor) : Prop :=
  (∀ (σ : Type) (E : Engine σ) (s : σ) (h : Ptr a.owner) (v : a.ty.denote),
    ((a.set h v).run E s).trace = [⟨a.engineSet, [⟨.ptr a.owner, h⟩, ⟨a.ty, v⟩]⟩] ∧
    ((a.set h v).run E s).state =
      (E.exec a.engineSet [⟨.ptr a.owner, h⟩, ⟨a.ty, v⟩] s).2) ∧
  (∀ (σ : Type) (E : Engine σ) (s : σ) (h : Ptr a.owner),
    ((a.get h).run E s).trace = [⟨a.engineGet, [⟨.ptr a.owner, h⟩]⟩] ∧
    (⟨a.ty, ((a.get h).run E s).value⟩ : Val) =
      ⟨a.engineGet.ret, (E.exec a.engineGet [⟨.ptr a.owner, h⟩] s).1⟩ ∧
    ((a.get h).run E s).state = (E.exec a.engineGet [⟨.ptr a.owner, h⟩] s).2)

/-- The assumption on the engine: its getter returns the value last stored by its matching
setter. -/
def StoresLast {σ : Type} (E : Engine σ) (a : Accessor) : Prop :=
  ∀ (s : σ) (h : Ptr a.owner) (v : a.ty.denote),
    (⟨a.engineGet.ret, (E.exec a.engineGet [⟨.ptr a.owner, h⟩]
      (E.exec a.engineSet [⟨.ptr a.owner, h⟩, ⟨a.ty, v⟩] s).2).1⟩ : Val) = ⟨a.ty, v⟩

/-- The assumption on the engine: the setter of `a` leaves what the getter of `b` returns
unchanged. -/
def Untouched {σ : Type} (E : Engine σ) (a b : Accessor) : Prop :=
  ∀ (s : σ) (h : Ptr a.owner) (v : a.ty.denote) (h2 : Ptr b.owner),
    (E.exec b.engineGet [⟨.ptr b.owner, h2⟩]
      (E.exec a.engineSet [⟨.ptr a.owner, h⟩, ⟨a.ty, v⟩] s).2).1 =
    (E.exec b.engineGet [⟨.ptr b.owner, h2⟩] s).1

/-- The wrapper getter after the wrapper setter returns the value that was set. -/
def RoundTrip {σ : Type} (E : Engine σ) (a : Accessor) : Prop :=
  ∀ (s : σ) (h : Ptr a.owner) (v : a.ty.denote),
    ((a.get h).run E ((a.set h v).run E s).state).value = v

/-- The wrapper setter of `a` does not change what the wrapper getter of `b` returns. -/
def Unchanged {σ : Type} (E : Engine σ) (a b : Accessor) : Prop :=
  ∀ (s : σ) (h : Ptr a.owner) (v : a.ty.denote) (h2 : Ptr b.owner),
    ((b.get h2).run E ((a.set h v).run E s).state).value = ((b.get h2).run E s).value

/-- An engine with one cell: `setF` stores its second argument in the cell, `getF` returns what
the cell holds; every other call answers zero and changes nothing. -/
def cellEngine (setF getF : EngineFn) : Engine (Option Val) where
  exec f args s :=
    if f = setF then (f.ret.zero, args[1]?)
    else if f = getF then ((s.getD ⟨.void, ()⟩).as f.ret, s)
    else (f.ret.zero, s)

/-- The eight parameters of a space. -/
def spaceParams : List Accessor := [
  ⟨"gravity", .cpSpace, .cpVect, cp_space_set_gravity, cp_space_get_gravity,
    cpSpaceSetGravity, cpSpaceGetGravity⟩,
  ⟨"iterations", .cpSpace, .int, cp_space_set_iterations, cp_space_get_iterations,
    cpSpaceSetIterations, cpSpaceGetIterations⟩,
  ⟨"damping", .cpSpace, .cpFloat, cp_space_set_damping, cp_space_get_damping,
    cpSpaceSetDamping, cpSpaceGetDamping⟩,
  ⟨"idle speed threshold", .cpSpace, .cpFloat, cp_space_set_idle_speed_threshold,
    cp_space_get_idle_speed_threshold, cpSpaceSetIdleSpeedThreshold, cpSpaceGetIdleSpeedThreshold⟩,
  ⟨"sleep time threshold", .cpSpace, .cpFloat, cp_space_set_sleep_time_threshold,
    cp_space_get_sleep_time_threshold, cpSpaceSetSleepTimeThreshold, cpSpaceGetSleepTimeThreshold⟩,
  ⟨"collision slop", .cpSpace, .cpFloat, cp_space_set_collision_slop,
    cp_space_get_collision_slop, cpSpaceSetCollisionSlop, cpSpaceGetCollisionSlop⟩,
  ⟨"collision bias", .cpSpace, .cpFloat, cp_space_set_collision_bias,
    cp_space_get_collision_bias, cpSpaceSetCollisionBias, cpSpaceGetCollisionBias⟩,
  ⟨"collision persistence", .cpSpace, .unsignedInt, cp_space_set_collision_persistence,
    cp_space_get_collision_persistence, cpSpaceSetCollisionPersistence,
    cpSpaceGetCollisionPersistence⟩]

/-- The nine fields of a body that have a setter and a getter. -/
def bodyFields : List Accessor := [
  ⟨"position", .cpBody, .cpVect, cp_body_set_position, cp_body_get_position,
    cpBodySetPosition, cpBodyGetPosition⟩,
  ⟨"velocity", .cpBody, .cpVect, cp_body_set_velocity, cp_body_get_velocity,
    cpBodySetVelocity, cpBodyGetVelocity⟩,
  ⟨"angle", .cpBody, .cpFloat, cp_body_set_angle, cp_body_get_angle,
    cpBodySetAngle, cpBodyGetAngle⟩,
  ⟨"mass", .cpBody, .cpFloat, cp_body_set_mass, cp_body_get_mass,
    cpBodySetMass, cpBodyGetMass⟩,
  ⟨"moment", .cpBody, .cpFloat, cp_body_set_moment, cp_body_get_moment,
    cpBodySetMoment, cpBodyGetMoment⟩,
  ⟨"center of gravity", .cpBody, .cpVect, cp_body_set_center_of_gravity,
    cp_body_get_center_of_gravity, cpBodySetCenterOfGravity, cpBodyGetCenterOfGravity⟩,
  ⟨"force", .cpBody, .cpVect, cp_body_set_force, cp_body_get_force,
    cpBodySetForce, cpBodyGetForce⟩,
  ⟨"angular velocity", .cpBody, .cpFloat, cp_body_set_angular_velocity,
    cp_body_get_angular_velocity, cpBodySetAngularVelocity, cpBodyGetAngularVelocity⟩,
  ⟨"torque", .cpBody, .cpFloat, cp_body_set_torque, cp_body_get_torque,
    cpBodySetTorque, cpBodyGetTorque⟩]

/-- The thirty-one constraint parameters that have a setter and a getter: the three shared
solve parameters, then the parameters of each variant. -/
def constraintParams : List Accessor := [
  ⟨"max force", .cpConstraint, .cpFloat, cp_constraint_set_max_force, cp_constraint_get_max_force,
    cpConstraintSetMaxForce, cpConstraintGetMaxForce⟩,
  ⟨"error bias", .cpConstraint, .cpFloat, cp_constraint_set_error_bias, cp_constraint_get_error_bias,
    cpConstraintSetErrorBias, cpConstraintGetErrorBias⟩,
  ⟨"max bias", .cpConstraint, .cpFloat, cp_constraint_set_max_bias, cp_constraint_get_max_bias,
    cpConstraintSetMaxBias, cpConstraintGetMaxBias⟩,
  ⟨"pin joint anchor A", .cpConstraint, .cpVect, cp_pin_joint_set_anchor_a, cp_pin_joint_get_anchor_a,
    cpPinJointSetAnchorA, cpPinJointGetAnchorA⟩,
  ⟨"pin joint anchor B", .cpConstraint, .cpVect, cp_pin_joint_set_anchor_b, cp_pin_joint_get_anchor_b,
    cpPinJointSetAnchorB, cpPinJointGetAnchorB⟩,
  ⟨"pin joint dist", .cpConstraint, .cpFloat, cp_pin_joint_set_dist, cp_pin_joint_get_dist,
    cpPinJointSetDist, cpPinJointGetDist⟩,
  ⟨"slide joint anchor A", .cpConstraint, .cpVect, cp_slide_joint_set_anchor_a, cp_slide_joint_get_anchor_a,
    cpSlideJointSetAnchorA, cpSlideJointGetAnchorA⟩,
  ⟨"slide joint anchor B", .cpConstraint, .cpVect, cp_slide_joint_set_anchor_b, cp_slide_joint_get_anchor_b,
    cpSlideJointSetAnchorB, cpSlideJointGetAnchorB⟩,
  ⟨"slide joint min", .cpConstraint, .cpFloat, cp_slide_joint_set_min, cp_slide_joint_get_min,
    cpSlideJointSetMin, cpSlideJointGetMin⟩,
  ⟨"slide joint max", .cpConstraint, .cpFloat, cp_slide_joint_set_max, cp_slide_joint_get_max,
    cpSlideJointSetMax, cpSlideJointGetMax⟩,
  ⟨"pivot joint anchor A", .cpConstraint, .cpVect, cp_pivot_joint_set_anchor_a, cp_pivot_joint_get_anchor_a,
    cpPivotJointSetAnchorA, cpPivotJointGetAnchorA⟩,
  ⟨"pivot joint anchor B", .cpConstraint, .cpVect, cp_pivot_joint_set_anchor_b, cp_pivot_joint_get_anchor_b,
    cpPivotJointSetAnchorB, cpPivotJointGetAnchorB⟩,
  ⟨"groove joint groove A", .cpConstraint, .cpVect, cp_groove_joint_set_groove_a, cp_groove_joint_get_groove_a,
    cpGrooveJointSetGrooveA, cpGrooveJointGetGrooveA⟩,
  ⟨"groove joint groove B", .cpConstraint, .cpVect, cp_groove_joint_set_groove_b, cp_groove_joint_get_groove_b,
    cpGrooveJointSetGrooveB, cpGrooveJointGetGrooveB⟩,
  ⟨"groove joint anchor B", .cpConstraint, .cpVect, cp_groove_joint_set_anchor_b, cp_groove_joint_get_anchor_b,
    cpGrooveJointSetAnchorB, cpGrooveJointGetAnchorB⟩,
  ⟨"damped spring anchor A", .cpConstraint, .cpVect, cp_damped_spring_set_anchor_a, cp_damped_spring_get_anchor_a,
    cpDampedSpringSetAnchorA, cpDampedSpringGetAnchorA⟩,
  ⟨"damped spring anchor B", .cpConstraint, .cpVect, cp_damped_spring_set_anchor_b, cp_damped_spring_get_anchor_b,
    cpDampedSpringSetAnchorB, cpDampedSpringGetAnchorB⟩,
  ⟨"damped spring rest length", .cpConstraint, .cpFloat, cp_damped_spring_set_rest_length, cp_damped_spring_get_rest_length,
    cpDampedSpringSetRestLength, cpDampedSpringGetRestLength⟩,
  ⟨"damped spring stiffness", .cpConstraint, .cpFloat, cp_damped_spring_set_stiffness, cp_damped_spring_get_stiffness,
    cpDampedSpringSetStiffness, cpDampedSpringGetStiffness⟩,
  ⟨"damped spring damping", .cpConstraint, .cpFloat, cp_damped_spring_set_damping, cp_damped_spring_get_damping,
    cpDampedSpringSetDamping, cpDampedSpringGetDamping⟩,
  ⟨"damped rotary spring rest angle", .cpConstraint, .cpFloat, cp_damped_rotary_spring_set_rest_angle, cp_damped_rotary_spring_get_rest_angle,
    cpDampedRotarySpringSetRestAngle, cpDampedRotarySpringGetRestAngle⟩,
  ⟨"damped rotary spring stiffness", .cpConstraint, .cpFloat, cp_damped_rotary_spring_set_stiffness, cp_damped_rotary_spring_get_stiffness,
    cpDampedRotarySpringSetStiffness, cpDampedRotarySpringGetStiffness⟩,
  ⟨"damped rotary spring damping", .cpConstraint, .cpFloat, cp_damped_rotary_spring_set_damping, cp_damped_rotary_spring_get_damping,
    cpDampedRotarySpringSetDamping, cpDampedRotarySpringGetDamping⟩,
  ⟨"rotary limit joint min", .cpConstraint, .cpFloat, cp_rotary_limit_joint_set_min, cp_rotary_limit_joint_get_min,
    cpRotaryLimitJointSetMin, cpRotaryLimitJointGetMin⟩,
  ⟨"rotary limit joint max", .cpConstraint, .cpFloat, cp_rotary_limit_joint_set_max, cp_rotary_limit_joint_get_max,
    cpRotaryLimitJointSetMax, cpRotaryLimitJointGetMax⟩,
  ⟨"ratchet joint angle", .cpConstraint, .cpFloat, cp_ratchet_joint_set_angle, cp_ratchet_joint_get_angle,
    cpRatchetJointSetAngle, cpRatchetJointGetAngle⟩,
  ⟨"ratchet joint phase", .cpConstraint, .cpFloat, cp_ratchet_joint_set_phase, cp_ratchet_joint_get_phase,
    cpRatchetJointSetPhase, cpRatchetJointGetPhase⟩,
  ⟨"ratchet joint ratchet", .cpConstraint, .cpFloat, cp_ratchet_joint_set_ratchet, cp_ratchet_joint_get_ratchet,
    cpRatchetJointSetRatchet, cpRatchetJointGetRatchet⟩,
  ⟨"gear joint phase", .cpConstraint, .cpFloat, cp_gear_joint_set_phase, cp_gear_joint_get_phase,
    cpGearJointSetPhase, cpGearJointGetPhase⟩,
  ⟨"gear joint ratio", .cpConstraint, .cpFloat, cp_gear_joint_set_ratio, cp_gear_joint_get_ratio,
    cpGearJointSetRatio, cpGearJointGetRatio⟩,
  ⟨"simple motor rate", .cpConstraint, .cpFloat, cp_simple_motor_set_rate, cp_simple_motor_get_rate,
    cpSimpleMotorSetRate, cpSimpleMotorGetRate⟩]

/-! ## Removal, destruction and handles -/

/-- The engine's four destroy functions. -/
def freeFns : List EngineFn := [cpSpaceFree, cpBodyFree, cpShapeFree, cpConstraintFree]

/-- The four destroy wrappers, each with the engine destroy function of the same object type. -/
def freePairs : List (String × EngineFn) :=
  [("cp_space_free", cpSpaceFree), ("cp_body_free", cpBodyFree), ("cp_shape_free", cpShapeFree),
   ("cp_constraint_free", cpConstraintFree)]

/-- Whatever the arguments and the engine, an engine free call in the trace of the wrapper is
its only call, is made on exactly the arguments the wrapper received, and the wrapper is the
free wrapper of that free function. -/
def FreesOnlyAsFreeWrapper (w : Wrapper) : Prop :=
  ∀ (args : Args w.params) (σ : Type) (E : Engine σ) (s : σ),
    ∀ c ∈ ((w.prog args).run E s).trace, c.fn ∈ freeFns →
      (w.name, c.fn) ∈ freePairs ∧
      ((w.prog args).run E s).trace = [⟨c.fn, Args.vals w.params args⟩]

/-- A handle type: a pointer to a space, body, shape, constraint or arbiter. -/
def CTy.isHandle : CTy → Bool
  | .ptr .cpSpace => true
  | .ptr .cpBody => true
  | .ptr .cpShape => true
  | .ptr .cpConstraint => true
  | .ptr .cpArbiter => true
  | _ => false

/-- Every handle among the received arguments is, at its own position, among the arguments sent
to the engine, with the address it came with. -/
def HandlesKept : (ps : List CTy) → Args ps → List Val → Prop
  | [], _, _ => True
  | p :: ps, x, sent =>
    (p.isHandle = true → sent.head? = some ⟨p, x.1⟩) ∧ HandlesKept ps x.2 sent.tail

/-- The wrapper does nothing with its handles but hand them on: there is one engine function
and one conversion of its result such that, on every argument list, null handles included, the
wrapper makes exactly that one call, with every handle passed as received, and returns the
converted engine result.  Neither the function called nor the conversion depends on the
arguments, so no handle is tested and no call returns early or with a value of its own. -/
def NoValidation (w : Wrapper) : Prop :=
  ∃ (f : EngineFn) (conv : Ret f → w.ret.denote), ∀ args : Args w.params, ∃ sent : List Val,
    w.prog args = .call f sent (fun r => .ret (conv r)) ∧
    HandlesKept w.params args sent ∧
    ∀ (σ : Type) (E : Engine σ) (s : σ),
      ((w.prog args).run E s).trace = [⟨f, sent⟩] ∧
      ((w.prog args).run E s).value = conv (E.exec f sent s).1 ∧
      ((w.prog args).run E s).state = (E.exec f sent s).2

/-! ## Rejection at the call boundary -/

/-- An engine float below zero, an IEEE double held as its 64 bits: the sign bit is set, and the
value is neither the negative zero nor a NaN.  The bit patterns run from just above that of the
negative zero up to that of minus infinity. -/
def cpFloat.negative (x : cpFloat) : Bool :=
  decide (0x8000000000000000 < x.bits) && decide (x.bits ≤ 0xFFF0000000000000)

/-- The double -1.0. -/
def minusOne : cpFloat := ⟨0xBFF0000000000000⟩

/-- The double 1.0. -/
def plusOne : cpFloat := ⟨0x3FF0000000000000⟩

/-- A value of type `t` at address `n` when `t` is a pointer type, the zero of `t` otherwise. -/
def CTy.addressed (t : CTy) (n : Nat) : t.denote :=
  match t with
  | .ptr _ => ⟨n⟩
  | t => t.zero

/-- Modelled from the spec: the engine's constructors `cpBodyNew` and `cpCircleShapeNew`, which
are not among the sources.  "invalid-argument (e.g., negative radius/mass, null handle) — reject
at call boundary, no partial mutation" and "Mass/moment must be positive and finite for dynamic
bodies": called with a negative mass or a negative moment, `cpBodyNew` hands back no body (the
null handle) and leaves the engine as it was; called with a negative radius, `cpCircleShapeNew`
hands back no shape and leaves the engine, the body included, as it was. -/
def RejectsInvalid {σ : Type} (E : Engine σ) : Prop :=
  (∀ (mass moment : cpFloat) (s : σ), mass.negative = true ∨ moment.negative = true →
    E.exec cpBodyNew [⟨.cpFloat, mass⟩, ⟨.cpFloat, moment⟩] s = ((NULL : Ptr .cpBody), s)) ∧
  (∀ (body : Ptr .cpBody) (radius : cpFloat) (offset : cpVect) (s : σ), radius.negative = true →
    E.exec cpCircleShapeNew [⟨.ptr .cpBody, body⟩, ⟨.cpFloat, radius⟩, ⟨.cpVect, offset⟩] s =
      ((NULL : Ptr .cpShape), s))

/-- Modelled from the spec: an engine with the two constructors as the spec describes them.  The
state is the number of objects made so far.  `cpBodyNew` with a negative mass or moment and
`cpCircleShapeNew` with a negative radius are rejected: the null handle comes back and the state
stays; otherwise a new object is made at the next address. -/
def validatingEngine : Engine Nat where
  exec f args n :=
    match args with
    | [⟨.cpFloat, mass⟩, ⟨.cpFloat, moment⟩] =>
      if f = cpBodyNew then
        if mass.negative || moment.negative then (f.ret.zero, n)
        else (f.ret.addressed (n + 1), n + 1)
      else (f.ret.zero, n)
    | [⟨.ptr .cpBody, _⟩, ⟨.cpFloat, radius⟩, ⟨.cpVect, _⟩] =>
      if f = cpCircleShapeNew then
        if radius.negative then (f.ret.zero, n) else (f.ret.addressed (n + 1), n + 1)
      else (f.ret.zero, n)
    | _ => (f.ret.zero, n)

/-! ## Single forwarded calls -/

/-- The program of result type `t` makes exactly one engine call, of `f` on `args`, whatever the
engine and its state, leaves the engine in the state that call gives, and returns what the call
returned. -/
def Forwards (t : CTy) (p : Prog t.denote) (f : EngineFn) (args : List Val) : Prop :=
  ∀ (σ : Type) (E : Engine σ) (s : σ),
    (p.run E s).trace = [⟨f, args⟩] ∧
    (⟨t, (p.run E s).value⟩ : Val) = ⟨f.ret, (E.exec f args s).1⟩ ∧
    (p.run E s).state = (E.exec f args s).2

/-- The names of the eleven constraint constructors of the binding: one for each of the ten
variants, two for the pivot joint. -/
def constraintConstructors : List String :=
  ["cp_pin_joint_new", "cp_slide_joint_new", "cp_pivot_joint_new", "cp_pivot_joint_new2",
   "cp_groove_joint_new", "cp_damped_spring_new", "cp_damped_rotary_spring_new",
   "cp_rotary_limit_joint_new", "cp_ratchet_joint_new", "cp_gear_joint_new",
   "cp_simple_motor_new"]

/-! ## Collision filters and body kinds -/

/-- Modelled from the spec: the engine's filter constructor `cpShapeFilterNew`, an inline function
of the engine header that is not among the sources.  A collision filter is its group, category
bitmask and mask bitmask, so `cpShapeFilterNew(group, categories, mask)` is the filter with those
three fields, and building it changes nothing in the engine. -/
def BuildsFilter {σ : Type} (E : Engine σ) : Prop :=
  ∀ (group categories mask : Nat) (s : σ),
    E.exec cpShapeFilterNew
      [⟨.cpGroup, group⟩, ⟨.cpBitmask, categories⟩, ⟨.cpBitmask, mask⟩] s =
    ((⟨group, categories, mask⟩ : cpShapeFilter), s)

/-- The collision filter of a shape, with its wrapper pair and the engine pair. -/
def shapeFilter : Accessor :=
  ⟨"filter", .cpShape, .cpShapeFilter, cp_shape_set_filter, cp_shape_get_filter,
    cpShapeSetFilter, cpShapeGetFilter⟩

/-- An engine that builds a filter from a group and two bitmasks, and otherwise is the one-cell
engine of the filter pair of a shape. -/
def filterEngine : Engine (Option Val) where
  exec f args s :=
    match args with
    | [⟨.cpGroup, g⟩, ⟨.cpBitmask, c⟩, ⟨.cpBitmask, m⟩] =>
      ((Val.mk .cpShapeFilter (⟨g, c, m⟩ : cpShapeFilter)).as f.ret, s)
    | _ => (cellEngine cpShapeSetFilter cpShapeGetFilter).exec f args s

/-- Modelled from the spec: the three body kinds of the engine's body-kind tag, dynamic,
kinematic and static.  The engine header that declares the enumeration is not among the
sources. -/
inductive BodyKind where
  | dynamic
  | kinematic
  | static
  deriving DecidableEq, Repr

/-- Modelled from the spec: the integer value of a body kind, in the order the kinds are listed:
dynamic 0, kinematic 1, static 2. -/
def BodyKind.tag : BodyKind → Int
  | .dynamic => 0
  | .kinematic => 1
  | .static => 2

/-- The assumption on the engine: it stores the body kind it is given, so that its getter
returns the kind last set on the body. -/
def StoresKind {σ : Type} (E : Engine σ) : Prop :=
  ∀ (s : σ) (body : Ptr .cpBody) (k : BodyKind),
    (E.exec cpBodyGetType [⟨.ptr .cpBody, body⟩]
      (E.exec cpBodySetType [⟨.ptr .cpBody, body⟩, ⟨.cpBodyType, k.tag⟩] s).2).1 = k.tag

/-! ## The collision filter rule -/

/-- Modelled from the spec: the filter rule of the engine's broad phase, which is not among the
sources: "two shapes collide only if their masks intersect their counterpart's categories and
they are not in the same nonzero group". -/
def filtersAccept (a b : cpShapeFilter) : Bool :=
  (a.mask &&& b.categories != 0) && (b.mask &&& a.categories != 0) &&
    !(a.group != 0 && a.group == b.group)

/-- Modelled from the spec: the engine's step creates an arbiter for a pair of shapes in its
narrow phase, and only for a candidate pair of its broad phase: the bounding boxes of the two
shapes overlap, their filters accept each other, and the narrow phase finds a contact. -/
def producesArbiter (boxesOverlap contact : Bool) (a b : cpShapeFilter) : Bool :=
  boxesOverlap && filtersAccept a b && contact

/-- Two filters that rule a collision out: the mask of one shares no bit with the categories of
the other, or both carry the same nonzero group. -/
def FiltersExclude (a b : cpShapeFilter) : Prop :=
  a.mask &&& b.categories = 0 ∨ b.mask &&& a.categories = 0 ∨
    (a.group ≠ 0 ∧ a.group = b.group)

/-! ## Structural mutation -/

/-- The program makes exactly one engine call, of `f` on `args`, whatever the engine and its
state, leaves the engine in the state that call gives, and returns nothing. -/
def Issues (p : Prog Unit) (f : EngineFn) (args : List Val) : Prop :=
  ∀ (σ : Type) (E : Engine σ) (s : σ),
    (p.run E s).trace = [⟨f, args⟩] ∧ (p.run E s).state = (E.exec f args s).2

/-- The names of the six wrappers that add an object to a space or remove one from it. -/
def structuralMutations : List String :=
  ["cp_space_add_body", "cp_space_remove_body", "cp_space_add_shape", "cp_space_remove_shape",
   "cp_space_add_constraint", "cp_space_remove_constraint"]

/-- The address a pointer value holds; 0 for a value that is not a pointer. -/
def Val.addr : Val → Nat
  | ⟨.ptr _, p⟩ => p.addr
  | _ => 0

/-- The engine's six functions that add an object to a space or remove one from it. -/
def structuralFns : List EngineFn :=
  [cpSpaceAddBody, cpSpaceRemoveBody, cpSpaceAddShape, cpSpaceRemoveShape, cpSpaceAddConstraint,
   cpSpaceRemoveConstraint]

/-- Modelled from the spec: the engine's structural operations, which are not among the sources,
on a locked space.  "While a step is executing, the Space is locked; structural mutation
attempted during this window fails with an error rather than corrupting iteration state" and
"illegal-state (mutating structure while locked, ...) — reject, state unchanged": in a state in
which the engine answers that the space is locked, each of the six add and remove functions
called on that space leaves the engine state as it was. -/
def RefusesWhileLocked {σ : Type} (E : Engine σ) : Prop :=
  ∀ (s : σ) (space : Ptr .cpSpace),
    (E.exec cpSpaceIsLocked [⟨.ptr .cpSpace, space⟩] s).1 ≠ cpFalse →
      ∀ f ∈ structuralFns, ∀ obj : Val, (E.exec f [⟨.ptr .cpSpace, space⟩, obj] s).2 = s

/-- The state of an engine with one space: whether the space is locked, the addresses of the
bodies, shapes and constraints in it, and for each shape the body it is attached to. -/
structure SpaceState where
  locked : Bool
  bodies : List Nat
  shapes : List Nat
  constraints : List Nat
  attached : List (Nat × Nat)
  deriving DecidableEq, Repr

/-- The shapes in the space that are attached to the body: its attached, non-removed shapes. -/
def SpaceState.shapesOf (s : SpaceState) (body : Nat) : List Nat :=
  s.shapes.filter (fun sh => s.attached.lookup sh == some body)

/-- Modelled from the spec: the engine's structural operations on one space, which are not among
the sources.  "While a step is executing, the Space is locked; structural mutation attempted
during this window fails", "illegal-state (mutating structure while locked, ...) — reject, state
unchanged", and "Removing a Body that still has attached, non-removed Shapes fails with
illegal-state; removing its Shapes first then the Body succeeds".  So while the space is locked
the six add and remove functions leave the state as it is, removing a body leaves the state as
it is while a shape attached to the body is in the space, and otherwise adding puts the object
in and removing takes it out.  An add hands back the object it was given, or no object when it
is refused; a remove returns nothing.  The three membership tests, the lock test and the body of
a shape are answered from the state. -/
def collectionEngine : Engine SpaceState where
  exec f args s :=
    let x := (args.getD 1 ⟨.void, ()⟩).addr
    if f = cpSpaceIsLocked then
      ((Val.mk .cpBool (if s.locked then cpTrue else cpFalse)).as f.ret, s)
    else if f = cpSpaceAddBody then
      if s.locked then (f.ret.zero, s)
      else (f.ret.addressed x, { s with bodies := x :: s.bodies })
    else if f = cpSpaceRemoveBody then
      if s.locked || !(s.shapesOf x).isEmpty then (f.ret.zero, s)
      else (f.ret.zero, { s with bodies := s.bodies.filter (fun y => y != x) })
    else if f = cpSpaceAddShape then
      if s.locked then (f.ret.zero, s)
      else (f.ret.addressed x, { s with shapes := x :: s.shapes })
    else if f = cpSpaceRemoveShape then
      if s.locked then (f.ret.zero, s)
      else (f.ret.zero, { s with shapes := s.shapes.filter (fun y => y != x) })
    else if f = cpSpaceAddConstraint then
      if s.locked then (f.ret.zero, s)
      else (f.ret.addressed x, { s with constraints := x :: s.constraints })
    else if f = cpSpaceRemoveConstraint then
      if s.locked then (f.ret.zero, s)
      else (f.ret.zero, { s with constraints := s.constraints.filter (fun y => y != x) })
    else if f = cpSpaceContainsBody then
      ((Val.mk .cpBool (if x ∈ s.bodies then cpTrue else cpFalse)).as f.ret, s)
    else if f = cpSpaceContainsShape then
      ((Val.mk .cpBool (if x ∈ s.shapes then cpTrue else cpFalse)).as f.ret, s)
    else if f = cpSpaceContainsConstraint then
      ((Val.mk .cpBool (if x ∈ s.constraints then cpTrue else cpFalse)).as f.ret, s)
    else if f = cpShapeGetBody then
      (f.ret.addressed (((s.attached.lookup (args.getD 0 ⟨.void, ()⟩).addr).getD 0)), s)
    else (f.ret.zero, s)

/-- A declaration of the header: result type, name and parameter types, as C type names. -/
structure Decl where
  ret : String
  name : String
  params : List String
  deriving DecidableEq, Repr

/-- The declarations under the header comment "Space management" (header line 26), part 1,
in source order. -/
def spaceManagementDecls1 : List Decl := [
  ⟨"cpSpace*", "cp_space_new", []⟩,
  ⟨"void", "cp_space_free", ["cpSpace*"]⟩,
  ⟨"void", "cp_space_step", ["cpSpace*", "cpFloat"]⟩,
  ⟨"void", "cp_space_set_gravity", ["cpSpace*", "cpVect"]⟩,
  ⟨"cpVect", "cp_space_get_gravity", ["cpSpace*"]⟩,
  ⟨"int", "cp_space_get_iterations", ["cpSpace*"]⟩,
  ⟨"void", "cp_space_set_iterations", ["cpSpace*", "int"]⟩,
  ⟨"cpFloat", "cp_space_get_damping", ["cpSpace*"]⟩,
  ⟨"void", "cp_space_set_damping", ["cpSpace*", "cpFloat"]⟩,
  ⟨"cpFloat", "cp_space_get_idle_speed_threshold", ["cpSpace*"]⟩,
  ⟨"void", "cp_space_set_idle_speed_threshold", ["cpSpace*", "cpFloat"]⟩,
  ⟨"cpFloat", "cp_space_get_sleep_time_threshold", ["cpSpace*"]⟩,
  ⟨"void", "cp_space_set_sleep_time_threshold", ["cpSpace*", "cpFloat"]⟩,
  ⟨"cpFloat", "cp_space_get_collision_slop", ["cpSpace*"]⟩,
  ⟨"void", "cp_space_set_collision_slop", ["cpSpace*", "cpFloat"]⟩,
  ⟨"cpFloat", "cp_space_get_collision_bias", ["cpSpace*"]⟩,
  ⟨"void", "cp_space_set_collision_bias", ["cpSpace*", "cpFloat"]⟩,
  ⟨"unsigned int", "cp_space_get_collision_persistence", ["cpSpace*"]⟩,
  ⟨"void", "cp_space_set_collision_persistence", ["cpSpace*", "unsigned int"]⟩,
  ⟨"void", "cp_space_reindex_static", ["cpSpace*"]⟩,
  ⟨"void", "cp_space_reindex_shape", ["cpSpace*", "cpShape*"]⟩,
  ⟨"void", "cp_space_reindex_shapes_for_body", ["cpSpace*", "cpBody*"]⟩,
  ⟨"cpBody*", "cp_space_get_static_body", ["cpSpace*"]⟩,
  ⟨"cpFloat", "cp_space_get_current_time_step", ["cpSpace*"]⟩]

/-- The declarations under the header comment "Space management" (header line 26), part 2,
in source order. -/
def spaceManagementDecls2 : List Decl := [
  ⟨"int", "cp_space_is_locked", ["cpSpace*"]⟩,
  ⟨"int", "cp_space_contains_body", ["cpSpace*", "cpBody*"]⟩,
  ⟨"int", "cp_space_contains_shape", ["cpSpace*", "cpShape*"]⟩,
  ⟨"int", "cp_space_contains_constraint", ["cpSpace*", "cpConstraint*"]⟩]

/-- The declarations under the header comment "Body management" (header line 56), part 1,
in source order. -/
def bodyManagementDecls1 : List Decl := [
  ⟨"cpBody*", "cp_body_new", ["cpFloat", "cpFloat"]⟩,
  ⟨"cpBody*", "cp_body_new_kinematic", []⟩,
  ⟨"cpBody*", "cp_body_new_static", []⟩,
  ⟨"void", "cp_body_free", ["cpBody*"]⟩,
  ⟨"void", "cp_body_set_position", ["cpBody*", "cpVect"]⟩,
  ⟨"cpVect", "cp_body_get_position", ["cpBody*"]⟩,
  ⟨"void", "cp_body_set_velocity", ["cpBody*", "cpVect"]⟩,
  ⟨"cpVect", "cp_body_get_velocity", ["cpBody*"]⟩,
  ⟨"void", "cp_body_set_angle", ["cpBody*", "cpFloat"]⟩,
  ⟨"cpFloat", "cp_body_get_angle", ["cpBody*"]⟩,
  ⟨"cpFloat", "cp_body_get_mass", ["cpBody*"]⟩,
  ⟨"void", "cp_body_set_mass", ["cpBody*", "cpFloat"]⟩,
  ⟨"cpFloat", "cp_body_get_moment", ["cpBody*"]⟩,
  ⟨"void", "cp_body_set_moment", ["cpBody*", "cpFloat"]⟩,
  ⟨"cpVect", "cp_body_get_center_of_gravity", ["cpBody*"]⟩,
  ⟨"void", "cp_body_set_center_of_gravity", ["cpBody*", "cpVect"]⟩,
  ⟨"cpVect", "cp_body_get_force", ["cpBody*"]⟩,
  ⟨"void", "cp_body_set_force", ["cpBody*", "cpVect"]⟩,
  ⟨"cpFloat", "cp_body_get_angular_velocity", ["cpBody*"]⟩,
  ⟨"void", "cp_body_set_angular_velocity", ["cpBody*", "cpFloat"]⟩,
  ⟨"cpFloat", "cp_body_get_torque", ["cpBody*"]⟩,
  ⟨"void", "cp_body_set_torque", ["cpBody*", "cpFloat"]⟩,
  ⟨"cpVect", "cp_body_get_rotation", ["cpBody*"]⟩,
  ⟨"int", "cp_body_get_type", ["cpBody*"]⟩]

/-- The declarations under the header comment "Body management" (header line 56), part 2,
in source order. -/
def bodyManagementDecls2 : List Decl := [
  ⟨"void", "cp_body_set_type", ["cpBody*", "int"]⟩,
  ⟨"int", "cp_body_is_sleeping", ["cpBody*"]⟩,
  ⟨"void", "cp_body_activate", ["cpBody*"]⟩,
  ⟨"void", "cp_body_activate_static", ["cpBody*", "cpShape*"]⟩,
  ⟨"void", "cp_body_sleep", ["cpBody*"]⟩,
  ⟨"void", "cp_body_sleep_with_group", ["cpBody*", "cpBody*"]⟩,
  ⟨"cpVect", "cp_body_local_to_world", ["cpBody*", "cpVect"]⟩,
  ⟨"cpVect", "cp_body_world_to_local", ["cpBody*", "cpVect"]⟩,
  ⟨"void", "cp_body_apply_force_at_world_point", ["cpBody*", "cpVect", "cpVect"]⟩,
  ⟨"void", "cp_body_apply_force_at_local_point", ["cpBody*", "cpVect", "cpVect"]⟩,
  ⟨"void", "cp_body_apply_impulse_at_world_point", ["cpBody*", "cpVect", "cpVect"]⟩,
  ⟨"void", "cp_body_apply_impulse_at_local_point", ["cpBody*", "cpVect", "cpVect"]⟩,
  ⟨"cpVect", "cp_body_get_velocity_at_world_point", ["cpBody*", "cpVect"]⟩,
  ⟨"cpVect", "cp_body_get_velocity_at_local_point", ["cpBody*", "cpVect"]⟩,
  ⟨"cpFloat", "cp_body_kinetic_energy", ["cpBody*"]⟩,
  ⟨"cpSpace*", "cp_body_get_space", ["cpBody*"]⟩]

/-- The declarations under the header comment "Shape management" (header line 98), part 1,
in source order. -/
def shapeManagementDecls1 : List Decl := [
  ⟨"cpShape*", "cp_circle_shape_new", ["cpBody*", "cpFloat", "cpVect"]⟩,
  ⟨"cpShape*", "cp_box_shape_new", ["cpBody*", "cpFloat", "cpFloat", "cpFloat"]⟩,
  ⟨"cpShape*", "cp_segment_shape_new", ["cpBody*", "cpVect", "cpVect", "cpFloat"]⟩,
  ⟨"cpShape*", "cp_poly_shape_new", ["cpBody*", "int", "cpVect*", "cpTransform", "cpFloat"]⟩,
  ⟨"cpShape*", "cp_poly_shape_new_raw", ["cpBody*", "int", "cpVect*", "cpFloat"]⟩,
  ⟨"cpShape*", "cp_box_shape_new2", ["cpBody*", "cpBB", "cpFloat"]⟩,
  ⟨"void", "cp_shape_free", ["cpShape*"]⟩,
  ⟨"void", "cp_shape_set_friction", ["cpShape*", "cpFloat"]⟩,
  ⟨"cpFloat", "cp_shape_get_friction", ["cpShape*"]⟩,
  ⟨"void", "cp_shape_set_elasticity", ["cpShape*", "cpFloat"]⟩,
  ⟨"cpFloat", "cp_shape_get_elasticity", ["cpShape*"]⟩,
  ⟨"cpShapeFilter", "cp_shape_get_filter", ["cpShape*"]⟩,
  ⟨"void", "cp_shape_set_filter", ["cpShape*", "cpShapeFilter"]⟩,
  ⟨"cpShapeFilter", "cp_shape_filter_new", ["cpGroup", "cpBitmask", "cpBitmask"]⟩,
  ⟨"cpFloat", "cp_shape_get_mass", ["cpShape*"]⟩,
  ⟨"void", "cp_shape_set_mass", ["cpShape*", "cpFloat"]⟩,
  ⟨"cpFloat", "cp_shape_get_density", ["cpShape*"]⟩,
  ⟨"void", "cp_shape_set_density", ["cpShape*", "cpFloat"]⟩,
  ⟨"cpFloat", "cp_shape_get_moment", ["cpShape*"]⟩,
  ⟨"cpFloat", "cp_shape_get_area", ["cpShape*"]⟩,
  ⟨"cpVect", "cp_shape_get_center_of_gravity", ["cpShape*"]⟩,
  ⟨"cpBB", "cp_shape_get_bb", ["cpShape*"]⟩,
  ⟨"int", "cp_shape_get_sensor", ["cpShape*"]⟩,
  ⟨"void", "cp_shape_set_sensor", ["cpShape*", "int"]⟩]

/-- The declarations under the header comment "Shape management" (header line 98), part 2,
in source order. -/
def shapeManagementDecls2 : List Decl := [
  ⟨"cpVect", "cp_shape_get_surface_velocity", ["cpShape*"]⟩,
  ⟨"void", "cp_shape_set_surface_velocity", ["cpShape*", "cpVect"]⟩,
  ⟨"uintptr_t", "cp_shape_get_collision_type", ["cpShape*"]⟩,
  ⟨"void", "cp_shape_set_collision_type", ["cpShape*", "uintptr_t"]⟩,
  ⟨"cpBody*", "cp_shape_get_body", ["cpShape*"]⟩,
  ⟨"void", "cp_shape_set_body", ["cpShape*", "cpBody*"]⟩,
  ⟨"cpSpace*", "cp_shape_get_space", ["cpShape*"]⟩,
  ⟨"cpFloat", "cp_shape_point_query", ["cpShape*", "cpVect", "cpPointQueryInfo*"]⟩,
  ⟨"int", "cp_shape_segment_query",
    ["cpShape*", "cpVect", "cpVect", "cpFloat", "cpSegmentQueryInfo*"]⟩,
  ⟨"cpContactPointSet", "cp_shapes_collide", ["cpShape*", "cpShape*"]⟩]

/-- The declarations under the header comment "Circle shape specific" (header line 133),
in source order. -/
def circleShapeSpecificDecls : List Decl := [
  ⟨"cpVect", "cp_circle_shape_get_offset", ["cpShape*"]⟩,
  ⟨"cpFloat", "cp_circle_shape_get_radius", ["cpShape*"]⟩]

/-- The declarations under the header comment "Segment shape specific" (header line 136),
in source order. -/
def segmentShapeSpecificDecls : List Decl := [
  ⟨"cpVect", "cp_segment_shape_get_a", ["cpShape*"]⟩,
  ⟨"cpVect", "cp_segment_shape_get_b", ["cpShape*"]⟩,
  ⟨"cpVect", "cp_segment_shape_get_normal", ["cpShape*"]⟩,
  ⟨"cpFloat", "cp_segment_shape_get_radius", ["cpShape*"]⟩,
  ⟨"void", "cp_segment_shape_set_neighbors", ["cpShape*", "cpVect", "cpVect"]⟩]

/-- The declarations under the header comment "Poly shape specific" (header line 142),
in source order. -/
def polyShapeSpecificDecls : List Decl := [
  ⟨"int", "cp_poly_shape_get_count", ["cpShape*"]⟩,
  ⟨"cpVect", "cp_poly_shape_get_vert", ["cpShape*", "int"]⟩,
  ⟨"cpFloat", "cp_poly_shape_get_radius", ["cpShape*"]⟩]

/-- The declarations under the header comment "Space-Body-Shape relationships" (header line 147),
in source order. -/
def spaceBodyShapeRelationshipsDecls : List Decl := [
  ⟨"void", "cp_space_add_body", ["cpSpace*", "cpBody*"]⟩,
  ⟨"void", "cp_space_remove_body", ["cpSpace*", "cpBody*"]⟩,
  ⟨"void", "cp_space_add_shape", ["cpSpace*", "cpShape*"]⟩,
  ⟨"void", "cp_space_remove_shape", ["cpSpace*", "cpShape*"]⟩,
  ⟨"void", "cp_space_add_constraint", ["cpSpace*", "cpConstraint*"]⟩,
  ⟨"void", "cp_space_remove_constraint", ["cpSpace*", "cpConstraint*"]⟩]

/-- The declarations under the header comment "Vector utilities" (header line 155),
in source order. -/
def vectorUtilitiesDecls : List Decl := [
  ⟨"cpVect", "cp_vect_new", ["cpFloat", "cpFloat"]⟩,
  ⟨"cpFloat", "cp_vect_get_x", ["cpVect"]⟩,
  ⟨"cpFloat", "cp_vect_get_y", ["cpVect"]⟩]

/-- The declarations under the header comment "Collision detection and spatial queries" (header line 160),
in source order. -/
def collisionDetectionAndSpatialQueriesDecls : List Decl := [
  ⟨"cpShape*", "cp_space_point_query_nearest",
    ["cpSpace*", "cpVect", "cpFloat", "cpShapeFilter", "cpPointQueryInfo*"]⟩,
  ⟨"cpShape*", "cp_space_segment_query_first",
    ["cpSpace*", "cpVect", "cpVect", "cpFloat", "cpShapeFilter", "cpSegmentQueryInfo*"]⟩,
  ⟨"int", "cp_space_shape_query", ["cpSpace*", "cpShape*", "void*", "void*"]⟩]

/-- The declarations under the header comment "Constraint management" (header line 165),
in source order. -/
def constraintManagementDecls : List Decl := [
  ⟨"void", "cp_constraint_free", ["cpConstraint*"]⟩,
  ⟨"cpSpace*", "cp_constraint_get_space", ["cpConstraint*"]⟩,
  ⟨"cpBody*", "cp_constraint_get_body_a", ["cpConstraint*"]⟩,
  ⟨"cpBody*", "cp_constraint_get_body_b", ["cpConstraint*"]⟩,
  ⟨"cpFloat", "cp_constraint_get_max_force", ["cpConstraint*"]⟩,
  ⟨"void", "cp_constraint_set_max_force", ["cpConstraint*", "cpFloat"]⟩,
  ⟨"cpFloat", "cp_constraint_get_error_bias", ["cpConstraint*"]⟩,
  ⟨"void", "cp_constraint_set_error_bias", ["cpConstraint*", "cpFloat"]⟩,
  ⟨"cpFloat", "cp_constraint_get_max_bias", ["cpConstraint*"]⟩,
  ⟨"void", "cp_constraint_set_max_bias", ["cpConstraint*", "cpFloat"]⟩,
  ⟨"int", "cp_constraint_get_collide_bodies", ["cpConstraint*"]⟩,
  ⟨"void", "cp_constraint_set_collide_bodies", ["cpConstraint*", "int"]⟩,
  ⟨"cpFloat", "cp_constraint_get_impulse", ["cpConstraint*"]⟩]

/-- The declarations under the header comment "Pin joint" (header line 179),
in source order. -/
def pinJointDecls : List Decl := [
  ⟨"cpConstraint*", "cp_pin_joint_new", ["cpBody*", "cpBody*", "cpVect", "cpVect"]⟩,
  ⟨"cpVect", "cp_pin_joint_get_anchor_a", ["cpConstraint*"]⟩,
  ⟨"void", "cp_pin_joint_set_anchor_a", ["cpConstraint*", "cpVect"]⟩,
  ⟨"cpVect", "cp_pin_joint_get_anchor_b", ["cpConstraint*"]⟩,
  ⟨"void", "cp_pin_joint_set_anchor_b", ["cpConstraint*", "cpVect"]⟩,
  ⟨"cpFloat", "cp_pin_joint_get_dist", ["cpConstraint*"]⟩,
  ⟨"void", "cp_pin_joint_set_dist", ["cpConstraint*", "cpFloat"]⟩]

/-- The declarations under the header comment "Slide joint" (header line 187),
in source order. -/
def slideJointDecls : List Decl := [
  ⟨"cpConstraint*", "cp_slide_joint_new",
    ["cpBody*", "cpBody*", "cpVect", "cpVect", "cpFloat", "cpFloat"]⟩,
  ⟨"cpVect", "cp_slide_joint_get_anchor_a", ["cpConstraint*"]⟩,
  ⟨"void", "cp_slide_joint_set_anchor_a", ["cpConstraint*", "cpVect"]⟩,
  ⟨"cpVect", "cp_slide_joint_get_anchor_b", ["cpConstraint*"]⟩,
  ⟨"void", "cp_slide_joint_set_anchor_b", ["cpConstraint*", "cpVect"]⟩,
  ⟨"cpFloat", "cp_slide_joint_get_min", ["cpConstraint*"]⟩,
  ⟨"void", "cp_slide_joint_set_min", ["cpConstraint*", "cpFloat"]⟩,
  ⟨"cpFloat", "cp_slide_joint_get_max", ["cpConstraint*"]⟩,
  ⟨"void", "cp_slide_joint_set_max", ["cpConstraint*", "cpFloat"]⟩]

/-- The declarations under the header comment "Pivot joint" (header line 197),
in source order. -/
def pivotJointDecls : List Decl := [
  ⟨"cpConstraint*", "cp_pivot_joint_new", ["cpBody*", "cpBody*", "cpVect"]⟩,
  ⟨"cpConstraint*", "cp_pivot_joint_new2", ["cpBody*", "cpBody*", "cpVect", "cpVect"]⟩,
  ⟨"cpVect", "cp_pivot_joint_get_anchor_a", ["cpConstraint*"]⟩,
  ⟨"void", "cp_pivot_joint_set_anchor_a", ["cpConstraint*", "cpVect"]⟩,
  ⟨"cpVect", "cp_pivot_joint_get_anchor_b", ["cpConstraint*"]⟩,
  ⟨"void", "cp_pivot_joint_set_anchor_b", ["cpConstraint*", "cpVect"]⟩]

/-- The declarations under the header comment "Groove joint" (header line 204),
in source order. -/
def grooveJointDecls : List Decl := [
  ⟨"cpConstraint*", "cp_groove_joint_new", ["cpBody*", "cpBody*", "cpVect", "cpVect", "cpVect"]⟩,
  ⟨"cpVect", "cp_groove_joint_get_groove_a", ["cpConstraint*"]⟩,
  ⟨"void", "cp_groove_joint_set_groove_a", ["cpConstraint*", "cpVect"]⟩,
  ⟨"cpVect", "cp_groove_joint_get_groove_b", ["cpConstraint*"]⟩,
  ⟨"void", "cp_groove_joint_set_groove_b", ["cpConstraint*", "cpVect"]⟩,
  ⟨"cpVect", "cp_groove_joint_get_anchor_b", ["cpConstraint*"]⟩,
  ⟨"void", "cp_groove_joint_set_anchor_b", ["cpConstraint*", "cpVect"]⟩]

/-- The declarations under the header comment "Damped spring" (header line 212),
in source order. -/
def dampedSpringDecls : List Decl := [
  ⟨"cpConstraint*", "cp_damped_spring_new",
    ["cpBody*", "cpBody*", "cpVect", "cpVect", "cpFloat", "cpFloat", "cpFloat"]⟩,
  ⟨"cpVect", "cp_damped_spring_get_anchor_a", ["cpConstraint*"]⟩,
  ⟨"void", "cp_damped_spring_set_anchor_a", ["cpConstraint*", "cpVect"]⟩,
  ⟨"cpVect", "cp_damped_spring_get_anchor_b", ["cpConstraint*"]⟩,
  ⟨"void", "cp_damped_spring_set_anchor_b", ["cpConstraint*", "cpVect"]⟩,
  ⟨"cpFloat", "cp_damped_spring_get_rest_length", ["cpConstraint*"]⟩,
  ⟨"void", "cp_damped_spring_set_rest_length", ["cpConstraint*", "cpFloat"]⟩,
  ⟨"cpFloat", "cp_damped_spring_get_stiffness", ["cpConstraint*"]⟩,
  ⟨"void", "cp_damped_spring_set_stiffness", ["cpConstraint*", "cpFloat"]⟩,
  ⟨"cpFloat", "cp_damped_spring_get_damping", ["cpConstraint*"]⟩,
  ⟨"void", "cp_damped_spring_set_damping", ["cpConstraint*", "cpFloat"]⟩]

/-- The declarations under the header comment "Damped rotary spring" (header line 224),
in source order. -/
def dampedRotarySpringDecls : List Decl := [
  ⟨"cpConstraint*", "cp_damped_rotary_spring_new",
    ["cpBody*", "cpBody*", "cpFloat", "cpFloat", "cpFloat"]⟩,
  ⟨"cpFloat", "cp_damped_rotary_spring_get_rest_angle", ["cpConstraint*"]⟩,
  ⟨"void", "cp_damped_rotary_spring_set_rest_angle", ["cpConstraint*", "cpFloat"]⟩,
  ⟨"cpFloat", "cp_damped_rotary_spring_get_stiffness", ["cpConstraint*"]⟩,
  ⟨"void", "cp_damped_rotary_spring_set_stiffness", ["cpConstraint*", "cpFloat"]⟩,
  ⟨"cpFloat", "cp_damped_rotary_spring_get_damping", ["cpConstraint*"]⟩,
  ⟨"void", "cp_damped_rotary_spring_set_damping", ["cpConstraint*", "cpFloat"]⟩]

/-- The declarations under the header comment "Rotary limit joint" (header line 232),
in source order. -/
def rotaryLimitJointDecls : List Decl := [
  ⟨"cpConstraint*", "cp_rotary_limit_joint_new", ["cpBody*", "cpBody*", "cpFloat", "cpFloat"]⟩,
  ⟨"cpFloat", "cp_rotary_limit_joint_get_min", ["cpConstraint*"]⟩,
  ⟨"void", "cp_rotary_limit_joint_set_min", ["cpConstraint*", "cpFloat"]⟩,
  ⟨"cpFloat", "cp_rotary_limit_joint_get_max", ["cpConstraint*"]⟩,
  ⟨"void", "cp_rotary_limit_joint_set_max", ["cpConstraint*", "cpFloat"]⟩]

/-- The declarations under the header comment "Ratchet joint" (header line 238),
in source order. -/
def ratchetJointDecls : List Decl := [
  ⟨"cpConstraint*", "cp_ratchet_joint_new", ["cpBody*", "cpBody*", "cpFloat", "cpFloat"]⟩,
  ⟨"cpFloat", "cp_ratchet_joint_get_angle", ["cpConstraint*"]⟩,
  ⟨"void", "cp_ratchet_joint_set_angle", ["cpConstraint*", "cpFloat"]⟩,
  ⟨"cpFloat", "cp_ratchet_joint_get_phase", ["cpConstraint*"]⟩,
  ⟨"void", "cp_ratchet_joint_set_phase", ["cpConstraint*", "cpFloat"]⟩,
  ⟨"cpFloat", "cp_ratchet_joint_get_ratchet", ["cpConstraint*"]⟩,
  ⟨"void", "cp_ratchet_joint_set_ratchet", ["cpConstraint*", "cpFloat"]⟩]

/-- The declarations under the header comment "Gear joint" (header line 246),
in source order. -/
def gearJointDecls : List Decl := [
  ⟨"cpConstraint*", "cp_gear_joint_new", ["cpBody*", "cpBody*", "cpFloat", "cpFloat"]⟩,
  ⟨"cpFloat", "cp_gear_joint_get_phase", ["cpConstraint*"]⟩,
  ⟨"void", "cp_gear_joint_set_phase", ["cpConstraint*", "cpFloat"]⟩,
  ⟨"cpFloat", "cp_gear_joint_get_ratio", ["cpConstraint*"]⟩,
  ⟨"void", "cp_gear_joint_set_ratio", ["cpConstraint*", "cpFloat"]⟩]

/-- The declarations under the header comment "Simple motor" (header line 252),
in source order. -/
def simpleMotorDecls : List Decl := [
  ⟨"cpConstraint*", "cp_simple_motor_new", ["cpBody*", "cpBody*", "cpFloat"]⟩,
  ⟨"cpFloat", "cp_simple_motor_get_rate", ["cpConstraint*"]⟩,
  ⟨"void", "cp_simple_motor_set_rate", ["cpConstraint*", "cpFloat"]⟩]

/-- The declarations under the header comment "Arbiter" (header line 257),
in source order. -/
def arbiterDecls : List Decl := [
  ⟨"cpFloat", "cp_arbiter_get_restitution", ["cpArbiter*"]⟩,
  ⟨"void", "cp_arbiter_set_restitution", ["cpArbiter*", "cpFloat"]⟩,
  ⟨"cpFloat", "cp_arbiter_get_friction", ["cpArbiter*"]⟩,
  ⟨"void", "cp_arbiter_set_friction", ["cpArbiter*", "cpFloat"]⟩,
  ⟨"cpVect", "cp_arbiter_get_surface_velocity", ["cpArbiter*"]⟩,
  ⟨"void", "cp_arbiter_set_surface_velocity", ["cpArbiter*", "cpVect"]⟩,
  ⟨"cpVect", "cp_arbiter_total_impulse", ["cpArbiter*"]⟩,
  ⟨"cpFloat", "cp_arbiter_total_ke", ["cpArbiter*"]⟩,
  ⟨"int", "cp_arbiter_ignore", ["cpArbiter*"]⟩,
  ⟨"void", "cp_arbiter_get_shapes", ["cpArbiter*", "cpShape**", "cpShape**"]⟩,
  ⟨"void", "cp_arbiter_get_bodies", ["cpArbiter*", "cpBody**", "cpBody**"]⟩,
  ⟨"cpContactPointSet", "cp_arbiter_get_contact_point_set", ["cpArbiter*"]⟩,
  ⟨"void", "cp_arbiter_set_contact_point_set", ["cpArbiter*", "cpContactPointSet*"]⟩,
  ⟨"int", "cp_arbiter_is_first_contact", ["cpArbiter*"]⟩,
  ⟨"int", "cp_arbiter_is_removal", ["cpArbiter*"]⟩,
  ⟨"int", "cp_arbiter_get_count", ["cpArbiter*"]⟩,
  ⟨"cpVect", "cp_arbiter_get_normal", ["cpArbiter*"]⟩,
  ⟨"cpVect", "cp_arbiter_get_point_a", ["cpArbiter*", "int"]⟩,
  ⟨"cpVect", "cp_arbiter_get_point_b", ["cpArbiter*", "int"]⟩,
  ⟨"cpFloat", "cp_arbiter_get_depth", ["cpArbiter*", "int"]⟩]

/-- The declarations under the header comment "Utility functions" (header line 279),
in source order. -/
def utilityFunctionsDecls : List Decl := [
  ⟨"cpFloat", "cp_moment_for_circle", ["cpFloat", "cpFloat", "cpFloat", "cpVect"]⟩,
  ⟨"cpFloat", "cp_area_for_circle", ["cpFloat", "cpFloat"]⟩,
  ⟨"cpFloat", "cp_moment_for_segment", ["cpFloat", "cpVect", "cpVect", "cpFloat"]⟩,
  ⟨"cpFloat", "cp_area_for_segment", ["cpVect", "cpVect", "cpFloat"]⟩,
  ⟨"cpFloat", "cp_moment_for_poly", ["cpFloat", "int", "cpVect*", "cpVect", "cpFloat"]⟩,
  ⟨"cpFloat", "cp_area_for_poly", ["int", "cpVect*", "cpFloat"]⟩,
  ⟨"cpVect", "cp_centroid_for_poly", ["int", "cpVect*"]⟩,
  ⟨"cpFloat", "cp_moment_for_box", ["cpFloat", "cpFloat", "cpFloat"]⟩,
  ⟨"cpFloat", "cp_moment_for_box2", ["cpFloat", "cpBB"]⟩,
  ⟨"int", "cp_convex_hull", ["int", "cpVect*", "cpVect*", "int*", "cpFloat"]⟩]

/-- Every exported declaration of the header, in source order. -/
def headerDecls : List Decl :=
  spaceManagementDecls1 ++
  spaceManagementDecls2 ++
  bodyManagementDecls1 ++
  bodyManagementDecls2 ++
  shapeManagementDecls1 ++
  shapeManagementDecls2 ++
  circleShapeSpecificDecls ++
  segmentShapeSpecificDecls ++
  polyShapeSpecificDecls ++
  spaceBodyShapeRelationshipsDecls ++
  vectorUtilitiesDecls ++
  collisionDetectionAndSpatialQueriesDecls ++
  constraintManagementDecls ++
  pinJointDecls ++
  slideJointDecls ++
  pivotJointDecls ++
  grooveJointDecls ++
  dampedSpringDecls ++
  dampedRotarySpringDecls ++
  rotaryLimitJointDecls ++
  ratchetJointDecls ++
  gearJointDecls ++
  simpleMotorDecls ++
  arbiterDecls ++
  utilityFunctionsDecls

/-- The types a declaration mentions: its result type, then its parameter types. -/
def Decl.types (d : Decl) : List String :=
  d.ret :: d.params

/-- The type a declared type is built on: the name with the pointer stars dropped. -/
def baseType (t : String) : String :=
  ⟨t.data.filter (fun c => c ≠ '*')⟩

/-- The names of the floating-point types of C itself. -/
def cFloatingTypes : List String :=
  ["float", "double", "long double"]

/-- The type names the exported signatures are built on: C's `void`, `int`, `unsigned int` and
`uintptr_t`, the engine's number type `cpFloat`, and the engine's other types. -/
def headerBaseTypes : List String :=
  ["void", "int", "unsigned int", "uintptr_t", "cpFloat", "cpVect", "cpBB", "cpTransform",
   "cpShapeFilter", "cpContactPointSet", "cpGroup", "cpBitmask", "cpSpace", "cpBody", "cpShape",
   "cpConstraint", "cpArbiter", "cpSegmentQueryInfo", "cpPointQueryInfo"]

/-- The declaration uses only the type names of `headerBaseTypes`, none of them one of C's own
floating-point types. -/
def Decl.usesEngineFloat (d : Decl) : Prop :=
  ∀ t ∈ d.types, baseType t ∈ headerBaseTypes ∧ baseType t ∉ cFloatingTypes

instance (d : Decl) : Decidable d.usesEngineFloat :=
  inferInstanceAs (Decidable (∀ t ∈ d.types, baseType t ∈ headerBaseTypes ∧
    baseType t ∉ cFloatingTypes))

/-! ## Flags and collision types -/

/-- A boolean flag with a setter and a getter: the object it belongs to, the binding's wrapper
pair for it, taken from the implementation file, and the engine's setter and getter of that
flag, as the engine names them. -/
structure FlagAccessor where
  name : String
  owner : CTy
  set : Ptr owner → Int → Prog Unit
  get : Ptr owner → Prog Int
  engineSet : EngineFn
  engineGet : EngineFn

/-- The two flags of the binding: the sensor flag of a shape and the collide-bodies flag of a
constraint. -/
def flagParams : List FlagAccessor := [
  ⟨"sensor", .cpShape, cp_shape_set_sensor, cp_shape_get_sensor,
    cpShapeSetSensor, cpShapeGetSensor⟩,
  ⟨"collide bodies", .cpConstraint, cp_constraint_set_collide_bodies,
    cp_constraint_get_collide_bodies, cpConstraintSetCollideBodies,
    cpConstraintGetCollideBodies⟩]

/-- The wrapper pair of a flag is wired to the engine pair: the setter wrapper makes one call,
of the engine setter, on the handle and the engine boolean `n ? cpTrue : cpFalse`; the getter
wrapper makes one call, of the engine getter, on the handle, and returns 1 or 0 as the engine's
boolean is nonzero or zero. -/
def FlagWired (a : FlagAccessor) : Prop :=
  (∀ (σ : Type) (E : Engine σ) (s : σ) (h : Ptr a.owner) (n : Int),
    ((a.set h n).run E s).trace =
      [⟨a.engineSet, [⟨.ptr a.owner, h⟩, ⟨.cpBool, if n ≠ 0 then cpTrue else cpFalse⟩]⟩] ∧
    ((a.set h n).run E s).state =
      (E.exec a.engineSet
        [⟨.ptr a.owner, h⟩, ⟨.cpBool, if n ≠ 0 then cpTrue else cpFalse⟩] s).2) ∧
  (∀ (σ : Type) (E : Engine σ) (s : σ) (h : Ptr a.owner),
    ((a.get h).run E s).trace = [⟨a.engineGet, [⟨.ptr a.owner, h⟩]⟩] ∧
    ((a.get h).run E s).value =
      truth ((Val.mk a.engineGet.ret (E.exec a.engineGet [⟨.ptr a.owner, h⟩] s).1).as .cpBool) ∧
    ((a.get h).run E s).state = (E.exec a.engineGet [⟨.ptr a.owner, h⟩] s).2)

/-- The assumption on the engine: its getter returns the flag last stored by its matching
setter, and reading the flag changes nothing. -/
def StoresFlag {σ : Type} (E : Engine σ) (a : FlagAccessor) : Prop :=
  ∀ (s : σ) (h : Ptr a.owner) (b : cpBool),
    (⟨a.engineGet.ret, (E.exec a.engineGet [⟨.ptr a.owner, h⟩]
      (E.exec a.engineSet [⟨.ptr a.owner, h⟩, ⟨.cpBool, b⟩] s).2).1⟩ : Val) = ⟨.cpBool, b⟩

/-- What the getter wrapper of a flag returns right after the setter wrapper was called with
`n`. -/
def FlagAccessor.readBack {σ : Type} (a : FlagAccessor) (E : Engine σ) (s : σ)
    (h : Ptr a.owner) (n : Int) : Int :=
  ((a.get h).run E ((a.set h n).run E s).state).value

/-- The assumption on the engine: it stores the collision type it is given, so that its getter
returns the collision type last set on the shape. -/
def StoresCollisionType {σ : Type} (E : Engine σ) : Prop :=
  ∀ (s : σ) (shape : Ptr .cpShape) (c : Nat),
    (E.exec cpShapeGetCollisionType [⟨.ptr .cpShape, shape⟩]
      (E.exec cpShapeSetCollisionType [⟨.ptr .cpShape, shape⟩, ⟨.cpCollisionType, c⟩] s).2).1
      = c

/-! ## One engine call per invocation -/

/-- The word occurs in the text. -/
def hasWord (word text : List Char) : Bool :=
  text.tails.any (fun t => word.isPrefixOf t)

/-- A getter wrapper, by name: the name has `_get_` in it. -/
def isGetterName (n : String) : Bool :=
  hasWord "_get_".data n.data

/-- An engine setter, by name: the name has `Set` in it followed by a capital letter, as in
`cpSpaceSetGravity`.  The `Set` that ends `cpArbiterGetContactPointSet` does not make that
function a setter. -/
def isSetterName (n : String) : Bool :=
  n.data.tails.any fun t =>
    match t with
    | 'S' :: 'e' :: 't' :: c :: _ => c.isUpper
    | _ => false

/-- The two wrappers that read a field of a vector. -/
def vectGetters : List String :=
  ["cp_vect_get_x", "cp_vect_get_y"]

/-- The wrapper makes exactly one engine call on every invocation, always of the same engine
function, and when the wrapper is a getter that function is not an engine setter. -/
def CallsOnce (w : Wrapper) : Prop :=
  ∃ f : EngineFn, (isGetterName w.name = true → isSetterName f.name = false) ∧
    ∀ (args : Args w.params) (σ : Type) (E : Engine σ) (s : σ),
      ∃ sent : List Val, ((w.prog args).run E s).trace = [⟨f, sent⟩]

/-- The wrapper makes no engine call and leaves the engine as it was. -/
def CallsNothing (w : Wrapper) : Prop :=
  ∀ (args : Args w.params) (σ : Type) (E : Engine σ) (s : σ),
    ((w.prog args).run E s).trace = [] ∧ ((w.prog args).run E s).state = s

/-- The wrapper is one of the two vector getters and calls nothing, or is not and makes exactly
one engine call. -/
def OneCallOrFieldRead (w : Wrapper) : Prop :=
  (w.name ∉ vectGetters ∧ CallsOnce w) ∨ (w.name ∈ vectGetters ∧ CallsNothing w)

/-! ## Header against implementation -/

/-- The name of a C type as the sources write it, a pointer with its stars next to the name. -/
def CTy.cname : CTy → String
  | .void => "void"
  | .int => "int"
  | .unsignedInt => "unsigned int"
  | .uintptr_t => "uintptr_t"
  | .cpFloat => "cpFloat"
  | .cpBool => "cpBool"
  | .cpBodyType => "cpBodyType"
  | .cpCollisionType => "cpCollisionType"
  | .cpGroup => "cpGroup"
  | .cpBitmask => "cpBitmask"
  | .cpVect => "cpVect"
  | .cpBB => "cpBB"
  | .cpTransform => "cpTransform"
  | .cpShapeFilter => "cpShapeFilter"
  | .cpContactPointSet => "cpContactPointSet"
  | .cpSpace => "cpSpace"
  | .cpBody => "cpBody"
  | .cpShape => "cpShape"
  | .cpConstraint => "cpConstraint"
  | .cpArbiter => "cpArbiter"
  | .cpSegmentQueryInfo => "cpSegmentQueryInfo"
  | .cpPointQueryInfo => "cpPointQueryInfo"
  | .ptr t => t.cname ++ "*"

/-- The signature of a wrapper as the implementation file defines it, in the form of a header
declaration. -/
def Wrapper.decl (w : Wrapper) : Decl :=
  ⟨w.ret.cname, w.name, w.params.map CTy.cname⟩

/-- The signatures of the exported definitions of the implementation file, in source order. -/
def implDecls : List Decl :=
  wrappers.map Wrapper.decl

/-- The declaration is defined exactly once in the implementation file: one definition has its
name, and that definition has its result type and its parameter types in the same order. -/
def Decl.definedOnce (d : Decl) : Prop :=
  (implDecls.map Decl.name).count d.name = 1 ∧ implDecls.count d = 1

instance (d : Decl) : Decidable d.definedOnce :=
  inferInstanceAs (Decidable ((implDecls.map Decl.name).count d.name = 1 ∧
    implDecls.count d = 1))

/-- The header declares the wrapper with the signature the implementation file gives it. -/
def Wrapper.declared (w : Wrapper) : Prop :=
  w.decl ∈ headerDecls

instance (w : Wrapper) : Decidable w.declared :=
  inferInstanceAs (Decidable (w.decl ∈ headerDecls))

/-- The names of the exported definitions of the implementation file, in source order. -/
def implNames : List String :=
  wrappers.map Wrapper.name

/-- The entries of a list at the given positions; `none` for a position past the end. -/
def pick {α : Type} (l : List α) (positions : List Nat) : List (Option α) :=
  positions.map (fun k => l[k]?)

/-- The key of a name: its characters read as the digits of a number in base 256. -/
def nameKey (s : String) : Nat :=
  s.data.foldl (fun a c => a * 256 + c.toNat) 0

/-- The numbers of the list increase strictly from each one to the next. -/
def increasing : List Nat → Bool
  | a :: b :: rest => decide (a < b) && increasing (b :: rest)
  | _ => true

/-- For each declaration of the header, in header order, the position in the implementation file
of the definition with that name (positions count from 0). -/
def implOrder : List Nat :=
  [0, 1, 2, 3, 4, 16, 5, 17, 7, 18, 8, 19, 9, 20, 6, 21, 10, 22, 11, 12, 13, 14, 15, 23, 24, 25,
   26, 27, 32, 33, 34, 35, 36, 37, 38, 39, 40, 41, 42, 43, 44, 45, 46, 47, 48, 49, 50, 51, 52,
   53, 54, 55, 56, 57, 58, 59, 60, 61, 62, 63, 64, 65, 66, 67, 68, 69, 70, 71, 72, 73, 74, 83,
   84, 85, 75, 76, 77, 78, 79, 80, 81, 82, 86, 87, 88, 89, 90, 91, 92, 93, 94, 95, 96, 97, 98,
   99, 100, 101, 102, 103, 104, 105, 106, 107, 108, 109, 110, 111, 112, 113, 114, 115, 116, 117,
   118, 119, 28, 29, 120, 121, 122, 123, 30, 31, 124, 125, 126, 127, 128, 129, 130, 131, 132,
   133, 134, 135, 136, 137, 138, 139, 140, 141, 142, 143, 144, 145, 146, 147, 148, 149, 150, 151,
   152, 153, 154, 155, 156, 157, 158, 159, 160, 161, 162, 163, 164, 165, 166, 167, 168, 169, 170,
   171, 172, 173, 174, 175, 176, 177, 178, 179, 180, 181, 182, 183, 184, 185, 186, 187, 188, 189,
   190, 191, 192, 193, 194, 195, 196, 197, 198, 199, 200, 201, 202, 203, 204, 205, 206, 207, 208,
   209, 210, 211, 212, 213, 214, 215, 216, 217, 218, 219, 220, 221, 222, 223, 224, 225, 226, 227,
   228, 229, 230, 231, 232, 233]

/-- For each definition of the implementation file, in source order, the position in the header of
the declaration with that name (positions count from 0). -/
def headerOrder : List Nat :=
  [0, 1, 2, 3, 4, 6, 14, 8, 10, 12, 16, 18, 19, 20, 21, 22, 5, 7, 9, 11, 13, 15, 17, 23, 24, 25,
   26, 27, 116, 117, 122, 123, 28, 29, 30, 31, 32, 33, 34, 35, 36, 37, 38, 39, 40, 41, 42, 43,
   44, 45, 46, 47, 48, 49, 50, 51, 52, 53, 54, 55, 56, 57, 58, 59, 60, 61, 62, 63, 64, 65, 66,
   67, 68, 69, 70, 74, 75, 76, 77, 78, 79, 80, 81, 71, 72, 73, 82, 83, 84, 85, 86, 87, 88, 89,
   90, 91, 92, 93, 94, 95, 96, 97, 98, 99, 100, 101, 102, 103, 104, 105, 106, 107, 108, 109, 110,
   111, 112, 113, 114, 115, 118, 119, 120, 121, 124, 125, 126, 127, 128, 129, 130, 131, 132, 133,
   134, 135, 136, 137, 138, 139, 140, 141, 142, 143, 144, 145, 146, 147, 148, 149, 150, 151, 152,
   153, 154, 155, 156, 157, 158, 159, 160, 161, 162, 163, 164, 165, 166, 167, 168, 169, 170, 171,
   172, 173, 174, 175, 176, 177, 178, 179, 180, 181, 182, 183, 184, 185, 186, 187, 188, 189, 190,
   191, 192, 193, 194, 195, 196, 197, 198, 199, 200, 201, 202, 203, 204, 205, 206, 207, 208, 209,
   210, 211, 212, 213, 214, 215, 216, 217, 218, 219, 220, 221, 222, 223, 224, 225, 226, 227, 228,
   229, 230, 231, 232, 233]

/-- The positions of the definitions of the implementation file, taken in the increasing order
of the keys of their names. -/
def nameOrder : List Nat :=
  [32, 120, 35, 0, 60, 75, 1, 2, 121, 122, 233, 93, 229, 58, 42, 55, 43, 56, 73, 137, 212, 41,
   48, 71, 40, 49, 85, 196, 231, 83, 91, 100, 86, 101, 87, 105, 116, 225, 44, 52, 34, 45, 53,
   124, 232, 228, 153, 102, 144, 118, 24, 211, 227, 57, 72, 159, 154, 82, 80, 90, 94, 81, 95,
   201, 219, 223, 37, 54, 39, 36, 38, 230, 166, 224, 189, 74, 88, 103, 89, 17, 4, 117, 7, 3, 31,
   214, 220, 213, 218, 33, 226, 142, 143, 84, 77, 76, 119, 221, 222, 70, 62, 63, 114, 108, 109,
   104, 151, 149, 152, 150, 25, 13, 206, 207, 59, 125, 197, 199, 198, 200, 113, 79, 78, 28, 26,
   16, 12, 5, 210, 61, 126, 127, 115, 202, 203, 15, 136, 138, 140, 139, 141, 184, 204, 205, 106,
   107, 132, 133, 190, 192, 191, 193, 29, 217, 128, 129, 177, 155, 157, 156, 158, 110, 111, 98,
   99, 145, 147, 146, 148, 21, 20, 10, 6, 50, 51, 130, 131, 175, 176, 164, 160, 162, 165, 161,
   163, 194, 195, 27, 123, 30, 46, 47, 167, 169, 168, 170, 187, 185, 188, 186, 96, 97, 173, 174,
   112, 92, 23, 208, 209, 215, 216, 134, 135, 171, 172, 14, 18, 19, 8, 9, 65, 64, 22, 11, 69, 68,
   182, 183, 67, 66, 180, 181, 178, 179]

/-- The names of the exported definitions of the implementation file in the order of
`nameOrder`. -/
def sortedNames : List String :=
  (pick implNames nameOrder).filterMap id

/-! # Theorems -/

/-! ## Shared lemmas -/

theorem Val.eq_of_mk_eq {t : CTy} {x y : t.denote} (h : (⟨t, x⟩ : Val) = ⟨t, y⟩) : x = y := by
  cases h
  rfl

set_option maxHeartbeats 8000000 in
/-- Every wrapper of the table is pass-through or one of the nine special wrappers. -/
theorem wrappers_cases : ∀ w ∈ wrappers, PassThrough w ∨ w ∈ specialWrappers := by
  simp only [wrappers, spaceManagementWrappers1, spaceManagementWrappers2, bodyManagementWrappers1, bodyManagementWrappers2, shapeManagementWrappers1, shapeManagementWrappers2, spacebodyshapeRelationshipsWrappers, vectorUtilitiesWrappers, collisionDetectionWrappers, constraintManagementWrappers, pinJointWrappers, slideJointWrappers, pivotJointWrappers, grooveJointWrappers, dampedSpringWrappers, dampedRotarySpringWrappers, rotaryLimitJointWrappers, ratchetJointWrappers, gearJointWrappers, simpleMotorWrappers, arbiterWrappers, utilityFunctionsWrappers, List.forall_mem_append, List.forall_mem_cons,
    List.forall_mem_nil, List.not_mem_nil, and_true, IsEmpty.forall_iff, implies_true]
  constructorm* _ ∧ _
  all_goals
    first
    | exact Or.inl ⟨_, by first | exact Or.inl (by decide) | exact Or.inr (by decide), _,
        by first
          | exact Or.inl rfl
          | exact Or.inr (Or.inl fun _ => rfl)
          | exact Or.inr (Or.inr ⟨rfl, fun _ => rfl⟩),
        fun _ => ⟨rfl, fun _ _ _ => ⟨rfl, rfl, rfl⟩⟩⟩
    | exact Or.inr (by simp only [specialWrappers, List.mem_cons, true_or, or_true])

/-- The program of a call on an engine boolean followed by the conversion to 1 or 0 returns
the truth of the engine's answer. -/
theorem returnsTruth_call (name : String) (args : List Val) :
    ReturnsTruth (.call ⟨name, .cpBool⟩ args fun (r : cpBool) => .ret (if r ≠ 0 then 1 else 0)) := by
  intro σ E s
  have key : ∀ b : cpBool,
      ((if b ≠ 0 then (1 : Int) else 0) = 0 ∨ (if b ≠ 0 then (1 : Int) else 0) = 1) ∧
      ((if b ≠ 0 then (1 : Int) else 0) = 1 ↔ b ≠ 0) := by
    intro b
    split <;> simp_all
  exact ⟨⟨name, .cpBool⟩, args, (E.exec ⟨name, .cpBool⟩ args s).1, rfl, rfl, rfl,
    (key _).1, (key _).2⟩

/-- A wired pair over an engine that stores the last value set round-trips. -/
theorem roundTrip_of_wired {σ : Type} (E : Engine σ) (a : Accessor) (hw : Wired a)
    (hE : StoresLast E a) : RoundTrip E a := by
  intro s h v
  have h1 := (hw.1 σ E s h v).2
  have h2 := (hw.2 σ E ((a.set h v).run E s).state h).2.1
  rw [h1] at h2 ⊢
  rw [hE s h v] at h2
  exact Val.eq_of_mk_eq h2

/-- Two wired pairs over an engine in which the setter of one leaves the getter of the other
alone: the wrapper setter leaves the wrapper getter alone. -/
theorem unchanged_of_wired {σ : Type} (E : Engine σ) (a b : Accessor) (ha : Wired a)
    (hb : Wired b) (hE : Untouched E a b) : Unchanged E a b := by
  intro s h v h2
  have h1 := (ha.1 σ E s h v).2
  have e1 := (hb.2 σ E ((a.set h v).run E s).state h2).2.1
  have e2 := (hb.2 σ E s h2).2.1
  rw [h1] at e1 ⊢
  rw [hE s h v h2, ← e2] at e1
  exact Val.eq_of_mk_eq e1

/-- Each of the eight space parameters is wired. -/
theorem spaceParams_wired : ∀ a ∈ spaceParams, Wired a := by
  simp only [spaceParams, List.forall_mem_cons, List.forall_mem_nil, List.not_mem_nil, and_true,
    IsEmpty.forall_iff, implies_true]
  constructorm* _ ∧ _
  all_goals exact ⟨fun _ _ _ _ _ => ⟨rfl, rfl⟩, fun _ _ _ _ => ⟨rfl, rfl, rfl⟩⟩

/-- Each of the nine body fields is wired. -/
theorem bodyFields_wired : ∀ a ∈ bodyFields, Wired a := by
  simp only [bodyFields, List.forall_mem_cons, List.forall_mem_nil, List.not_mem_nil, and_true,
    IsEmpty.forall_iff, implies_true]
  constructorm* _ ∧ _
  all_goals exact ⟨fun _ _ _ _ _ => ⟨rfl, rfl⟩, fun _ _ _ _ => ⟨rfl, rfl, rfl⟩⟩

/-- Each of the thirty-one constraint parameters is wired. -/
theorem constraintParams_wired : ∀ a ∈ constraintParams, Wired a := by
  simp only [constraintParams, List.forall_mem_cons, List.forall_mem_nil, List.not_mem_nil,
    and_true, IsEmpty.forall_iff, implies_true]
  constructorm* _ ∧ _
  all_goals exact ⟨fun _ _ _ _ _ => ⟨rfl, rfl⟩, fun _ _ _ _ => ⟨rfl, rfl, rfl⟩⟩

/-- The one-cell engine of a pair whose getter has the parameter's type stores the last value
set. -/
theorem cellEngine_storesLast (a : Accessor) (hne : a.engineGet ≠ a.engineSet)
    (hty : a.engineGet.ret = a.ty) : StoresLast (cellEngine a.engineSet a.engineGet) a := by
  intro s h v
  obtain ⟨name, owner, ty, set, get, eset, ⟨gname, gret⟩⟩ := a
  simp only at hne hty
  subst hty
  simp [cellEngine, hne, Val.as]

/-! ## The claims -/

/-- C1, counterexample.  The wrapper cp_space_shape_query does not call the engine on the
arguments it received: called with func at address 3 it hands the engine a null callback.  So
not every wrapper of the table is pass-through.  Two more wrappers differ: cp_vect_get_x makes
no engine call, and cp_shape_set_sensor called with 256 hands the engine 1. -/
theorem shape_query_is_not_pass_through :
    ((cp_space_shape_query ⟨1⟩ ⟨2⟩ ⟨3⟩ ⟨4⟩).run zeroEngine ()).trace =
      [⟨cpSpaceShapeQuery, [⟨.ptr .cpSpace, (⟨1⟩ : Ptr .cpSpace)⟩,
        ⟨.ptr .cpShape, (⟨2⟩ : Ptr .cpShape)⟩, ⟨.ptr .void, (⟨0⟩ : Ptr .void)⟩,
        ⟨.ptr .void, (⟨4⟩ : Ptr .void)⟩]⟩] ∧
    ((cp_vect_get_x ⟨⟨5⟩, ⟨6⟩⟩).run zeroEngine ()).trace = [] ∧
    ((cp_shape_set_sensor ⟨2⟩ 256).run zeroEngine ()).trace =
      [⟨cpShapeSetSensor, [⟨.ptr .cpShape, (⟨2⟩ : Ptr .cpShape)⟩, ⟨.cpBool, (1 : Nat)⟩]⟩] ∧
    ¬ (∀ w ∈ wrappers, PassThrough w) := by
  refine ⟨rfl, rfl, rfl, fun hall => ?_⟩
  have hmem : (⟨"cp_space_shape_query", [.ptr .cpSpace, .ptr .cpShape, .ptr .void, .ptr .void],
      .int, cp_space_shape_query⟩ : Wrapper) ∈ wrappers := by
    simp only [wrappers, spaceManagementWrappers1, spaceManagementWrappers2, bodyManagementWrappers1, bodyManagementWrappers2, shapeManagementWrappers1, shapeManagementWrappers2, spacebodyshapeRelationshipsWrappers, vectorUtilitiesWrappers, collisionDetectionWrappers, constraintManagementWrappers, pinJointWrappers, slideJointWrappers, pivotJointWrappers, grooveJointWrappers, dampedSpringWrappers, dampedRotarySpringWrappers, rotaryLimitJointWrappers, ratchetJointWrappers, gearJointWrappers, simpleMotorWrappers, arbiterWrappers, utilityFunctionsWrappers, List.mem_append, List.mem_cons, true_or, or_true]
  obtain ⟨f, -, conv, -, h⟩ := hall _ hmem
  have h1 := ((h (⟨1⟩, ⟨2⟩, ⟨3⟩, ⟨4⟩, ())).2 Unit zeroEngine ()).1
  have h2 : (⟨.ptr .void, (NULL : Ptr .void)⟩ : Val) = ⟨.ptr .void, (⟨3⟩ : Ptr .void)⟩ := by
    simp only [Wrapper.prog, Fn.app, cp_space_shape_query, Prog.run, Args.vals,
      List.cons.injEq, Call.mk.injEq] at h1
    exact h1.1.2.2.2.1
  exact absurd h2 (by decide)

/-- C1, amended.  The implementation exports 234 wrappers.  Every one of them but nine calls its
engine counterpart once, with exactly the arguments it received, in the same order and unchanged,
and returns the engine's result (nothing for a void wrapper, 1 or 0 for an engine boolean).  The
nine: cp_space_shape_query passes NULL in the place of func; cp_vect_get_x and cp_vect_get_y
call nothing and return a field of their argument; cp_shape_set_sensor and
cp_constraint_set_collide_bodies pass cpTrue or cpFalse as their int is nonzero or zero;
cp_body_set_type passes its int cast to the engine's body type, which is the int modulo 2^32,
and cp_body_get_type returns the engine's body type cast to int, which is the value read as a
32-bit signed integer: both casts keep a value from 0 to 2^31 - 1 and change any other (-1 is
handed to the engine as 4294967295, and 4294967295 comes back as -1);
cp_shape_get_collision_type and cp_shape_set_collision_type convert between uintptr_t and the
engine's collision type by a cast that keeps the value. -/
theorem wrappers_forward_to_engine :
    wrappers.length = 234 ∧ specialWrappers.length = 9 ∧
    (∀ w ∈ specialWrappers, w ∈ wrappers) ∧
    (∀ w ∈ wrappers, w ∉ specialWrappers → PassThrough w) ∧
    (∀ space shape func data, cp_space_shape_query space shape func data =
      .call cpSpaceShapeQuery
        [⟨.ptr .cpSpace, space⟩, ⟨.ptr .cpShape, shape⟩, ⟨.ptr .void, (NULL : Ptr .void)⟩,
         ⟨.ptr .void, data⟩]
        fun (r : cpBool) => .ret (truth r)) ∧
    (∀ v : cpVect, cp_vect_get_x v = .ret v.x) ∧
    (∀ v : cpVect, cp_vect_get_y v = .ret v.y) ∧
    (∀ shape (n : Int), cp_shape_set_sensor shape n =
      .call cpShapeSetSensor
        [⟨.ptr .cpShape, shape⟩, ⟨.cpBool, if n ≠ 0 then cpTrue else cpFalse⟩]
        fun _ => .ret ()) ∧
    (∀ constraint (n : Int), cp_constraint_set_collide_bodies constraint n =
      .call cpConstraintSetCollideBodies
        [⟨.ptr .cpConstraint, constraint⟩, ⟨.cpBool, if n ≠ 0 then cpTrue else cpFalse⟩]
        fun _ => .ret ()) ∧
    (∀ body, cp_body_get_type body =
      .call cpBodyGetType [⟨.ptr .cpBody, body⟩] fun (r : Int) =>
        .ret ((r + 2147483648) % 4294967296 - 2147483648)) ∧
    (∀ body (t : Int), cp_body_set_type body t =
      .call cpBodySetType [⟨.ptr .cpBody, body⟩, ⟨.cpBodyType, t % 4294967296⟩]
        fun _ => .ret ()) ∧
    (∀ t : Int, 0 ≤ t → t < 2147483648 →
      cpBodyType_of_int t = t ∧ int_of_cpBodyType t = t) ∧
    (∀ t : Int, -2147483648 ≤ t → t < 2147483648 →
      int_of_cpBodyType (cpBodyType_of_int t) = t) ∧
    cpBodyType_of_int (-1) = 4294967295 ∧ int_of_cpBodyType 4294967295 = -1 ∧
    (∀ shape, cp_shape_get_collision_type shape =
      .call cpShapeGetCollisionType [⟨.ptr .cpShape, shape⟩] fun (r : Nat) => .ret r) ∧
    (∀ shape (c : Nat), cp_shape_set_collision_type shape c =
      .call cpShapeSetCollisionType [⟨.ptr .cpShape, shape⟩, ⟨.cpCollisionType, c⟩]
        fun _ => .ret ()) := by
  refine ⟨rfl, rfl, ?_, ?_, fun _ _ _ _ => rfl, fun _ => rfl, fun _ => rfl, fun _ _ => rfl,
    fun _ _ => rfl, fun _ => rfl, fun _ _ => rfl, ?_, ?_, by decide, by decide, fun _ => rfl,
    fun _ _ => rfl⟩
  rotate_left 2
  · intro t h0 h1
    unfold cpBodyType_of_int int_of_cpBodyType
    omega
  · intro t h0 h1
    unfold cpBodyType_of_int int_of_cpBodyType
    omega
  · simp only [specialWrappers, List.forall_mem_cons, List.forall_mem_nil, List.not_mem_nil,
      IsEmpty.forall_iff, implies_true, and_true]
    simp only [wrappers, spaceManagementWrappers1, spaceManagementWrappers2, bodyManagementWrappers1, bodyManagementWrappers2, shapeManagementWrappers1, shapeManagementWrappers2, spacebodyshapeRelationshipsWrappers, vectorUtilitiesWrappers, collisionDetectionWrappers, constraintManagementWrappers, pinJointWrappers, slideJointWrappers, pivotJointWrappers, grooveJointWrappers, dampedSpringWrappers, dampedRotarySpringWrappers, rotaryLimitJointWrappers, ratchetJointWrappers, gearJointWrappers, simpleMotorWrappers, arbiterWrappers, utilityFunctionsWrappers, List.mem_append, List.mem_cons, true_or, or_true, and_self]
  · intro w hw hs
    exact (wrappers_cases w hw).resolve_right hs

/-- C2.  Each of the twelve boolean-returning wrappers makes one engine call and returns 1 when
the engine's boolean result is nonzero and 0 when it is zero; so it returns 0 or 1, and 1
exactly when the engine answered true. -/
theorem boolean_wrappers_return_zero_or_one :
    (∀ space, ReturnsTruth (cp_space_is_locked space)) ∧
    (∀ space body, ReturnsTruth (cp_space_contains_body space body)) ∧
    (∀ space shape, ReturnsTruth (cp_space_contains_shape space shape)) ∧
    (∀ space constraint, ReturnsTruth (cp_space_contains_constraint space constraint)) ∧
    (∀ space shape func data, ReturnsTruth (cp_space_shape_query space shape func data)) ∧
    (∀ body, ReturnsTruth (cp_body_is_sleeping body)) ∧
    (∀ shape, ReturnsTruth (cp_shape_get_sensor shape)) ∧
    (∀ shape a b radius info, ReturnsTruth (cp_shape_segment_query shape a b radius info)) ∧
    (∀ constraint, ReturnsTruth (cp_constraint_get_collide_bodies constraint)) ∧
    (∀ arb, ReturnsTruth (cp_arbiter_ignore arb)) ∧
    (∀ arb, ReturnsTruth (cp_arbiter_is_first_contact arb)) ∧
    (∀ arb, ReturnsTruth (cp_arbiter_is_removal arb)) :=
  ⟨fun _ => returnsTruth_call _ _, fun _ _ => returnsTruth_call _ _,
    fun _ _ => returnsTruth_call _ _, fun _ _ => returnsTruth_call _ _,
    fun _ _ _ _ => returnsTruth_call _ _, fun _ => returnsTruth_call _ _,
    fun _ => returnsTruth_call _ _, fun _ _ _ _ _ => returnsTruth_call _ _,
    fun _ => returnsTruth_call _ _, fun _ => returnsTruth_call _ _,
    fun _ => returnsTruth_call _ _, fun _ => returnsTruth_call _ _⟩

/-- C3.  cp_space_shape_query passes a null callback whatever its func argument is: for any two
values of func the wrapper is the same program, the engine receives the one call
(space, shape, NULL, data), and the outcome against any engine is the same. -/
theorem shape_query_passes_null_callback (space : Ptr .cpSpace) (shape : Ptr .cpShape)
    (func1 func2 data : Ptr .void) :
    cp_space_shape_query space shape func1 data = cp_space_shape_query space shape func2 data ∧
    ∀ (σ : Type) (E : Engine σ) (s : σ),
      ((cp_space_shape_query space shape func1 data).run E s).trace =
        [⟨cpSpaceShapeQuery, [⟨.ptr .cpSpace, space⟩, ⟨.ptr .cpShape, shape⟩,
          ⟨.ptr .void, (NULL : Ptr .void)⟩, ⟨.ptr .void, data⟩]⟩] ∧
      ((cp_space_shape_query space shape func2 data).run E s).trace =
        ((cp_space_shape_query space shape func1 data).run E s).trace ∧
      ((cp_space_shape_query space shape func2 data).run E s).value =
        ((cp_space_shape_query space shape func1 data).run E s).value ∧
      ((cp_space_shape_query space shape func2 data).run E s).state =
        ((cp_space_shape_query space shape func1 data).run E s).state :=
  ⟨rfl, fun _ _ _ => ⟨rfl, rfl, rfl, rfl⟩⟩

/-- C4.  A vector is exactly its (x, y) pair: over an engine whose cpv builds the pair,
cp_vect_get_x of cp_vect_new(x, y) is x, cp_vect_get_y of it is y, and cp_vect_new of the two
fields of a vector is that vector. -/
theorem vect_is_its_pair {σ : Type} (E : Engine σ) (hE : BuildsVect E) :
    (∀ (x y : cpFloat) (s s1 : σ),
      ((cp_vect_get_x ((cp_vect_new x y).run E s).value).run E s1).value = x ∧
      ((cp_vect_get_y ((cp_vect_new x y).run E s).value).run E s1).value = y) ∧
    (∀ (v : cpVect) (s s1 s2 : σ),
      ((cp_vect_new ((cp_vect_get_x v).run E s1).value
        ((cp_vect_get_y v).run E s2).value).run E s).value = v) := by
  constructor
  · intro x y s s1
    have h : ((cp_vect_new x y).run E s).value = (⟨x, y⟩ : cpVect) :=
      congrArg Prod.fst (hE x y s)
    constructor
    · show (((cp_vect_new x y).run E s).value : cpVect).x = x
      rw [h]
    · show (((cp_vect_new x y).run E s).value : cpVect).y = y
      rw [h]
  · intro v s s1 s2
    exact congrArg Prod.fst (hE v.x v.y s)

/-- C4, witness: the engine that pairs two floats builds vectors, and over it the vector made
from 3 and 4 has the fields 3 and 4. -/
theorem vect_is_its_pair_witness :
    BuildsVect vectEngine ∧
    ((cp_vect_get_x ((cp_vect_new ⟨3⟩ ⟨4⟩).run vectEngine ()).value).run vectEngine ()).value
      = ⟨3⟩ ∧
    ((cp_vect_get_y ((cp_vect_new ⟨3⟩ ⟨4⟩).run vectEngine ()).value).run vectEngine ()).value
      = ⟨4⟩ :=
  ⟨fun _ _ _ => rfl, (vect_is_its_pair vectEngine (fun _ _ _ => rfl)).1 ⟨3⟩ ⟨4⟩ () ()⟩

/-- C5.  For each of the eight space parameters the wrapper setter and getter are wired to the
engine setter and getter of that parameter; so, over an engine whose getter returns the value
last stored by its matching setter, the getter wrapper after the setter wrapper returns the
value set, and, over an engine in which that setter leaves the getter of another parameter
alone, setting the one does not change what the getter wrapper of the other returns. -/
theorem space_parameter_set_then_get (a : Accessor) (ha : a ∈ spaceParams) :
    Wired a ∧
    ∀ (σ : Type) (E : Engine σ),
      (StoresLast E a → RoundTrip E a) ∧
      ∀ b ∈ spaceParams, b.name ≠ a.name → Untouched E a b → Unchanged E a b :=
  ⟨spaceParams_wired a ha, fun _ E =>
    ⟨roundTrip_of_wired E a (spaceParams_wired a ha), fun b hb _ =>
      unchanged_of_wired E a b (spaceParams_wired a ha) (spaceParams_wired b hb)⟩⟩

/-- C5, witness: over the one-cell engine of the gravity pair, the gravity set on the space at
address 7 is the gravity read back. -/
theorem space_parameter_set_then_get_witness :
    StoresLast (cellEngine cpSpaceSetGravity cpSpaceGetGravity)
      ⟨"gravity", .cpSpace, .cpVect, cp_space_set_gravity, cp_space_get_gravity,
        cpSpaceSetGravity, cpSpaceGetGravity⟩ ∧
    ((cp_space_get_gravity ⟨7⟩).run (cellEngine cpSpaceSetGravity cpSpaceGetGravity)
      ((cp_space_set_gravity ⟨7⟩ ⟨⟨3⟩, ⟨4⟩⟩).run
        (cellEngine cpSpaceSetGravity cpSpaceGetGravity) none).state).value = ⟨⟨3⟩, ⟨4⟩⟩ :=
  ⟨cellEngine_storesLast _ (by decide) rfl,
    ((space_parameter_set_then_get _ (List.mem_cons_self _ _)).2 _
      (cellEngine cpSpaceSetGravity cpSpaceGetGravity)).1
      (cellEngine_storesLast _ (by decide) rfl) none ⟨7⟩ ⟨⟨3⟩, ⟨4⟩⟩⟩

/-- C6.  For each of the nine body fields with a setter and a getter the wrapper pair is wired
to the engine setter and getter of that field; so, over an engine whose getter returns the
value last stored by its matching setter, the getter wrapper after the setter wrapper returns
the value set. -/
theorem body_field_set_then_get (a : Accessor) (ha : a ∈ bodyFields) :
    Wired a ∧ ∀ (σ : Type) (E : Engine σ), StoresLast E a → RoundTrip E a :=
  ⟨bodyFields_wired a ha, fun _ E => roundTrip_of_wired E a (bodyFields_wired a ha)⟩

/-- C6, witness: over the one-cell engine of the position pair, the position set on the body at
address 7 is the position read back. -/
theorem body_field_set_then_get_witness :
    StoresLast (cellEngine cpBodySetPosition cpBodyGetPosition)
      ⟨"position", .cpBody, .cpVect, cp_body_set_position, cp_body_get_position,
        cpBodySetPosition, cpBodyGetPosition⟩ ∧
    ((cp_body_get_position ⟨7⟩).run (cellEngine cpBodySetPosition cpBodyGetPosition)
      ((cp_body_set_position ⟨7⟩ ⟨⟨3⟩, ⟨4⟩⟩).run
        (cellEngine cpBodySetPosition cpBodyGetPosition) none).state).value = ⟨⟨3⟩, ⟨4⟩⟩ :=
  ⟨cellEngine_storesLast _ (by decide) rfl,
    (body_field_set_then_get _ (List.mem_cons_self _ _)).2 _
      (cellEngine cpBodySetPosition cpBodyGetPosition)
      (cellEngine_storesLast _ (by decide) rfl) none ⟨7⟩ ⟨⟨3⟩, ⟨4⟩⟩⟩

/-- C7.  For each of the thirty-one constraint parameters with a setter and a getter (the shared
max force, error bias and max bias, and the parameters of each variant) the wrapper pair is
wired to the engine setter and getter of that parameter of that variant; so, over an engine
whose getter returns the value last stored by its matching setter, the getter wrapper after the
setter wrapper returns the value set. -/
theorem constraint_parameter_set_then_get (a : Accessor) (ha : a ∈ constraintParams) :
    Wired a ∧ ∀ (σ : Type) (E : Engine σ), StoresLast E a → RoundTrip E a :=
  ⟨constraintParams_wired a ha, fun _ E =>
    roundTrip_of_wired E a (constraintParams_wired a ha)⟩

/-- C7, witness: over the one-cell engine of the max force pair, the max force set on the
constraint at address 7 is the max force read back. -/
theorem constraint_parameter_set_then_get_witness :
    StoresLast (cellEngine cpConstraintSetMaxForce cpConstraintGetMaxForce)
      ⟨"max force", .cpConstraint, .cpFloat, cp_constraint_set_max_force,
        cp_constraint_get_max_force, cpConstraintSetMaxForce, cpConstraintGetMaxForce⟩ ∧
    ((cp_constraint_get_max_force ⟨7⟩).run
      (cellEngine cpConstraintSetMaxForce cpConstraintGetMaxForce)
      ((cp_constraint_set_max_force ⟨7⟩ ⟨3⟩).run
        (cellEngine cpConstraintSetMaxForce cpConstraintGetMaxForce) none).state).value = ⟨3⟩ :=
  ⟨cellEngine_storesLast _ (by decide) rfl,
    (constraint_parameter_set_then_get _ (List.mem_cons_self _ _)).2 _
      (cellEngine cpConstraintSetMaxForce cpConstraintGetMaxForce)
      (cellEngine_storesLast _ (by decide) rfl) none ⟨7⟩ ⟨3⟩⟩

set_option maxHeartbeats 8000000 in
/-- C8.  Removal never destroys.  Each of the three remove wrappers makes one engine call, the
remove call for the given object, so no free call.  Over the whole table, on every argument list
and against every engine, a wrapper that issues an engine free call is the free wrapper of that
object type and that call, on the handle it was given, is its only call.  Each of the four free
wrappers makes that one call. -/
theorem removal_never_destroys :
    (∀ (space : Ptr .cpSpace) (body : Ptr .cpBody) (σ : Type) (E : Engine σ) (s : σ),
      ((cp_space_remove_body space body).run E s).trace =
        [⟨cpSpaceRemoveBody, [⟨.ptr .cpSpace, space⟩, ⟨.ptr .cpBody, body⟩]⟩]) ∧
    (∀ (space : Ptr .cpSpace) (shape : Ptr .cpShape) (σ : Type) (E : Engine σ) (s : σ),
      ((cp_space_remove_shape space shape).run E s).trace =
        [⟨cpSpaceRemoveShape, [⟨.ptr .cpSpace, space⟩, ⟨.ptr .cpShape, shape⟩]⟩]) ∧
    (∀ (space : Ptr .cpSpace) (constraint : Ptr .cpConstraint) (σ : Type) (E : Engine σ) (s : σ),
      ((cp_space_remove_constraint space constraint).run E s).trace =
        [⟨cpSpaceRemoveConstraint,
          [⟨.ptr .cpSpace, space⟩, ⟨.ptr .cpConstraint, constraint⟩]⟩]) ∧
    cpSpaceRemoveBody ∉ freeFns ∧ cpSpaceRemoveShape ∉ freeFns ∧
    cpSpaceRemoveConstraint ∉ freeFns ∧
    (∀ w ∈ wrappers, FreesOnlyAsFreeWrapper w) ∧
    (∀ (space : Ptr .cpSpace) (σ : Type) (E : Engine σ) (s : σ),
      ((cp_space_free space).run E s).trace = [⟨cpSpaceFree, [⟨.ptr .cpSpace, space⟩]⟩]) ∧
    (∀ (body : Ptr .cpBody) (σ : Type) (E : Engine σ) (s : σ),
      ((cp_body_free body).run E s).trace = [⟨cpBodyFree, [⟨.ptr .cpBody, body⟩]⟩]) ∧
    (∀ (shape : Ptr .cpShape) (σ : Type) (E : Engine σ) (s : σ),
      ((cp_shape_free shape).run E s).trace = [⟨cpShapeFree, [⟨.ptr .cpShape, shape⟩]⟩]) ∧
    (∀ (constraint : Ptr .cpConstraint) (σ : Type) (E : Engine σ) (s : σ),
      ((cp_constraint_free constraint).run E s).trace =
        [⟨cpConstraintFree, [⟨.ptr .cpConstraint, constraint⟩]⟩]) := by
  refine ⟨fun _ _ _ _ _ => rfl, fun _ _ _ _ _ => rfl, fun _ _ _ _ _ => rfl, by decide,
    by decide, by decide, ?_, fun _ _ _ _ => rfl, fun _ _ _ _ => rfl, fun _ _ _ _ => rfl,
    fun _ _ _ _ => rfl⟩
  simp only [wrappers, spaceManagementWrappers1, spaceManagementWrappers2, bodyManagementWrappers1, bodyManagementWrappers2, shapeManagementWrappers1, shapeManagementWrappers2, spacebodyshapeRelationshipsWrappers, vectorUtilitiesWrappers, collisionDetectionWrappers, constraintManagementWrappers, pinJointWrappers, slideJointWrappers, pivotJointWrappers, grooveJointWrappers, dampedSpringWrappers, dampedRotarySpringWrappers, rotaryLimitJointWrappers, ratchetJointWrappers, gearJointWrappers, simpleMotorWrappers, arbiterWrappers, utilityFunctionsWrappers, List.forall_mem_append, List.forall_mem_cons,
    List.forall_mem_nil, List.not_mem_nil, and_true, IsEmpty.forall_iff, implies_true]
  constructorm* _ ∧ _
  all_goals
    intro args σ E s c hc hf
    first
    | exact absurd hc (List.not_mem_nil c)
    | (have hceq := List.eq_of_mem_singleton hc
       subst hceq
       dsimp only at hf
       first
       | exact absurd hf (by decide)
       | (refine ⟨?_, rfl⟩
          dsimp only
          decide))

set_option maxHeartbeats 8000000 in
/-- C9.  The binding performs no validation of handles.  For every wrapper of the table that
takes a space, body, shape, constraint or arbiter handle (216 of the 234), there is one engine
function and one result conversion such that on every argument list, null handles included,
the wrapper makes exactly that one engine call with each handle passed on as received and
returns the converted engine result: no wrapper tests a handle, returns early, or returns a
value of its own for a null handle.  In particular cp_space_step and cp_body_free on a null
handle call the engine with that null handle. -/
theorem handles_are_not_validated :
    (wrappers.filter (fun w => w.params.any CTy.isHandle)).length = 216 ∧
    (∀ w ∈ wrappers, w.params.any CTy.isHandle = true → NoValidation w) ∧
    (∀ (dt : cpFloat) (σ : Type) (E : Engine σ) (s : σ),
      ((cp_space_step NULL dt).run E s).trace =
        [⟨cpSpaceStep, [⟨.ptr .cpSpace, (NULL : Ptr .cpSpace)⟩, ⟨.cpFloat, dt⟩]⟩]) ∧
    (∀ (σ : Type) (E : Engine σ) (s : σ),
      ((cp_body_free NULL).run E s).trace =
        [⟨cpBodyFree, [⟨.ptr .cpBody, (NULL : Ptr .cpBody)⟩]⟩]) := by
  refine ⟨rfl, ?_, fun _ _ _ _ => rfl, fun _ _ _ => rfl⟩
  simp only [wrappers, spaceManagementWrappers1, spaceManagementWrappers2, bodyManagementWrappers1, bodyManagementWrappers2, shapeManagementWrappers1, shapeManagementWrappers2, spacebodyshapeRelationshipsWrappers, vectorUtilitiesWrappers, collisionDetectionWrappers, constraintManagementWrappers, pinJointWrappers, slideJointWrappers, pivotJointWrappers, grooveJointWrappers, dampedSpringWrappers, dampedRotarySpringWrappers, rotaryLimitJointWrappers, ratchetJointWrappers, gearJointWrappers, simpleMotorWrappers, arbiterWrappers, utilityFunctionsWrappers, List.forall_mem_append, List.forall_mem_cons,
    List.forall_mem_nil, List.not_mem_nil, and_true, IsEmpty.forall_iff, implies_true]
  constructorm* _ ∧ _
  all_goals
    intro hh
    first
    | exact absurd hh (by decide)
    | exact ⟨_, _, fun _ => ⟨_, rfl, by simp [HandlesKept, CTy.isHandle],
        fun _ _ _ => ⟨rfl, rfl, rfl⟩⟩⟩

/-- The validating engine rejects a negative mass, moment or radius: the null handle comes back
and the state stays. -/
theorem validatingEngine_rejectsInvalid : RejectsInvalid validatingEngine := by
  refine ⟨fun mass moment s h => ?_, fun body radius offset s h => ?_⟩
  · have h2 : (mass.negative || moment.negative) = true := by
      rcases h with h | h <;> simp [h]
    show (if (mass.negative || moment.negative) = true then ((NULL : Ptr .cpBody), s)
      else ((⟨s + 1⟩ : Ptr .cpBody), s + 1)) = _
    rw [if_pos h2]
  · show (if radius.negative = true then ((NULL : Ptr .cpShape), s)
      else ((⟨s + 1⟩ : Ptr .cpShape), s + 1)) = _
    rw [if_pos h]

/-- C10.  cp_body_new(mass, moment) makes the one call cpBodyNew(mass, moment) and returns the
engine's handle, and cp_circle_shape_new(body, radius, offset) makes the one call
cpCircleShapeNew(body, radius, offset) and returns the engine's handle, each with the arguments
as received.  So over an engine whose constructors reject invalid arguments as the spec
describes, for every negative mass or moment cp_body_new is rejected: it returns the null
handle and the engine state is what it was, so no body was created; and for every negative
radius cp_circle_shape_new is rejected: it returns the null handle and the engine state is what
it was, so no shape was created and the body is unchanged. -/
theorem invalid_arguments_are_rejected {σ : Type} (E : Engine σ) (hE : RejectsInvalid E) :
    (∀ mass moment : cpFloat,
      Forwards (.ptr .cpBody) (cp_body_new mass moment) cpBodyNew
        [⟨.cpFloat, mass⟩, ⟨.cpFloat, moment⟩]) ∧
    (∀ (body : Ptr .cpBody) (radius : cpFloat) (offset : cpVect),
      Forwards (.ptr .cpShape) (cp_circle_shape_new body radius offset) cpCircleShapeNew
        [⟨.ptr .cpBody, body⟩, ⟨.cpFloat, radius⟩, ⟨.cpVect, offset⟩]) ∧
    (∀ (mass moment : cpFloat) (s : σ), mass.negative = true ∨ moment.negative = true →
      ((cp_body_new mass moment).run E s).value = NULL ∧
      ((cp_body_new mass moment).run E s).state = s) ∧
    (∀ (body : Ptr .cpBody) (radius : cpFloat) (offset : cpVect) (s : σ),
      radius.negative = true →
        ((cp_circle_shape_new body radius offset).run E s).value = NULL ∧
        ((cp_circle_shape_new body radius offset).run E s).state = s) := by
  refine ⟨fun _ _ _ _ _ => ⟨rfl, rfl, rfl⟩, fun _ _ _ _ _ _ => ⟨rfl, rfl, rfl⟩,
    fun mass moment s h => ?_, fun body radius offset s h => ?_⟩
  · have e := hE.1 mass moment s h
    exact ⟨congrArg Prod.fst e, congrArg Prod.snd e⟩
  · have e := hE.2 body radius offset s h
    exact ⟨congrArg Prod.fst e, congrArg Prod.snd e⟩

/-- C10, witness: the validating engine rejects invalid arguments.  Over it, with three objects
made so far, cp_body_new with the mass -1.0, or with the moment -1.0, and cp_circle_shape_new
with the radius -1.0 return the null handle and the state stays at three; with the mass, moment
and radius 1.0 an object is made at address 4. -/
theorem invalid_arguments_are_rejected_witness :
    RejectsInvalid validatingEngine ∧
    minusOne.negative = true ∧
    ((cp_body_new minusOne plusOne).run validatingEngine 3).value = NULL ∧
    ((cp_body_new minusOne plusOne).run validatingEngine 3).state = 3 ∧
    ((cp_body_new plusOne minusOne).run validatingEngine 3).value = NULL ∧
    ((cp_circle_shape_new ⟨7⟩ minusOne ⟨⟨0⟩, ⟨0⟩⟩).run validatingEngine 3).value = NULL ∧
    ((cp_circle_shape_new ⟨7⟩ minusOne ⟨⟨0⟩, ⟨0⟩⟩).run validatingEngine 3).state = 3 ∧
    ((cp_body_new plusOne plusOne).run validatingEngine 3).value = (⟨4⟩ : Ptr .cpBody) ∧
    ((cp_body_new plusOne plusOne).run validatingEngine 3).state = 4 ∧
    ((cp_circle_shape_new ⟨7⟩ plusOne ⟨⟨0⟩, ⟨0⟩⟩).run validatingEngine 3).value
      = (⟨4⟩ : Ptr .cpShape) :=
  ⟨validatingEngine_rejectsInvalid, by decide,
    ((invalid_arguments_are_rejected validatingEngine validatingEngine_rejectsInvalid).2.2.1
      minusOne plusOne 3 (Or.inl (by decide))).1,
    ((invalid_arguments_are_rejected validatingEngine validatingEngine_rejectsInvalid).2.2.1
      minusOne plusOne 3 (Or.inl (by decide))).2,
    ((invalid_arguments_are_rejected validatingEngine validatingEngine_rejectsInvalid).2.2.1
      plusOne minusOne 3 (Or.inr (by decide))).1,
    ((invalid_arguments_are_rejected validatingEngine validatingEngine_rejectsInvalid).2.2.2
      ⟨7⟩ minusOne ⟨⟨0⟩, ⟨0⟩⟩ 3 (by decide)).1,
    ((invalid_arguments_are_rejected validatingEngine validatingEngine_rejectsInvalid).2.2.2
      ⟨7⟩ minusOne ⟨⟨0⟩, ⟨0⟩⟩ 3 (by decide)).2,
    by decide, by decide, by decide⟩

/-- The engine of one space refuses structural mutation while the space is locked. -/
theorem collectionEngine_refusesWhileLocked : RefusesWhileLocked collectionEngine := by
  intro s space hl f hf obj
  have hlock : s.locked = true := by
    cases h : s.locked
    · exfalso
      apply hl
      show (if s.locked = true then cpTrue else cpFalse) = cpFalse
      rw [h]
      rfl
    · rfl
  simp only [structuralFns, List.mem_cons, List.mem_singleton, List.not_mem_nil, or_false] at hf
  rcases hf with rfl | rfl | rfl | rfl | rfl | rfl
  · show (if s.locked = true then _ else _ : _ × SpaceState).2 = s
    rw [if_pos hlock]
  · show (if (s.locked || !(s.shapesOf obj.addr).isEmpty) = true then _ else _ : _ × SpaceState).2 = s
    rw [hlock]
    rfl
  · show (if s.locked = true then _ else _ : _ × SpaceState).2 = s
    rw [if_pos hlock]
  · show (if s.locked = true then _ else _ : _ × SpaceState).2 = s
    rw [if_pos hlock]
  · show (if s.locked = true then _ else _ : _ × SpaceState).2 = s
    rw [if_pos hlock]
  · show (if s.locked = true then _ else _ : _ × SpaceState).2 = s
    rw [if_pos hlock]

/-- C11, counterexample.  Over the engine of one space, which refuses structural mutation while
the space is locked, with the space locked (cp_space_is_locked returns 1) cp_space_add_body on
the body at address 5 makes the one call cpSpaceAddBody; the engine refuses, hands back no
object and leaves the collections as they were, and the wrapper drops that answer and returns
nothing.  With the space not locked the same call puts the body in, and the wrapper returns the
same nothing.  So no test on what the caller gets back tells the refused call from the one that
went through, and that is so over every engine: no error is reported to the caller. -/
theorem locked_space_add_body_reports_no_error :
    ((cp_space_is_locked ⟨1⟩).run collectionEngine ⟨true, [], [], [], []⟩).value = 1 ∧
    ((cp_space_add_body ⟨1⟩ ⟨5⟩).run collectionEngine ⟨true, [], [], [], []⟩).trace =
      [⟨cpSpaceAddBody, [⟨.ptr .cpSpace, (⟨1⟩ : Ptr .cpSpace)⟩,
        ⟨.ptr .cpBody, (⟨5⟩ : Ptr .cpBody)⟩]⟩] ∧
    (collectionEngine.exec cpSpaceAddBody [⟨.ptr .cpSpace, (⟨1⟩ : Ptr .cpSpace)⟩,
      ⟨.ptr .cpBody, (⟨5⟩ : Ptr .cpBody)⟩] ⟨true, [], [], [], []⟩).1 = (NULL : Ptr .cpBody) ∧
    ((cp_space_add_body ⟨1⟩ ⟨5⟩).run collectionEngine ⟨true, [], [], [], []⟩).state
      = ⟨true, [], [], [], []⟩ ∧
    ((cp_space_is_locked ⟨1⟩).run collectionEngine ⟨false, [], [], [], []⟩).value = 0 ∧
    ((cp_space_add_body ⟨1⟩ ⟨5⟩).run collectionEngine ⟨false, [], [], [], []⟩).state
      = ⟨false, [5], [], [], []⟩ ∧
    ((cp_space_add_body ⟨1⟩ ⟨5⟩).run collectionEngine ⟨true, [], [], [], []⟩).value =
      ((cp_space_add_body ⟨1⟩ ⟨5⟩).run collectionEngine ⟨false, [], [], [], []⟩).value ∧
    (∀ (τ : Type) (F : Engine τ) (t u : τ),
      ((cp_space_add_body ⟨1⟩ ⟨5⟩).run F t).value =
        ((cp_space_add_body ⟨1⟩ ⟨5⟩).run F u).value) ∧
    ¬ ∃ isError : Unit → Bool,
      isError ((cp_space_add_body ⟨1⟩ ⟨5⟩).run collectionEngine ⟨true, [], [], [], []⟩).value
        = true ∧
      isError ((cp_space_add_body ⟨1⟩ ⟨5⟩).run collectionEngine ⟨false, [], [], [], []⟩).value
        = false := by
  refine ⟨by decide, rfl, by decide, by decide, by decide, by decide, rfl,
    fun _ _ _ _ => rfl, ?_⟩
  rintro ⟨isError, h1, h2⟩
  exact absurd (h1.symm.trans h2) (by decide)

set_option maxRecDepth 100000 in
/-- C11, amended.  Each of the six structural mutation wrappers returns nothing, so the binding
hands the caller no error, and makes the one call of its engine counterpart on the space and
the object.  While the space is locked (cp_space_is_locked returns 1), over an engine that
refuses structural mutation of a locked space as the spec describes, each of the six leaves the
engine state as it was, and with it the body, shape and constraint collections of the space. -/
theorem locked_space_mutations_change_nothing {σ : Type} (E : Engine σ)
    (hE : RefusesWhileLocked E) (space : Ptr .cpSpace) (body : Ptr .cpBody)
    (shape : Ptr .cpShape) (constraint : Ptr .cpConstraint) (s : σ)
    (hl : ((cp_space_is_locked space).run E s).value = 1) :
    (∀ w ∈ wrappers, w.name ∈ structuralMutations → w.ret = .void) ∧
    (∀ n ∈ structuralMutations, n ∈ wrappers.map Wrapper.name) ∧
    Issues (cp_space_add_body space body) cpSpaceAddBody
      [⟨.ptr .cpSpace, space⟩, ⟨.ptr .cpBody, body⟩] ∧
    Issues (cp_space_remove_body space body) cpSpaceRemoveBody
      [⟨.ptr .cpSpace, space⟩, ⟨.ptr .cpBody, body⟩] ∧
    Issues (cp_space_add_shape space shape) cpSpaceAddShape
      [⟨.ptr .cpSpace, space⟩, ⟨.ptr .cpShape, shape⟩] ∧
    Issues (cp_space_remove_shape space shape) cpSpaceRemoveShape
      [⟨.ptr .cpSpace, space⟩, ⟨.ptr .cpShape, shape⟩] ∧
    Issues (cp_space_add_constraint space constraint) cpSpaceAddConstraint
      [⟨.ptr .cpSpace, space⟩, ⟨.ptr .cpConstraint, constraint⟩] ∧
    Issues (cp_space_remove_constraint space constraint) cpSpaceRemoveConstraint
      [⟨.ptr .cpSpace, space⟩, ⟨.ptr .cpConstraint, constraint⟩] ∧
    ((cp_space_add_body space body).run E s).state = s ∧
    ((cp_space_remove_body space body).run E s).state = s ∧
    ((cp_space_add_shape space shape).run E s).state = s ∧
    ((cp_space_remove_shape space shape).run E s).state = s ∧
    ((cp_space_add_constraint space constraint).run E s).state = s ∧
    ((cp_space_remove_constraint space constraint).run E s).state = s := by
  have hne : (E.exec cpSpaceIsLocked [⟨.ptr .cpSpace, space⟩] s).1 ≠ cpFalse := by
    intro h0
    have hv : ((cp_space_is_locked space).run E s).value =
        (if (E.exec cpSpaceIsLocked [⟨.ptr .cpSpace, space⟩] s).1 ≠ cpFalse then (1 : Int)
          else 0) := rfl
    rw [hv, if_neg (not_not.mpr h0)] at hl
    exact absurd hl (by decide)
  have key := hE s space hne
  refine ⟨by decide, by decide, fun _ _ _ => ⟨rfl, rfl⟩, fun _ _ _ => ⟨rfl, rfl⟩,
    fun _ _ _ => ⟨rfl, rfl⟩, fun _ _ _ => ⟨rfl, rfl⟩, fun _ _ _ => ⟨rfl, rfl⟩,
    fun _ _ _ => ⟨rfl, rfl⟩, ?_, ?_, ?_, ?_, ?_, ?_⟩
  · exact key cpSpaceAddBody (by decide) ⟨.ptr .cpBody, body⟩
  · exact key cpSpaceRemoveBody (by decide) ⟨.ptr .cpBody, body⟩
  · exact key cpSpaceAddShape (by decide) ⟨.ptr .cpShape, shape⟩
  · exact key cpSpaceRemoveShape (by decide) ⟨.ptr .cpShape, shape⟩
  · exact key cpSpaceAddConstraint (by decide) ⟨.ptr .cpConstraint, constraint⟩
  · exact key cpSpaceRemoveConstraint (by decide) ⟨.ptr .cpConstraint, constraint⟩

/-- C11, witness: the engine of one space refuses structural mutation while locked; over it,
with the space locked and holding the body 5, the shape 9 and the constraint 4, adding the body
6, removing the shape 9 and removing the constraint 4 each leave the state as it was. -/
theorem locked_space_mutations_change_nothing_witness :
    RefusesWhileLocked collectionEngine ∧
    ((cp_space_is_locked ⟨1⟩).run collectionEngine ⟨true, [5], [9], [4], [(9, 5)]⟩).value = 1 ∧
    ((cp_space_add_body ⟨1⟩ ⟨6⟩).run collectionEngine ⟨true, [5], [9], [4], [(9, 5)]⟩).state
      = ⟨true, [5], [9], [4], [(9, 5)]⟩ ∧
    ((cp_space_remove_shape ⟨1⟩ ⟨9⟩).run collectionEngine
      ⟨true, [5], [9], [4], [(9, 5)]⟩).state = ⟨true, [5], [9], [4], [(9, 5)]⟩ ∧
    ((cp_space_remove_constraint ⟨1⟩ ⟨4⟩).run collectionEngine
      ⟨true, [5], [9], [4], [(9, 5)]⟩).state = ⟨true, [5], [9], [4], [(9, 5)]⟩ :=
  ⟨collectionEngine_refusesWhileLocked, by decide,
    (locked_space_mutations_change_nothing collectionEngine collectionEngine_refusesWhileLocked
      ⟨1⟩ ⟨6⟩ ⟨9⟩ ⟨4⟩ ⟨true, [5], [9], [4], [(9, 5)]⟩ (by decide)).2.2.2.2.2.2.2.2.1,
    (locked_space_mutations_change_nothing collectionEngine collectionEngine_refusesWhileLocked
      ⟨1⟩ ⟨6⟩ ⟨9⟩ ⟨4⟩ ⟨true, [5], [9], [4], [(9, 5)]⟩ (by decide)).2.2.2.2.2.2.2.2.2.2.2.1,
    (locked_space_mutations_change_nothing collectionEngine collectionEngine_refusesWhileLocked
      ⟨1⟩ ⟨6⟩ ⟨9⟩ ⟨4⟩ ⟨true, [5], [9], [4], [(9, 5)]⟩ (by decide)).2.2.2.2.2.2.2.2.2.2.2.2.2⟩

/-- C13.  The binding has a constructor for each of the ten constraint variants, eleven in all
(the pivot joint has two), and each passes its two bodies to the engine constructor of that
same variant in the order (a, b), followed by the remaining parameters in the order received,
and returns the engine's constraint. -/
theorem constraint_constructors_pass_bodies_in_order :
    (∀ n ∈ constraintConstructors, n ∈ wrappers.map Wrapper.name) ∧
    (∀ a b anchorA anchorB,
      Forwards (.ptr .cpConstraint) (cp_pin_joint_new a b anchorA anchorB) cpPinJointNew
        [⟨.ptr .cpBody, a⟩, ⟨.ptr .cpBody, b⟩, ⟨.cpVect, anchorA⟩, ⟨.cpVect, anchorB⟩]) ∧
    (∀ a b anchorA anchorB min max,
      Forwards (.ptr .cpConstraint) (cp_slide_joint_new a b anchorA anchorB min max)
        cpSlideJointNew
        [⟨.ptr .cpBody, a⟩, ⟨.ptr .cpBody, b⟩, ⟨.cpVect, anchorA⟩, ⟨.cpVect, anchorB⟩,
         ⟨.cpFloat, min⟩, ⟨.cpFloat, max⟩]) ∧
    (∀ a b pivot,
      Forwards (.ptr .cpConstraint) (cp_pivot_joint_new a b pivot) cpPivotJointNew
        [⟨.ptr .cpBody, a⟩, ⟨.ptr .cpBody, b⟩, ⟨.cpVect, pivot⟩]) ∧
    (∀ a b anchorA anchorB,
      Forwards (.ptr .cpConstraint) (cp_pivot_joint_new2 a b anchorA anchorB) cpPivotJointNew2
        [⟨.ptr .cpBody, a⟩, ⟨.ptr .cpBody, b⟩, ⟨.cpVect, anchorA⟩, ⟨.cpVect, anchorB⟩]) ∧
    (∀ a b groove_a groove_b anchorB,
      Forwards (.ptr .cpConstraint) (cp_groove_joint_new a b groove_a groove_b anchorB)
        cpGrooveJointNew
        [⟨.ptr .cpBody, a⟩, ⟨.ptr .cpBody, b⟩, ⟨.cpVect, groove_a⟩, ⟨.cpVect, groove_b⟩,
         ⟨.cpVect, anchorB⟩]) ∧
    (∀ a b anchorA anchorB restLength stiffness damping,
      Forwards (.ptr .cpConstraint)
        (cp_damped_spring_new a b anchorA anchorB restLength stiffness damping)
        cpDampedSpringNew
        [⟨.ptr .cpBody, a⟩, ⟨.ptr .cpBody, b⟩, ⟨.cpVect, anchorA⟩, ⟨.cpVect, anchorB⟩,
         ⟨.cpFloat, restLength⟩, ⟨.cpFloat, stiffness⟩, ⟨.cpFloat, damping⟩]) ∧
    (∀ a b restAngle stiffness damping,
      Forwards (.ptr .cpConstraint) (cp_damped_rotary_spring_new a b restAngle stiffness damping)
        cpDampedRotarySpringNew
        [⟨.ptr .cpBody, a⟩, ⟨.ptr .cpBody, b⟩, ⟨.cpFloat, restAngle⟩, ⟨.cpFloat, stiffness⟩,
         ⟨.cpFloat, damping⟩]) ∧
    (∀ a b min max,
      Forwards (.ptr .cpConstraint) (cp_rotary_limit_joint_new a b min max)
        cpRotaryLimitJointNew
        [⟨.ptr .cpBody, a⟩, ⟨.ptr .cpBody, b⟩, ⟨.cpFloat, min⟩, ⟨.cpFloat, max⟩]) ∧
    (∀ a b phase ratchet,
      Forwards (.ptr .cpConstraint) (cp_ratchet_joint_new a b phase ratchet) cpRatchetJointNew
        [⟨.ptr .cpBody, a⟩, ⟨.ptr .cpBody, b⟩, ⟨.cpFloat, phase⟩, ⟨.cpFloat, ratchet⟩]) ∧
    (∀ a b phase ratio,
      Forwards (.ptr .cpConstraint) (cp_gear_joint_new a b phase ratio) cpGearJointNew
        [⟨.ptr .cpBody, a⟩, ⟨.ptr .cpBody, b⟩, ⟨.cpFloat, phase⟩, ⟨.cpFloat, ratio⟩]) ∧
    (∀ a b rate,
      Forwards (.ptr .cpConstraint) (cp_simple_motor_new a b rate) cpSimpleMotorNew
        [⟨.ptr .cpBody, a⟩, ⟨.ptr .cpBody, b⟩, ⟨.cpFloat, rate⟩]) := by
  refine ⟨by decide, ?_, ?_, ?_, ?_, ?_, ?_, ?_, ?_, ?_, ?_, ?_⟩
  all_goals
    intros
    intro σ E s
    exact ⟨rfl, rfl, rfl⟩

/-- C14.  The world-point and local-point operations of a body are not cross-wired: each of the
eight wrappers makes the one call of the engine function of the same quantity and the same
frame or direction, with the body first and then the vector and the point, or the point alone,
in the order received. -/
theorem body_point_operations_keep_their_frame (body : Ptr .cpBody) (v point : cpVect) :
    Forwards .cpVect (cp_body_local_to_world body point) cpBodyLocalToWorld
      [⟨.ptr .cpBody, body⟩, ⟨.cpVect, point⟩] ∧
    Forwards .cpVect (cp_body_world_to_local body point) cpBodyWorldToLocal
      [⟨.ptr .cpBody, body⟩, ⟨.cpVect, point⟩] ∧
    Forwards .void (cp_body_apply_force_at_world_point body v point)
      cpBodyApplyForceAtWorldPoint [⟨.ptr .cpBody, body⟩, ⟨.cpVect, v⟩, ⟨.cpVect, point⟩] ∧
    Forwards .void (cp_body_apply_force_at_local_point body v point)
      cpBodyApplyForceAtLocalPoint [⟨.ptr .cpBody, body⟩, ⟨.cpVect, v⟩, ⟨.cpVect, point⟩] ∧
    Forwards .void (cp_body_apply_impulse_at_world_point body v point)
      cpBodyApplyImpulseAtWorldPoint [⟨.ptr .cpBody, body⟩, ⟨.cpVect, v⟩, ⟨.cpVect, point⟩] ∧
    Forwards .void (cp_body_apply_impulse_at_local_point body v point)
      cpBodyApplyImpulseAtLocalPoint [⟨.ptr .cpBody, body⟩, ⟨.cpVect, v⟩, ⟨.cpVect, point⟩] ∧
    Forwards .cpVect (cp_body_get_velocity_at_world_point body point)
      cpBodyGetVelocityAtWorldPoint [⟨.ptr .cpBody, body⟩, ⟨.cpVect, point⟩] ∧
    Forwards .cpVect (cp_body_get_velocity_at_local_point body point)
      cpBodyGetVelocityAtLocalPoint [⟨.ptr .cpBody, body⟩, ⟨.cpVect, point⟩] :=
  ⟨fun _ _ _ => ⟨rfl, rfl, rfl⟩, fun _ _ _ => ⟨rfl, rfl, rfl⟩, fun _ _ _ => ⟨rfl, rfl, rfl⟩,
    fun _ _ _ => ⟨rfl, rfl, rfl⟩, fun _ _ _ => ⟨rfl, rfl, rfl⟩, fun _ _ _ => ⟨rfl, rfl, rfl⟩,
    fun _ _ _ => ⟨rfl, rfl, rfl⟩, fun _ _ _ => ⟨rfl, rfl, rfl⟩⟩

/-- C15.  cp_shape_filter_new passes group, categories and mask to the engine constructor in
that order, none swapped, and over an engine whose constructor builds the filter from its three
fields it returns the filter whose group is group, whose categories is categories and whose mask
is mask.  The filter wrapper pair of a shape is wired to the engine pair, so over an engine that
stores the filter it is given, cp_shape_get_filter after cp_shape_set_filter(shape, f) returns
f. -/
theorem shape_filter_new_and_round_trip {σ : Type} (E : Engine σ) (hB : BuildsFilter E)
    (hS : StoresLast E shapeFilter) :
    (∀ group categories mask : Nat,
      Forwards .cpShapeFilter (cp_shape_filter_new group categories mask) cpShapeFilterNew
        [⟨.cpGroup, group⟩, ⟨.cpBitmask, categories⟩, ⟨.cpBitmask, mask⟩]) ∧
    (∀ (group categories mask : Nat) (s : σ),
      ((cp_shape_filter_new group categories mask).run E s).value.group = group ∧
      ((cp_shape_filter_new group categories mask).run E s).value.categories = categories ∧
      ((cp_shape_filter_new group categories mask).run E s).value.mask = mask) ∧
    Wired shapeFilter ∧
    (∀ (s : σ) (shape : Ptr .cpShape) (f : cpShapeFilter),
      ((cp_shape_get_filter shape).run E ((cp_shape_set_filter shape f).run E s).state).value
        = f) := by
  have hw : Wired shapeFilter :=
    ⟨fun _ _ _ _ _ => ⟨rfl, rfl⟩, fun _ _ _ _ => ⟨rfl, rfl, rfl⟩⟩
  refine ⟨fun _ _ _ _ _ _ => ⟨rfl, rfl, rfl⟩, ?_, hw, roundTrip_of_wired E shapeFilter hw hS⟩
  intro group categories mask s
  have h : ((cp_shape_filter_new group categories mask).run E s).value =
      (⟨group, categories, mask⟩ : cpShapeFilter) :=
    congrArg Prod.fst (hB group categories mask s)
  rw [h]
  exact ⟨rfl, rfl, rfl⟩

/-- C15, witness: the filter engine builds filters and stores the filter of a shape; over it the
filter made from group 1, categories 6 and mask 5 has those fields, and is read back from the
shape at address 7 after being set on it. -/
theorem shape_filter_new_and_round_trip_witness :
    BuildsFilter filterEngine ∧ StoresLast filterEngine shapeFilter ∧
    ((cp_shape_filter_new 1 6 5).run filterEngine none).value = ⟨1, 6, 5⟩ ∧
    ((cp_shape_get_filter ⟨7⟩).run filterEngine
      ((cp_shape_set_filter ⟨7⟩ ⟨1, 6, 5⟩).run filterEngine none).state).value = ⟨1, 6, 5⟩ :=
  ⟨fun _ _ _ _ => rfl, cellEngine_storesLast shapeFilter (by decide) rfl, rfl,
    (shape_filter_new_and_round_trip filterEngine (fun _ _ _ _ => rfl)
      (cellEngine_storesLast shapeFilter (by decide) rfl)).2.2.2 none ⟨7⟩ ⟨1, 6, 5⟩⟩

/-- C16.  cp_body_get_type makes the one call cpBodyGetType(body) and returns the engine's
body-kind tag cast to int: when the engine answers the tag of one of the three kinds, and more
generally any value from 0 to 2^31 - 1, the wrapper returns that integer value.  For each of
the three kinds cp_body_set_type(body, t) makes the one call cpBodySetType with the body kind
of that same integer value.  So over an engine that stores the kind it is given,
cp_body_get_type after cp_body_set_type(body, t) returns t for each of the three kinds. -/
theorem body_type_set_then_get {σ : Type} (E : Engine σ) (hE : StoresKind E)
    (body : Ptr .cpBody) (k : BodyKind) :
    (∀ (τ : Type) (F : Engine τ) (s : τ),
      ((cp_body_get_type body).run F s).trace = [⟨cpBodyGetType, [⟨.ptr .cpBody, body⟩]⟩] ∧
      ((cp_body_get_type body).run F s).value =
        int_of_cpBodyType (F.exec cpBodyGetType [⟨.ptr .cpBody, body⟩] s).1 ∧
      ((F.exec cpBodyGetType [⟨.ptr .cpBody, body⟩] s).1 = k.tag →
        ((cp_body_get_type body).run F s).value = k.tag) ∧
      (∀ v : Int, (F.exec cpBodyGetType [⟨.ptr .cpBody, body⟩] s).1 = v → 0 ≤ v →
        v < 2147483648 → ((cp_body_get_type body).run F s).value = v) ∧
      ((cp_body_get_type body).run F s).state =
        (F.exec cpBodyGetType [⟨.ptr .cpBody, body⟩] s).2) ∧
    Forwards .void (cp_body_set_type body k.tag) cpBodySetType
      [⟨.ptr .cpBody, body⟩, ⟨.cpBodyType, k.tag⟩] ∧
    (∀ s : σ,
      ((cp_body_get_type body).run E ((cp_body_set_type body k.tag).run E s).state).value
        = k.tag) := by
  have hk : cpBodyType_of_int k.tag = k.tag := by cases k <;> rfl
  have hk2 : int_of_cpBodyType k.tag = k.tag := by cases k <;> rfl
  have hset : cp_body_set_type body k.tag =
      .call cpBodySetType [⟨.ptr .cpBody, body⟩, ⟨.cpBodyType, k.tag⟩] fun _ => .ret () := by
    show Prog.call cpBodySetType [⟨.ptr .cpBody, body⟩, ⟨.cpBodyType, cpBodyType_of_int k.tag⟩]
      (fun _ => .ret ()) = _
    rw [hk]
  refine ⟨fun τ F s => ⟨rfl, rfl, fun h => ?_, fun v h h0 h1 => ?_, rfl⟩, ?_, fun s => ?_⟩
  · show int_of_cpBodyType (F.exec cpBodyGetType [⟨.ptr .cpBody, body⟩] s).1 = k.tag
    rw [h, hk2]
  · show int_of_cpBodyType (F.exec cpBodyGetType [⟨.ptr .cpBody, body⟩] s).1 = v
    rw [h]
    unfold int_of_cpBodyType
    omega
  · rw [hset]
    exact fun _ _ _ => ⟨rfl, rfl, rfl⟩
  · rw [hset]
    show int_of_cpBodyType (E.exec cpBodyGetType [⟨.ptr .cpBody, body⟩]
      (E.exec cpBodySetType [⟨.ptr .cpBody, body⟩, ⟨.cpBodyType, k.tag⟩] s).2).1 = k.tag
    rw [hE s body k, hk2]

/-- C16, witness: the one-cell engine of the body type pair stores the kind, and over it the
kind static, set on the body at address 7 as the integer 2, is read back as 2. -/
theorem body_type_set_then_get_witness :
    StoresKind (cellEngine cpBodySetType cpBodyGetType) ∧
    ((cp_body_get_type ⟨7⟩).run (cellEngine cpBodySetType cpBodyGetType)
      ((cp_body_set_type ⟨7⟩ 2).run (cellEngine cpBodySetType cpBodyGetType) none).state).value
      = 2 :=
  ⟨fun _ _ k => by cases k <;> rfl,
    (body_type_set_then_get (cellEngine cpBodySetType cpBodyGetType)
      (fun _ _ k => by cases k <;> rfl) ⟨7⟩ .static).2.2 none⟩

/-- C17.  Two shapes never produce an arbiter, whatever their geometric overlap, when the mask
of either filter shares no bit with the categories of the other, in particular when a mask is
zero, or when both filters carry the same nonzero group.  The filter the engine holds for a
shape is the one cp_shape_set_filter was given. -/
theorem excluding_filters_produce_no_arbiter (a b : cpShapeFilter) (h : FiltersExclude a b)
    (boxesOverlap contact : Bool) (shape : Ptr .cpShape) :
    producesArbiter boxesOverlap contact a b = false ∧
    producesArbiter boxesOverlap contact b a = false ∧
    (∀ c d : cpShapeFilter, c.mask = 0 ∨ d.mask = 0 → FiltersExclude c d) ∧
    Forwards .void (cp_shape_set_filter shape a) cpShapeSetFilter
      [⟨.ptr .cpShape, shape⟩, ⟨.cpShapeFilter, a⟩] := by
  have key : filtersAccept a b = false ∧ filtersAccept b a = false := by
    rcases h with h | h | ⟨h1, h2⟩
    · simp [filtersAccept, h]
    · simp [filtersAccept, h]
    · have h3 : b.group ≠ 0 := h2 ▸ h1
      simp [filtersAccept, h1, h2, h3]
  refine ⟨by simp [producesArbiter, key.1], by simp [producesArbiter, key.2], ?_,
    fun _ _ _ => ⟨rfl, rfl, rfl⟩⟩
  intro c d hcd
  rcases hcd with hc | hd
  · exact Or.inl (by rw [hc]; exact Nat.zero_and _)
  · exact Or.inr (Or.inl (by rw [hd]; exact Nat.zero_and _))

/-- C17, witness: a filter with mask 0 and a filter with every bit set exclude each other, and
no arbiter is produced for them even when the boxes overlap and the shapes touch. -/
theorem excluding_filters_produce_no_arbiter_witness :
    FiltersExclude ⟨0, 1, 0⟩ ⟨0, 4294967295, 4294967295⟩ ∧
    producesArbiter true true ⟨0, 1, 0⟩ ⟨0, 4294967295, 4294967295⟩ = false :=
  ⟨Or.inl (Nat.zero_and _),
    (excluding_filters_produce_no_arbiter ⟨0, 1, 0⟩ ⟨0, 4294967295, 4294967295⟩
      (Or.inl (Nat.zero_and _)) true true ⟨7⟩).1⟩

set_option maxRecDepth 100000 in
set_option maxHeartbeats 8000000 in
/-- C18.  The header declares 234 exported functions.  Every type in every exported signature is
built on one of nineteen type names, none of which is float, double or long double: a
floating-point parameter or result is a cpFloat, alone or as a field of an engine struct such as
cpVect or cpBB.  cpFloat occurs in 113 of the signatures. -/
theorem exported_signatures_use_cpFloat :
    headerDecls.length = 234 ∧
    (∀ d ∈ headerDecls, d.usesEngineFloat) ∧
    (∀ t ∈ headerBaseTypes, t ∉ cFloatingTypes) ∧
    (headerDecls.filter (fun d => "cpFloat" ∈ d.types)).length = 113 := by
  refine ⟨rfl, ?_, by decide, by decide⟩
  simp only [headerDecls, spaceManagementDecls1, spaceManagementDecls2, bodyManagementDecls1, bodyManagementDecls2, shapeManagementDecls1, shapeManagementDecls2, circleShapeSpecificDecls, segmentShapeSpecificDecls, polyShapeSpecificDecls, spaceBodyShapeRelationshipsDecls, vectorUtilitiesDecls, collisionDetectionAndSpatialQueriesDecls, constraintManagementDecls, pinJointDecls, slideJointDecls, pivotJointDecls, grooveJointDecls, dampedSpringDecls, dampedRotarySpringDecls, rotaryLimitJointDecls, ratchetJointDecls, gearJointDecls, simpleMotorDecls, arbiterDecls, utilityFunctionsDecls, List.forall_mem_append, List.forall_mem_cons,
    List.forall_mem_nil, List.not_mem_nil, and_true, IsEmpty.forall_iff, implies_true]
  constructorm* _ ∧ _
  all_goals decide

/-- C20.  For every integer n, cp_shape_set_sensor(shape, n) and
cp_constraint_set_collide_bodies(constraint, n) make the one engine call with the handle and an
engine boolean that is cpTrue, nonzero, when n is nonzero and cpFalse, zero, when n is zero.  In
particular -1 and 256 are passed as 1, although 256 reduced to eight bits is 0. -/
theorem flag_setters_pass_truth (n : Int) (shape : Ptr .cpShape)
    (constraint : Ptr .cpConstraint) :
    (∃ b : cpBool,
      Forwards .void (cp_shape_set_sensor shape n) cpShapeSetSensor
        [⟨.ptr .cpShape, shape⟩, ⟨.cpBool, b⟩] ∧
      Forwards .void (cp_constraint_set_collide_bodies constraint n)
        cpConstraintSetCollideBodies [⟨.ptr .cpConstraint, constraint⟩, ⟨.cpBool, b⟩] ∧
      (n ≠ 0 → b = cpTrue) ∧ (n = 0 → b = cpFalse) ∧ (b ≠ 0 ↔ n ≠ 0)) ∧
    cpTrue ≠ 0 ∧ cpFalse = 0 ∧
    Forwards .void (cp_shape_set_sensor shape (-1)) cpShapeSetSensor
      [⟨.ptr .cpShape, shape⟩, ⟨.cpBool, (1 : Nat)⟩] ∧
    Forwards .void (cp_shape_set_sensor shape 256) cpShapeSetSensor
      [⟨.ptr .cpShape, shape⟩, ⟨.cpBool, (1 : Nat)⟩] ∧
    Forwards .void (cp_constraint_set_collide_bodies constraint (-1))
      cpConstraintSetCollideBodies [⟨.ptr .cpConstraint, constraint⟩, ⟨.cpBool, (1 : Nat)⟩] ∧
    Forwards .void (cp_constraint_set_collide_bodies constraint 256)
      cpConstraintSetCollideBodies [⟨.ptr .cpConstraint, constraint⟩, ⟨.cpBool, (1 : Nat)⟩] ∧
    (256 : Int) % 256 = 0 := by
  refine ⟨⟨if n ≠ 0 then cpTrue else cpFalse, fun _ _ _ => ⟨rfl, rfl, rfl⟩,
    fun _ _ _ => ⟨rfl, rfl, rfl⟩, ?_, ?_, ?_⟩, by decide, rfl, fun _ _ _ => ⟨rfl, rfl, rfl⟩,
    fun _ _ _ => ⟨rfl, rfl, rfl⟩, fun _ _ _ => ⟨rfl, rfl, rfl⟩, fun _ _ _ => ⟨rfl, rfl, rfl⟩,
    by decide⟩
  · intro h
    simp [h]
  · intro h
    simp [h]
  · by_cases h : n = 0 <;> simp [h, cpTrue, cpFalse]

/-- Each of the two flags is wired. -/
theorem flagParams_wired : ∀ a ∈ flagParams, FlagWired a := by
  simp only [flagParams, List.forall_mem_cons, List.forall_mem_nil, List.not_mem_nil, and_true,
    IsEmpty.forall_iff, implies_true]
  constructorm* _ ∧ _
  all_goals exact ⟨fun _ _ _ _ _ => ⟨rfl, rfl⟩, fun _ _ _ _ => ⟨rfl, rfl, rfl⟩⟩

/-- Over an engine that stores flags, the getter wrapper after the setter wrapper returns 1 for
a nonzero argument and 0 for zero. -/
theorem readBack_of_wired {σ : Type} (E : Engine σ) (a : FlagAccessor) (hw : FlagWired a)
    (hE : StoresFlag E a) (s : σ) (h : Ptr a.owner) (n : Int) :
    a.readBack E s h n = if n ≠ 0 then 1 else 0 := by
  unfold FlagAccessor.readBack
  rw [(hw.2 σ E _ h).2.1, (hw.1 σ E s h n).2, hE s h _]
  by_cases hn : n = 0 <;> simp [hn, Val.as, truth, cpTrue, cpFalse]

/-- C21.  For each of the two flags the wrapper pair is wired to the engine pair; so over an
engine that returns the flag it last stored, the getter wrapper after the setter wrapper called
with n returns 1 if n is nonzero and 0 otherwise.  Writing that result back through the setter
hands the engine the same boolean as before and reads back as the same result: set-then-get is
idempotent. -/
theorem flag_set_then_get (a : FlagAccessor) (ha : a ∈ flagParams) {σ : Type} (E : Engine σ)
    (hE : StoresFlag E a) (s : σ) (h : Ptr a.owner) (n : Int) :
    FlagWired a ∧
    a.readBack E s h n = (if n ≠ 0 then 1 else 0) ∧
    (∀ t : σ, ((a.set h (a.readBack E s h n)).run E t).trace = ((a.set h n).run E t).trace ∧
      ((a.set h (a.readBack E s h n)).run E t).state = ((a.set h n).run E t).state) ∧
    (∀ t : σ, a.readBack E t h (a.readBack E s h n) = a.readBack E s h n) := by
  have hw := flagParams_wired a ha
  have hr := readBack_of_wired E a hw hE
  have hflag : (if a.readBack E s h n ≠ 0 then cpTrue else cpFalse) =
      (if n ≠ 0 then cpTrue else cpFalse) := by
    rw [hr s h n]
    by_cases hn : n = 0 <;> simp [hn]
  refine ⟨hw, hr s h n, fun t => ?_, fun t => ?_⟩
  · rw [(hw.1 σ E t h _).1, (hw.1 σ E t h _).2, (hw.1 σ E t h n).1, (hw.1 σ E t h n).2, hflag]
    exact ⟨rfl, rfl⟩
  · rw [hr t h _, hr s h n]
    by_cases hn : n = 0 <;> simp [hn]

/-- C21, witness: the one-cell engine of the sensor pair stores the flag, and over it the sensor
flag set with 256 on the shape at address 7 reads back as 1. -/
theorem flag_set_then_get_witness :
    StoresFlag (cellEngine cpShapeSetSensor cpShapeGetSensor)
      ⟨"sensor", .cpShape, cp_shape_set_sensor, cp_shape_get_sensor,
        cpShapeSetSensor, cpShapeGetSensor⟩ ∧
    ((cp_shape_get_sensor ⟨7⟩).run (cellEngine cpShapeSetSensor cpShapeGetSensor)
      ((cp_shape_set_sensor ⟨7⟩ 256).run
        (cellEngine cpShapeSetSensor cpShapeGetSensor) none).state).value = 1 :=
  ⟨fun _ _ _ => rfl,
    (flag_set_then_get _ (List.mem_cons_self _ _)
      (cellEngine cpShapeSetSensor cpShapeGetSensor) (fun _ _ _ => rfl) none ⟨7⟩ 256).2.1⟩

/-- C22.  For every unsigned value c of pointer width w, cp_shape_set_collision_type(shape, c)
makes the one call cpShapeSetCollisionType with the collision type c, not reduced:
c modulo 2^w is c; cp_shape_get_collision_type makes the one call cpShapeGetCollisionType and
returns the engine's collision type as the same unsigned integer; so over an engine that stores
the type it is given, get after set(c) returns c. -/
theorem collision_type_set_then_get (w c : Nat) (hc : c < 2 ^ w) {σ : Type} (E : Engine σ)
    (hE : StoresCollisionType E) (shape : Ptr .cpShape) :
    Forwards .void (cp_shape_set_collision_type shape c) cpShapeSetCollisionType
      [⟨.ptr .cpShape, shape⟩, ⟨.cpCollisionType, c⟩] ∧
    cpCollisionType_of_uintptr c % 2 ^ w = c ∧
    (∀ (τ : Type) (F : Engine τ) (s : τ),
      ((cp_shape_get_collision_type shape).run F s).trace =
        [⟨cpShapeGetCollisionType, [⟨.ptr .cpShape, shape⟩]⟩] ∧
      ((cp_shape_get_collision_type shape).run F s).value =
        (F.exec cpShapeGetCollisionType [⟨.ptr .cpShape, shape⟩] s).1 ∧
      ((cp_shape_get_collision_type shape).run F s).state =
        (F.exec cpShapeGetCollisionType [⟨.ptr .cpShape, shape⟩] s).2) ∧
    (∀ s : σ,
      ((cp_shape_get_collision_type shape).run E
        ((cp_shape_set_collision_type shape c).run E s).state).value = c) :=
  ⟨fun _ _ _ => ⟨rfl, rfl, rfl⟩, Nat.mod_eq_of_lt hc, fun _ _ _ => ⟨rfl, rfl, rfl⟩,
    fun s => hE s shape c⟩

/-- C22, witness: the one-cell engine of the collision type pair stores the type, and over it
the largest 64-bit value, set on the shape at address 7, is read back whole. -/
theorem collision_type_set_then_get_witness :
    18446744073709551615 < 2 ^ 64 ∧
    StoresCollisionType (cellEngine cpShapeSetCollisionType cpShapeGetCollisionType) ∧
    ((cp_shape_get_collision_type ⟨7⟩).run
      (cellEngine cpShapeSetCollisionType cpShapeGetCollisionType)
      ((cp_shape_set_collision_type ⟨7⟩ 18446744073709551615).run
        (cellEngine cpShapeSetCollisionType cpShapeGetCollisionType) none).state).value
      = 18446744073709551615 :=
  ⟨by decide, fun _ _ _ => rfl,
    (collision_type_set_then_get 64 18446744073709551615 (by decide)
      (cellEngine cpShapeSetCollisionType cpShapeGetCollisionType) (fun _ _ _ => rfl)
      ⟨7⟩).2.2.2 none⟩

set_option maxRecDepth 100000 in
set_option maxHeartbeats 8000000 in
/-- C23.  Every wrapper of the table makes exactly one engine call on every invocation, whatever
the arguments and the engine, except cp_vect_get_x and cp_vect_get_y, which make none, leave
the engine as it was and return the field x or y of their argument.  The engine function a
wrapper calls does not depend on its arguments, and none of the 96 getter wrappers calls an
engine setter. -/
theorem one_engine_call_per_invocation :
    (∀ w ∈ wrappers, OneCallOrFieldRead w) ∧
    (wrappers.filter (fun w => isGetterName w.name)).length = 96 ∧
    (∀ (v : cpVect) (σ : Type) (E : Engine σ) (s : σ),
      ((cp_vect_get_x v).run E s).trace = [] ∧ ((cp_vect_get_x v).run E s).value = v.x ∧
      ((cp_vect_get_x v).run E s).state = s) ∧
    (∀ (v : cpVect) (σ : Type) (E : Engine σ) (s : σ),
      ((cp_vect_get_y v).run E s).trace = [] ∧ ((cp_vect_get_y v).run E s).value = v.y ∧
      ((cp_vect_get_y v).run E s).state = s) := by
  refine ⟨?_, by decide!, fun _ _ _ _ => ⟨rfl, rfl, rfl⟩, fun _ _ _ _ => ⟨rfl, rfl, rfl⟩⟩
  simp only [wrappers, spaceManagementWrappers1, spaceManagementWrappers2, bodyManagementWrappers1, bodyManagementWrappers2, shapeManagementWrappers1, shapeManagementWrappers2, spacebodyshapeRelationshipsWrappers, vectorUtilitiesWrappers, collisionDetectionWrappers, constraintManagementWrappers, pinJointWrappers, slideJointWrappers, pivotJointWrappers, grooveJointWrappers, dampedSpringWrappers, dampedRotarySpringWrappers, rotaryLimitJointWrappers, ratchetJointWrappers, gearJointWrappers, simpleMotorWrappers, arbiterWrappers, utilityFunctionsWrappers, List.forall_mem_append, List.forall_mem_cons,
    List.forall_mem_nil, List.not_mem_nil, and_true, IsEmpty.forall_iff, implies_true]
  constructorm* _ ∧ _
  all_goals
    first
    | exact Or.inl ⟨by decide, _, by decide, fun _ _ _ _ => ⟨_, rfl⟩⟩
    | exact Or.inr ⟨by decide, fun _ _ _ _ => ⟨rfl, rfl⟩⟩

/-- Every entry of a list that is picked from another list is in that list. -/
theorem mem_of_pick {α : Type} {l m : List α} {positions : List Nat}
    (h : pick l positions = m.map some) : ∀ d ∈ m, d ∈ l := by
  intro d hd
  have h1 : some d ∈ pick l positions := by
    rw [h]
    exact List.mem_map_of_mem some hd
  obtain ⟨k, -, hk⟩ := List.mem_map.1 h1
  exact List.getElem?_mem hk

/-- A list of numbers that increases strictly has no number twice. -/
theorem nodup_of_increasing : ∀ l : List Nat, increasing l = true → l.Nodup
  | [], _ => List.nodup_nil
  | [_], _ => List.nodup_singleton _
  | a :: b :: rest, h => by
    have h1 : a < b ∧ increasing (b :: rest) = true := by
      simpa [increasing] using h
    have ih := nodup_of_increasing (b :: rest) h1.2
    have hlt : ∀ l : List Nat, ∀ x, increasing (x :: l) = true → ∀ y ∈ l, x < y := by
      intro l
      induction l with
      | nil => intro x _ y hy; cases hy
      | cons c l ihl =>
        intro x hx y hy
        have h2 : x < c ∧ increasing (c :: l) = true := by
          simpa [increasing] using hx
        rcases List.mem_cons.1 hy with rfl | hy
        · exact h2.1
        · exact Nat.lt_trans h2.1 (ihl c h2.2 y hy)
    refine List.nodup_cons.2 ⟨fun hmem => ?_, ih⟩
    have := hlt (b :: rest) a h a hmem
    exact Nat.lt_irrefl _ this

set_option maxRecDepth 100000 in
/-- No two exported definitions of the implementation file have the same name. -/
theorem implNames_nodup : implNames.Nodup := by
  have hkeys : increasing (sortedNames.map nameKey) = true := by decide!
  have hs : sortedNames.Nodup := List.Nodup.of_map nameKey (nodup_of_increasing _ hkeys)
  have hsub : sortedNames ⊆ implNames := by
    intro x hx
    obtain ⟨o, ho, hox⟩ := List.mem_filterMap.1 hx
    obtain ⟨k, -, hk⟩ := List.mem_map.1 ho
    rw [← hk] at hox
    exact List.getElem?_mem hox
  have hlen : implNames.length ≤ sortedNames.length := by decide!
  exact ((List.subperm_of_subset hs hsub).perm_of_length_le hlen).nodup_iff.1 hs

set_option maxRecDepth 100000 in
/-- C24.  The header and the implementation agree.  The header declares 234 functions and the
implementation file defines 234; each declared function is defined exactly once, with the same
name, result type and parameter types in the same order; and every exported definition of the
implementation file is declared in the header with its signature. -/
theorem header_and_implementation_agree :
    headerDecls.length = 234 ∧ implDecls.length = 234 ∧
    (∀ d ∈ headerDecls, d.definedOnce) ∧
    (∀ w ∈ wrappers, w.declared) := by
  have f1 : pick implDecls implOrder = headerDecls.map some := by decide!
  have f2 : pick headerDecls headerOrder = implDecls.map some := by decide!
  have hn : (implDecls.map Decl.name).Nodup := by
    have : implDecls.map Decl.name = implNames := by
      simp [implDecls, implNames, List.map_map, Function.comp_def, Wrapper.decl]
    rw [this]
    exact implNames_nodup
  refine ⟨by decide!, by decide!, fun d hd => ?_, fun w hw => ?_⟩
  · have hmem : d ∈ implDecls := mem_of_pick f1 d hd
    exact ⟨List.count_eq_one_of_mem hn (List.mem_map_of_mem Decl.name hmem),
      List.count_eq_one_of_mem (List.Nodup.of_map Decl.name hn) hmem⟩
  · exact mem_of_pick f2 w.decl (List.mem_map_of_mem Wrapper.decl hw)

/-- C25.  Numbered and suffixed variants are wired to the engine function of the same variant,
with the arguments in the order received, and the two engine functions of a pair are
different: cp_pivot_joint_new to cpPivotJointNew and cp_pivot_joint_new2 to cpPivotJointNew2;
cp_box_shape_new to cpBoxShapeNew and cp_box_shape_new2 to cpBoxShapeNew2; cp_poly_shape_new to
cpPolyShapeNew and cp_poly_shape_new_raw to cpPolyShapeNewRaw; cp_moment_for_box to
cpMomentForBox and cp_moment_for_box2 to cpMomentForBox2. -/
theorem variants_call_their_own_engine_function :
    (∀ a b pivot,
      Forwards (.ptr .cpConstraint) (cp_pivot_joint_new a b pivot) cpPivotJointNew
        [⟨.ptr .cpBody, a⟩, ⟨.ptr .cpBody, b⟩, ⟨.cpVect, pivot⟩]) ∧
    (∀ a b anchorA anchorB,
      Forwards (.ptr .cpConstraint) (cp_pivot_joint_new2 a b anchorA anchorB) cpPivotJointNew2
        [⟨.ptr .cpBody, a⟩, ⟨.ptr .cpBody, b⟩, ⟨.cpVect, anchorA⟩, ⟨.cpVect, anchorB⟩]) ∧
    cpPivotJointNew ≠ cpPivotJointNew2 ∧
    (∀ body width height radius,
      Forwards (.ptr .cpShape) (cp_box_shape_new body width height radius) cpBoxShapeNew
        [⟨.ptr .cpBody, body⟩, ⟨.cpFloat, width⟩, ⟨.cpFloat, height⟩, ⟨.cpFloat, radius⟩]) ∧
    (∀ body box radius,
      Forwards (.ptr .cpShape) (cp_box_shape_new2 body box radius) cpBoxShapeNew2
        [⟨.ptr .cpBody, body⟩, ⟨.cpBB, box⟩, ⟨.cpFloat, radius⟩]) ∧
    cpBoxShapeNew ≠ cpBoxShapeNew2 ∧
    (∀ body count verts transform radius,
      Forwards (.ptr .cpShape) (cp_poly_shape_new body count verts transform radius)
        cpPolyShapeNew
        [⟨.ptr .cpBody, body⟩, ⟨.int, count⟩, ⟨.ptr .cpVect, verts⟩, ⟨.cpTransform, transform⟩,
         ⟨.cpFloat, radius⟩]) ∧
    (∀ body count verts radius,
      Forwards (.ptr .cpShape) (cp_poly_shape_new_raw body count verts radius)
        cpPolyShapeNewRaw
        [⟨.ptr .cpBody, body⟩, ⟨.int, count⟩, ⟨.ptr .cpVect, verts⟩, ⟨.cpFloat, radius⟩]) ∧
    cpPolyShapeNew ≠ cpPolyShapeNewRaw ∧
    (∀ m width height,
      Forwards .cpFloat (cp_moment_for_box m width height) cpMomentForBox
        [⟨.cpFloat, m⟩, ⟨.cpFloat, width⟩, ⟨.cpFloat, height⟩]) ∧
    (∀ m box,
      Forwards .cpFloat (cp_moment_for_box2 m box) cpMomentForBox2
        [⟨.cpFloat, m⟩, ⟨.cpBB, box⟩]) ∧
    cpMomentForBox ≠ cpMomentForBox2 := by
  refine ⟨?_, ?_, by decide, ?_, ?_, by decide, ?_, ?_, by decide, ?_, ?_, by decide⟩
  all_goals
    intros
    intro σ E s
    exact ⟨rfl, rfl, rfl⟩

/-- C26.  The four index-taking wrappers pass their index to the engine unchanged and
unchecked: for every integer i, negative or past the count included, each makes the one engine
call of its counterpart on the handle and i, never asks the engine for the count, and returns
the engine's value for that index.  The two count wrappers return the engine's count. -/
theorem index_is_passed_unchecked (arb : Ptr .cpArbiter) (shape : Ptr .cpShape) (i : Int) :
    Forwards .cpVect (cp_arbiter_get_point_a arb i) cpArbiterGetPointA
      [⟨.ptr .cpArbiter, arb⟩, ⟨.int, i⟩] ∧
    Forwards .cpVect (cp_arbiter_get_point_b arb i) cpArbiterGetPointB
      [⟨.ptr .cpArbiter, arb⟩, ⟨.int, i⟩] ∧
    Forwards .cpFloat (cp_arbiter_get_depth arb i) cpArbiterGetDepth
      [⟨.ptr .cpArbiter, arb⟩, ⟨.int, i⟩] ∧
    Forwards .cpVect (cp_poly_shape_get_vert shape i) cpPolyShapeGetVert
      [⟨.ptr .cpShape, shape⟩, ⟨.int, i⟩] ∧
    Forwards .int (cp_arbiter_get_count arb) cpArbiterGetCount [⟨.ptr .cpArbiter, arb⟩] ∧
    Forwards .int (cp_poly_shape_get_count shape) cpPolyShapeGetCount
      [⟨.ptr .cpShape, shape⟩] ∧
    cpArbiterGetCount ∉ [cpArbiterGetPointA, cpArbiterGetPointB, cpArbiterGetDepth] ∧
    cpPolyShapeGetCount ≠ cpPolyShapeGetVert ∧
    Forwards .cpVect (cp_arbiter_get_point_a arb (-1)) cpArbiterGetPointA
      [⟨.ptr .cpArbiter, arb⟩, ⟨.int, (-1 : Int)⟩] ∧
    (∀ (σ : Type) (E : Engine σ) (s : σ),
      ((cp_arbiter_get_point_a arb (((cp_arbiter_get_count arb).run E s).value + 1)).run E
        s).trace =
        [⟨cpArbiterGetPointA, [⟨.ptr .cpArbiter, arb⟩,
          ⟨.int, ((cp_arbiter_get_count arb).run E s).value + 1⟩]⟩]) ∧
    (∀ (σ : Type) (E : Engine σ) (s : σ),
      ((cp_poly_shape_get_vert shape (((cp_poly_shape_get_count shape).run E s).value)).run E
        s).trace =
        [⟨cpPolyShapeGetVert, [⟨.ptr .cpShape, shape⟩,
          ⟨.int, ((cp_poly_shape_get_count shape).run E s).value⟩]⟩]) :=
  ⟨fun _ _ _ => ⟨rfl, rfl, rfl⟩, fun _ _ _ => ⟨rfl, rfl, rfl⟩, fun _ _ _ => ⟨rfl, rfl, rfl⟩,
    fun _ _ _ => ⟨rfl, rfl, rfl⟩, fun _ _ _ => ⟨rfl, rfl, rfl⟩, fun _ _ _ => ⟨rfl, rfl, rfl⟩,
    by decide, by decide, fun _ _ _ => ⟨rfl, rfl, rfl⟩, fun _ _ _ => rfl, fun _ _ _ => rfl⟩

end Chipmunk
